import Mathlib

/-!
# Plater.cpp: job group, background-process controller, undo/redo, arrangement

A shallow embedding of the parts of `src/slic3r/GUI/Plater.cpp` that coordinate the UI jobs,
the background slicing process and the undo/redo snapshot stack.

Conventions of the embedding:

* `Plater::priv` becomes the record `Priv`; member functions become functions `Priv → Priv`
  (or `Priv → α × Priv` when they return a value).
* Calls into collaborators whose code lives outside `Plater.cpp` (the background slicing
  process, the canvas, the sidebar, the status bar, the worker thread of a job, ...) are
  appended to the log `Priv.calls`, in program order.  Values answered by such collaborators
  are taken from an explicit environment record `Env`.
* `unsigned int` bit masks are natural numbers combined with `|||` and `&&&`; `int` values are
  integers; iterators of a `std::vector` are integer positions (`begin()` is `0`, `end()` is the
  size).  A conversion to `size_t` is the remainder modulo `2^64` (`to_size_t`), and a read of a
  vector that may fall outside it returns a `Read` value.
* The debounce timer is the slot `Priv.background_process_timer`: `none` when no fire is
  pending, `some ms` when one is.
-/

namespace Plater

/-! ## Collaborators and the call log -/

/-- The enumeration `PrinterTechnology`. -/
inductive PrinterTechnology where
  | ptFFF
  | ptSLA
  deriving DecidableEq, Repr

/-- The enumeration `Print::ApplyStatus` returned by `BackgroundSlicingProcess::apply`. -/
inductive ApplyStatus where
  | APPLY_STATUS_UNCHANGED
  | APPLY_STATUS_CHANGED
  | APPLY_STATUS_INVALIDATED
  deriving DecidableEq, Repr

/-- The enumeration `ActionButtonType` of the sidebar buttons. -/
inductive ActionButtonType where
  | abReslice
  | abExport
  | abSendGCode
  deriving DecidableEq, Repr

/-- The enumeration `Plater::priv::Jobs`; the value is the index of the job in `m_jobs`. -/
inductive Jobs where
  | Arrange
  | Rotoptimize
  deriving DecidableEq, Repr

/-- The conversion `size_t(jid)` of a `Jobs` value. -/
def Jobs.toIndex : Jobs → Nat
  | Jobs.Arrange => 0
  | Jobs.Rotoptimize => 1

/-- The object a result-application callback (`setter`) of an arrange polygon writes to:
the `obj` pointer captured by the lambda in `get_arrange_poly`. -/
inductive ArrangeTarget where
  | model_instance (obj_idx : Nat) (inst_idx : Nat)
  | wipe_tower
  deriving DecidableEq, Repr

/-- One call into a collaborator of `Plater::priv`, as recorded in `Priv.calls`. -/
inductive Call where
  | background_process_stop
  | background_process_start
  | background_process_apply
  | background_process_validate
  | job_cancel (jid : Nat)
  | job_join (jid : Nat) (wait_ms : Int)
  | job_start (jid : Nat)
  | log_error (msg : String)
  | timer_stop
  | timer_start (ms : Nat)
  | update_print_volume_state
  | canvas_refresh
  | canvas_set_config
  | show_sliced_info_sizer (visible : Bool)
  | preview_reload_print
  | reload_scene (refresh_immediately : Bool) (force_full_scene_refresh : Bool)
  | show_error (msg : String)
  | queue_process_completed (value : Int)
  | set_btn_label (btn : ActionButtonType) (label : String)
  | set_status_text (text : String)
  | set_cancel_callback
  | show_action_buttons (ready_to_slice : Bool)
  | apply_arrange_result (target : ArrangeTarget) (tx : Int) (ty : Int) (rotation : Int)
  | center_instances_around_point
  | log_info (msg : String)
  | schedule_export (path : String) (on_removable_media : Bool)
  | schedule_upload (host : String)
  | set_task
  | check_unsaved_changes (msg : String)
  | force_main_toolbar_left_action (item : String)
  | stack_undo (time_to_load : Nat)
  | stack_redo (time_to_load : Nat)
  | app_config_set_printer (name : String)
  | load_presets
  | unselect_objects
  | load_current_presets
  | tab_print_load_config (position : Int × Int) (rotation : Int)
  | set_selection_mode (mode : Nat)
  | set_selected_layers_range_idx (idx : Int)
  | gizmos_update_after_undo_redo
  | obj_list_update_after_undo_redo
  | save_mode_advanced
  | view3D_set_as_dirty
  | job_finalize
  | canvas_set_focus (preview_canvas : Bool)
  deriving DecidableEq, Repr

/-- The lifecycle state of a job (spec §3, "Job — state: {Idle, Running, Cancelling}"). -/
inductive JobState where
  | Idle
  | Running
  | Cancelling
  deriving DecidableEq, Repr

/-- Modelled from the spec: the base class `Job` (declared in `Job.hpp`, which is not among the
sources).  Only the lifecycle state of §3 is kept. -/
structure Job where
  state : JobState := JobState.Idle
  deriving DecidableEq, Repr

/-- Modelled from the spec: `Job::is_running()` of the missing `Job.hpp`; a job is running
unless it is `Idle`. -/
def Job.is_running (j : Job) : Bool :=
  j.state != JobState.Idle

/-- Modelled from the spec: `Job::cancel()` of the missing `Job.hpp`; "`cancel` sets the
cooperative flag". -/
def Job.cancel (j : Job) : Job :=
  match j.state with
  | JobState.Idle => j
  | _ => { j with state := JobState.Cancelling }

/-- Modelled from the spec: `Job::join(timeout)` of the missing `Job.hpp`; "`join` blocks the
caller up to `timeout` and reports whether the job reached `Idle` in time".  Whether the worker
thread got there in time is the environment's answer `reached_idle`. -/
def Job.join (reached_idle : Bool) (j : Job) : Bool × Job :=
  if j.state = JobState.Idle then (true, j)
  else if reached_idle then (true, { j with state := JobState.Idle })
  else (false, j)

/-- Modelled from the spec: `Job::start()` of the missing `Job.hpp`; "`start` is rejected
(no-op) if already running". -/
def Job.start (j : Job) : Job :=
  if j.is_running then j else { j with state := JobState.Running }

/-- The facts about `BackgroundSlicingProcess` that `Plater.cpp` queries: `empty()`,
`running()`, `finished()` and `is_export_scheduled()`. -/
structure BackgroundSlicingProcess where
  empty : Bool := true
  running : Bool := false
  finished : Bool := false
  export_scheduled : Bool := false
  deriving DecidableEq, Repr

/-! ## Scene model, selection and arrangement data -/

/-- The part of a `ModelInstance` the arrangement reads: the `printable` flag and the
translation and rotation of the polygon returned by its `get_arrange_polygon()`. -/
structure ModelInstance where
  printable : Bool := true
  tx : Int := 0
  ty : Int := 0
  rotation : Int := 0
  deriving DecidableEq, Repr

/-- A `ModelObject`: the vector `instances`. -/
structure ModelObject where
  instances : List ModelInstance := []
  deriving DecidableEq, Repr

/-- The cached wipe tower information `priv::WipeTower`; `present` is its `operator bool`. -/
structure WipeTower where
  present : Bool := false
  tx : Int := 0
  ty : Int := 0
  rotation : Int := 0
  deriving DecidableEq, Repr

/-- The part of `GUI::Selection` read by the arrangement: `get_content()`, a map from object
index to the set of selected instance indices (a list of key/value pairs in key order; indices
of a selection are non-negative), and `is_wipe_tower()`. -/
structure Selection where
  content : List (Nat × List Nat) := []
  is_wipe_tower : Bool := false
  deriving DecidableEq, Repr

/-- The type `arrangement::ArrangePolygon`: translation, rotation, bed index, priority, and the
object its `setter` writes to.  The silhouette polygon itself plays no role in `Plater.cpp`. -/
structure ArrangePolygon where
  target : ArrangeTarget
  tx : Int
  ty : Int
  rotation : Int
  bed_idx : Int
  priority : Int
  deriving DecidableEq, Repr

/-! ## Undo / redo data -/

/-- The type `UndoRedo::SnapshotData`: the printer technology, the flag set (one field per
flag of `SnapshotData::Flags`) and `layer_range_idx`. -/
structure SnapshotData where
  printer_technology : PrinterTechnology := PrinterTechnology.ptFFF
  variable_layer_editing_active : Bool := false
  selected_settings_on_sidebar : Bool := false
  selected_layerroot_on_sidebar : Bool := false
  selected_layer_on_sidebar : Bool := false
  recalculate_sla_supports : Bool := false
  layer_range_idx : Int := -1
  deriving DecidableEq, Repr

/-- The type `UndoRedo::Snapshot`, reduced to what `Plater.cpp` reads: the time stamp (the key
of `operator<`), the name and `snapshot_data`; `memsize` is the memory the capture holds. -/
structure Snapshot where
  timestamp : Nat
  name : String := ""
  snapshot_data : SnapshotData := {}
  memsize : Nat := 0
  deriving DecidableEq, Repr

/-- The type `UndoRedo::Stack` as seen through `snapshots()` and `active_snapshot_time()`. -/
structure Stack where
  snapshots : List Snapshot := []
  active_snapshot_time : Nat := 0
  memory_limit : Nat := 0
  deriving DecidableEq, Repr

/-- Which of the two stacks `m_undo_redo_stack_active` points to. -/
inductive ActiveStack where
  | main
  | gizmos
  deriving DecidableEq, Repr

/-! ## The state `Plater::priv` -/

/-- The members of `Plater::priv` that the modelled functions read or write. -/
structure Priv where
  printer_technology : PrinterTechnology := PrinterTechnology.ptFFF
  /-- `model.objects` -/
  objects : List ModelObject := []
  /-- `model.wipe_tower.position` -/
  model_wipe_tower_position : Int × Int := (0, 0)
  /-- `model.wipe_tower.rotation` -/
  model_wipe_tower_rotation : Int := 0
  /-- what `get_selection()` returns -/
  selection : Selection := {}
  /-- what `updated_wipe_tower()` returns -/
  wipetower : WipeTower := {}
  /-- the value of `ArrangeJob::bed_stride()`, a function of the bed width -/
  bed_stride : Int := 1
  /-- `config->opt_bool("wipe_tower")` -/
  config_wipe_tower : Bool := false
  /-- `background_processing_enabled()` -/
  config_background_processing : Bool := false
  background_process : BackgroundSlicingProcess := {}
  /-- the registry `m_ui_jobs.m_jobs`: `arrange_job`, `rotoptimize_job` -/
  m_jobs : List Job := [{}, {}]
  delayed_error_message : String := ""
  /-- the single-shot `background_process_timer`: the delay of the pending fire, if any -/
  background_process_timer : Option Nat := none
  suppressed_backround_processing_update : Bool := false
  label_btn_export : String := "Export G-code"
  label_btn_send : String := "Send G-code"
  m_undo_redo_stack_main : Stack := {}
  m_undo_redo_stack_gizmos : Stack := {}
  m_undo_redo_stack_active : ActiveStack := ActiveStack.main
  m_prevent_snapshots : Int := 0
  m_last_fff_printer_profile_name : String := ""
  m_last_sla_printer_profile_name : String := ""
  /-- the calls made to collaborators so far, oldest first -/
  calls : List Call := []
  deriving DecidableEq, Repr

/-- Record one call into a collaborator. -/
def Priv.log (s : Priv) (c : Call) : Priv :=
  { s with calls := s.calls ++ [c] }

/-- What the collaborators answer during one call of a member function. -/
structure Env where
  /-- result of `Job::join` per job index: did the worker reach `Idle` within the wait -/
  join_reached_idle : Nat → Bool := fun _ => true
  /-- result of `background_process.start()` -/
  start_ok : Bool := true
  /-- status returned by `background_process.apply(...)` -/
  apply_status : ApplyStatus := ApplyStatus.APPLY_STATUS_UNCHANGED
  /-- state of the background process once `apply` has returned -/
  after_apply : BackgroundSlicingProcess := {}
  /-- string returned by `background_process.validate()` -/
  validate_err : String := ""
  /-- `top_level_wnd && top_level_wnd->IsActive()` -/
  top_level_active : Bool := true
  /-- `view3D->is_layers_editing_enabled()` -/
  layers_editing_enabled : Bool := false
  /-- `this->preview != nullptr` -/
  preview_exists : Bool := true
  /-- `wxGetApp().get_mode() == comSimple` -/
  mode_simple : Bool := false
  /-- the string constant `dots` appended to menu and button labels -/
  dots : String := "..."
  /-- `sidebar->obj_list()->is_selected(itSettings)` -/
  selected_settings : Bool := false
  /-- `sidebar->obj_list()->is_selected(itLayer)` -/
  selected_layer : Bool := false
  /-- `sidebar->obj_list()->is_selected(itLayerRoot)` -/
  selected_layerroot : Bool := false
  /-- `sidebar->obj_list()->get_selected_layers_range_idx()` -/
  selected_layers_range_idx : Int := 0
  /-- `get_gizmos_manager().wants_reslice_supports_on_undo()` -/
  wants_reslice_supports_on_undo : Bool := false
  /-- `wipe_tower_x`, `wipe_tower_y` of the edited print preset -/
  wipe_tower_xy : Int × Int := (0, 0)
  /-- `wipe_tower_rotation_angle` of the edited print preset -/
  wipe_tower_rotation_angle : Int := 0
  /-- `preset_bundle->printers.get_selected_preset_name()` -/
  selected_preset_name : String := ""
  /-- memory taken by a snapshot captured now -/
  snapshot_memsize : Nat := 0
  /-- `get_config("autocenter") == "1"` -/
  autocenter : Bool := false
  /-- the constant `arrangement::UNARRANGED` of `Arrange.hpp`, the bed index of an item the
  packer did not place -/
  unarranged : Int := -1
  /-- result of `wxGetApp().check_unsaved_changes(...)`: the user accepts the switch -/
  confirm_switch : Bool := true
  /-- result of `undo_redo_stack().undo(...)` / `redo(...)` -/
  jump_ok : Bool := true
  /-- the objects of the model deserialized by the jump -/
  restored_objects : List ModelObject := []
  /-- `model.wipe_tower.position` as deserialized by the jump -/
  restored_wipe_tower_position : Int × Int := (0, 0)
  /-- `model.wipe_tower.rotation` as deserialized by the jump -/
  restored_wipe_tower_rotation : Int := 0
  /-- `undo_redo_stack().selection_deserialized()` -/
  selection_deserialized : Selection := {}
  /-- `view3D->is_layers_editing_enabled()` once the jump and the update are done -/
  layers_editing_enabled_after : Bool := false
  /-- `layers_height_allowed()` -/
  layers_height_allowed : Bool := false
  /-- `model_has_advanced_features(this->model)` -/
  model_has_advanced_features : Bool := false
  /-- the code is compiled with `__linux__` defined -/
  linux : Bool := false
  /-- `view3D->IsShown()` -/
  view3D_shown : Bool := true
  /-- `preview->IsShown()` -/
  preview_shown : Bool := false
  /-- `!focus_window || focus_window == view3D->get_wxglcanvas()` -/
  focus_free : Bool := false
  /-- the priority a default-constructed `ArrangePolygon` has (declared in `Arrange.hpp`) -/
  default_priority : Int := 0
  /-- what `arrangement::arrange(movable, fixed, ...)` writes, in place, into the movable
  item at each index: translation x and y, rotation, bed index -/
  arrange_result : List ArrangePolygon → List ArrangePolygon → Nat → Int × Int × Int × Int :=
    fun _ _ _ => (0, 0, 0, 0)

/-! ## `ExclusiveJobGroup` -/

/-- The constant `ExclusiveJobGroup::ABORT_WAIT_MAX_MS`. -/
def ABORT_WAIT_MAX_MS : Int := 10000

/-- The loop of `cancel_all` over the jobs from index `jid` on. -/
def cancel_from (jid : Nat) : List Job → List Job × List Call
  | [] => ([], [])
  | j :: rest =>
    let r := cancel_from (jid + 1) rest
    (j.cancel :: r.1, Call.job_cancel jid :: r.2)

/-- `ExclusiveJobGroup::cancel_all`: `for (Job& j : m_jobs) j.cancel();`. -/
def cancel_all (s : Priv) : Priv :=
  let r := cancel_from 0 s.m_jobs
  { s with m_jobs := r.1, calls := s.calls ++ r.2 }

/-- The loop of `join_all` over the jobs from index `jid` on; the first component is the
slice of the vector `aborted` it fills. -/
def join_from (env : Env) (wait_ms : Int) (jid : Nat) :
    List Job → List Bool × List Job × List Call
  | [] => ([], [], [])
  | j :: rest =>
    let a := j.join (env.join_reached_idle jid)
    let r := join_from env wait_ms (jid + 1) rest
    (a.1 :: r.1, a.2 :: r.2.1, Call.job_join jid wait_ms :: r.2.2)

/-- `ExclusiveJobGroup::join_all(wait_ms)`: join every job, log an error unless all joined. -/
def join_all (env : Env) (wait_ms : Int) (s : Priv) : Priv :=
  let r := join_from env wait_ms 0 s.m_jobs
  let s1 := { s with m_jobs := r.2.1, calls := s.calls ++ r.2.2 }
  if !(r.1.all id) then s1.log (Call.log_error "Could not abort a job!") else s1

/-- `ExclusiveJobGroup::stop_all`: `cancel_all(); join_all(ABORT_WAIT_MAX_MS);`. -/
def stop_all (env : Env) (s : Priv) : Priv :=
  join_all env ABORT_WAIT_MAX_MS (cancel_all s)

/-- Modelled from the spec: `BackgroundSlicingProcess::stop()` (`BackgroundSlicingProcess.cpp`
is not among the sources); it "stops the background-computation backend (blocking until
idle)".  The call is recorded and the process is no longer running afterwards. -/
def background_process_stop (s : Priv) : Priv :=
  { s.log Call.background_process_stop with
    background_process := { s.background_process with running := false } }

/-- `ExclusiveJobGroup::start(jid)`: stop the background process, stop all jobs, start
`m_jobs[size_t(jid)]`.  The result is `none` when the index is outside `m_jobs`. -/
def start (env : Env) (jid : Jobs) (s : Priv) : Option Priv :=
  let s1 := background_process_stop s
  let s2 := stop_all env s1
  match s2.m_jobs.get? jid.toIndex with
  | none => none
  | some j =>
    some { s2 with m_jobs := s2.m_jobs.set jid.toIndex j.start,
                   calls := s2.calls ++ [Call.job_start jid.toIndex] }

/-- `ExclusiveJobGroup::is_any_running`: `std::any_of` over `m_jobs` of `is_running()`. -/
def is_any_running (s : Priv) : Bool :=
  s.m_jobs.any Job.is_running

/-! ## Background-process controller -/

/-- `UPDATE_BACKGROUND_PROCESS_RESTART = 1`. -/
def UPDATE_BACKGROUND_PROCESS_RESTART : Nat := 1
/-- `UPDATE_BACKGROUND_PROCESS_REFRESH_SCENE = 2`. -/
def UPDATE_BACKGROUND_PROCESS_REFRESH_SCENE : Nat := 2
/-- `UPDATE_BACKGROUND_PROCESS_INVALID = 4`. -/
def UPDATE_BACKGROUND_PROCESS_INVALID : Nat := 4
/-- `UPDATE_BACKGROUND_PROCESS_FORCE_RESTART = 8`. -/
def UPDATE_BACKGROUND_PROCESS_FORCE_RESTART : Nat := 8
/-- `UPDATE_BACKGROUND_PROCESS_FORCE_EXPORT = 16`. -/
def UPDATE_BACKGROUND_PROCESS_FORCE_EXPORT : Nat := 16

/-- `Plater::priv::restart_background_process(state)`. -/
def restart_background_process (env : Env) (state : Nat) (s : Priv) : Bool × Priv :=
  if is_any_running s then
    -- Avoid a race condition
    (false, s)
  else if !s.background_process.empty &&
      (state &&& UPDATE_BACKGROUND_PROCESS_INVALID) == 0 &&
      (((state &&& UPDATE_BACKGROUND_PROCESS_FORCE_RESTART) != 0 &&
          !s.background_process.finished) ||
        (state &&& UPDATE_BACKGROUND_PROCESS_FORCE_EXPORT) != 0 ||
        (state &&& UPDATE_BACKGROUND_PROCESS_RESTART) != 0) then
    -- The print is valid and it can be started.
    let s1 := s.log Call.background_process_start
    if env.start_ok then (true, s1.log Call.set_cancel_callback) else (false, s1)
  else
    (false, s)

/-- `Plater::priv::schedule_background_process`. -/
def schedule_background_process (s : Priv) : Priv :=
  let s := { s with delayed_error_message := "" }
  -- Trigger the timer event after 0.5s
  let s := { s.log (Call.timer_start 500) with background_process_timer := some 500 }
  s.log Call.canvas_set_config

/-- `Plater::priv::show_delayed_error_message`. -/
def show_delayed_error_message (s : Priv) : Priv :=
  if s.delayed_error_message != "" then
    let msg := s.delayed_error_message
    let s := { s with delayed_error_message := "" }
    s.log (Call.show_error msg)
  else s

/-- The first block of `update_background_process`: the reaction to
`invalidated == Print::APPLY_STATUS_INVALIDATED`. -/
def update_invalidated (env : Env) (s : Priv) : Nat × Priv :=
  if env.apply_status = ApplyStatus.APPLY_STATUS_INVALIDATED then
    let s := s.log (Call.show_sliced_info_sizer false)
    let s := if env.preview_exists then s.log Call.preview_reload_print else s
    if s.printer_technology = PrinterTechnology.ptSLA ||
        (s.printer_technology = PrinterTechnology.ptFFF && s.config_wipe_tower) then
      (UPDATE_BACKGROUND_PROCESS_REFRESH_SCENE, s)
    else (0, s)
  else (0, s)

/-- The second block of `update_background_process`: validation of a changed, non-empty
print, or reuse of the stored error. -/
def update_validate (env : Env) (force_validation postpone_error_messages : Bool)
    (return_state : Nat) (s : Priv) : Nat × Priv :=
  if (env.apply_status != ApplyStatus.APPLY_STATUS_UNCHANGED || force_validation) &&
      !s.background_process.empty then
    -- The delayed error message is no more valid.
    let s := { s with delayed_error_message := "" }
    let s := s.log Call.background_process_validate
    let err := env.validate_err
    if err = "" then
      if env.apply_status != ApplyStatus.APPLY_STATUS_UNCHANGED &&
          s.config_background_processing then
        (return_state ||| UPDATE_BACKGROUND_PROCESS_RESTART, s)
      else (return_state, s)
    else
      -- The print is not valid.
      let s :=
        if !postpone_error_messages && env.top_level_active then
          s.log (Call.show_error err)
        else
          { s with delayed_error_message := err }
      (return_state ||| UPDATE_BACKGROUND_PROCESS_INVALID, s)
  else if s.delayed_error_message != "" then
    -- Reusing the old state.
    (return_state ||| UPDATE_BACKGROUND_PROCESS_INVALID, s)
  else (return_state, s)

/-- The third block of `update_background_process`: the "canceled" notification. -/
def update_notify_cancelled (env : Env) (was_running : Bool) (return_state : Nat)
    (s : Priv) : Priv :=
  if env.apply_status != ApplyStatus.APPLY_STATUS_UNCHANGED && was_running &&
      !s.background_process.running &&
      (return_state &&& UPDATE_BACKGROUND_PROCESS_RESTART) == 0 then
    s.log (Call.queue_process_completed (-1))
  else s

/-- The last block of `update_background_process`: button labels and status text. -/
def update_buttons (env : Env) (return_state : Nat) (s : Priv) : Priv :=
  if (return_state &&& UPDATE_BACKGROUND_PROCESS_INVALID) != 0 then
    -- Validation of the background data failed.
    ((s.log (Call.set_btn_label ActionButtonType.abReslice "Invalid data")).log
      (Call.set_btn_label ActionButtonType.abSendGCode "Invalid data")).log
      (Call.set_btn_label ActionButtonType.abExport "Invalid data")
  else
    -- Background data is valid.
    let s :=
      if (return_state &&& UPDATE_BACKGROUND_PROCESS_RESTART) != 0 ||
          (return_state &&& UPDATE_BACKGROUND_PROCESS_REFRESH_SCENE) != 0 then
        s.log (Call.set_status_text "Ready to slice")
      else s
    let s := s.log (Call.set_btn_label ActionButtonType.abExport s.label_btn_export)
    let s := s.log (Call.set_btn_label ActionButtonType.abSendGCode s.label_btn_send)
    let slice_string :=
      if s.background_process.running && env.mode_simple then "Slicing" ++ env.dots
      else "Slice now"
    let s := s.log (Call.set_btn_label ActionButtonType.abReslice slice_string)
    if s.background_process.finished then
      s.log (Call.show_action_buttons false)
    else if !s.background_process.empty && !s.background_process.running then
      s.log (Call.show_action_buttons true)
    else s

/-- `Plater::priv::update_background_process(force_validation, postpone_error_messages)`;
returns the bit mask of `UpdateBackgroundProcessReturnState`. -/
def update_background_process (env : Env) (force_validation postpone_error_messages : Bool)
    (s : Priv) : Nat × Priv :=
  -- kill the timer
  let s := { s.log Call.timer_stop with background_process_timer := none }
  let s := s.log Call.update_print_volume_state
  -- Apply new config to the possibly running background task.
  let was_running := s.background_process.running
  let s := { s.log Call.background_process_apply with background_process := env.after_apply }
  let s := if env.layers_editing_enabled then s.log Call.canvas_refresh else s
  let r1 := update_invalidated env s
  let r2 := update_validate env force_validation postpone_error_messages r1.1 r1.2
  let s := update_notify_cancelled env was_running r2.1 r2.2
  (r2.1, update_buttons env r2.1 s)

/-- `Plater::priv::update_restart_background_process(force_update_scene,
force_update_preview)`. -/
def update_restart_background_process (env : Env)
    (force_update_scene force_update_preview : Bool) (s : Priv) : Nat × Priv :=
  let r := update_background_process env false false s
  let state := r.1
  let s := r.2
  let s :=
    if force_update_scene || (state &&& UPDATE_BACKGROUND_PROCESS_REFRESH_SCENE) != 0 then
      s.log (Call.reload_scene false false)
    else s
  let s := if force_update_preview then s.log Call.preview_reload_print else s
  (state, (restart_background_process env state s).2)

/-- The condition under which `update_background_process` validates the print:
`(invalidated != APPLY_STATUS_UNCHANGED || force_validation) && !background_process.empty()`,
the background process being in the state `apply` left it in. -/
def validation_runs (env : Env) (force_validation : Bool) : Bool :=
  (env.apply_status != ApplyStatus.APPLY_STATUS_UNCHANGED || force_validation) &&
    !env.after_apply.empty

/-- The log of `u` continues the log of `t`: everything `t` recorded comes first. -/
def calls_extend (t u : Priv) : Prop :=
  ∃ tail, u.calls = t.calls ++ tail

/-- The states `t` and `u` differ at most in what the controller writes: the call log, the
stored error, the state of the background process and the debounce timer. -/
def controller_frame (t u : Priv) : Prop :=
  { u with calls := t.calls, delayed_error_message := t.delayed_error_message,
           background_process := t.background_process,
           background_process_timer := t.background_process_timer } = t

/-- The error messages handed to `GUI::show_error`, oldest first. -/
def shown_errors : List Call → List String
  | [] => []
  | Call.show_error msg :: rest => msg :: shown_errors rest
  | _ :: rest => shown_errors rest

/-- The calls `schedule_export` and `schedule_upload` of a log. -/
def scheduled : List Call → List Call
  | [] => []
  | Call.schedule_export path removable :: rest =>
    Call.schedule_export path removable :: scheduled rest
  | Call.schedule_upload host :: rest => Call.schedule_upload host :: scheduled rest
  | _ :: rest => scheduled rest

/-- `Plater::on_activate`: under `__linux__` the keyboard focus goes to the visible canvas;
then the delayed error message is shown. -/
def on_activate (env : Env) (s : Priv) : Priv :=
  let s :=
    if env.linux then
      if env.view3D_shown && env.focus_free then s.log (Call.canvas_set_focus false)
      else if env.preview_shown && env.focus_free then s.log (Call.canvas_set_focus true)
      else s
    else s
  show_delayed_error_message s

/-- `Plater::priv::export_gcode(output_path, output_path_on_removable_media, upload_job)`;
an empty path is `""`, an empty upload job is `none`. -/
def export_gcode (env : Env) (output_path : String) (output_path_on_removable_media : Bool)
    (upload_job : Option String) (s : Priv) : Priv :=
  -- wxCHECK_RET(!(output_path.empty() && upload_job.empty()), ...)
  if output_path = "" && upload_job.isNone then s
  else if s.objects.isEmpty then s
  else if s.background_process.export_scheduled then
    s.log (Call.show_error "Another export job is currently running.")
  else
    -- bitmask of UpdateBackgroundProcessReturnState
    let r := update_background_process env true false s
    let state := r.1
    let s := r.2
    let s :=
      if (state &&& UPDATE_BACKGROUND_PROCESS_REFRESH_SCENE) != 0 then
        s.log (Call.reload_scene false false)
      else s
    if (state &&& UPDATE_BACKGROUND_PROCESS_INVALID) != 0 then s
    else
      let s :=
        if output_path != "" then
          s.log (Call.schedule_export output_path output_path_on_removable_media)
        else
          match upload_job with
          | some host => s.log (Call.schedule_upload host)
          | none => s
      let s := s.log Call.set_task
      (restart_background_process env UPDATE_BACKGROUND_PROCESS_FORCE_EXPORT s).2

/-- The flags of `Plater::priv::UpdateParams`. -/
def FORCE_FULL_SCREEN_REFRESH : Nat := 1
/-- `UpdateParams::FORCE_BACKGROUND_PROCESSING_UPDATE = 2`. -/
def FORCE_BACKGROUND_PROCESSING_UPDATE : Nat := 2
/-- `UpdateParams::POSTPONE_VALIDATION_ERROR_MESSAGE = 4`. -/
def POSTPONE_VALIDATION_ERROR_MESSAGE : Nat := 4

/-- `Plater::priv::update(flags)`. -/
def update (env : Env) (flags : Nat) (s : Priv) : Priv :=
  let s := if env.autocenter then s.log Call.center_instances_around_point else s
  let r :=
    if s.printer_technology = PrinterTechnology.ptSLA ||
        (flags &&& FORCE_BACKGROUND_PROCESSING_UPDATE) != 0 then
      update_background_process env false
        ((flags &&& POSTPONE_VALIDATION_ERROR_MESSAGE) != 0) s
    else (0, s)
  let update_status := r.1
  let s := r.2
  let s := s.log (Call.reload_scene false ((flags &&& FORCE_FULL_SCREEN_REFRESH) != 0))
  let s := s.log Call.preview_reload_print
  if s.printer_technology = PrinterTechnology.ptSLA then
    (restart_background_process env update_status s).2
  else
    schedule_background_process s

/-! ## `ArrangeJob` -/

/-- The three containers of `ArrangeJob`. -/
structure ArrangeJob where
  m_selected : List ArrangePolygon := []
  m_unselected : List ArrangePolygon := []
  m_unprintable : List ArrangePolygon := []
  deriving DecidableEq, Repr

/-- The container an item is routed to. -/
inductive Container where
  | selected
  | unselected
  | unprintable
  deriving DecidableEq, Repr

/-- `cont.emplace_back(ap)` on the chosen container. -/
def ArrangeJob.emplace_back (job : ArrangeJob) (cont : Container) (ap : ArrangePolygon) :
    ArrangeJob :=
  match cont with
  | Container.selected => { job with m_selected := job.m_selected ++ [ap] }
  | Container.unselected => { job with m_unselected := job.m_unselected ++ [ap] }
  | Container.unprintable => { job with m_unprintable := job.m_unprintable ++ [ap] }

/-- `ArrangeJob::clear_input`: the three containers are emptied (the `reserve` calls do not
change their content). -/
def clear_input (_job : ArrangeJob) : ArrangeJob :=
  { m_selected := [], m_unselected := [], m_unprintable := [] }

/-- `ArrangeJob::get_arrange_poly(T *obj)`: given the polygon `obj->get_arrange_polygon()`
(translation `tx`, `ty` and rotation) of the object `target`, reset the priority, derive the
bed index from the x translation by truncating division, and install the setter writing to
`target`.  A stride of 0 (a division by zero in C++) gives bed index 0 here. -/
def get_arrange_poly (stride : Int) (target : ArrangeTarget) (tx ty rotation : Int) :
    ArrangePolygon :=
  { target := target, tx := tx, ty := ty, rotation := rotation,
    priority := 0, bed_idx := Int.tdiv tx stride }

/-- `get_arrange_poly(mi)` for instance `inst_idx` of object `obj_idx`. -/
def get_arrange_poly_instance (stride : Int) (x : Nat × Nat × ModelInstance) : ArrangePolygon :=
  get_arrange_poly stride (ArrangeTarget.model_instance x.1 x.2.1) x.2.2.tx x.2.2.ty
    x.2.2.rotation

/-- `get_arrange_poly(&wti)` for the wipe tower. -/
def get_arrange_poly_wipe_tower (stride : Int) (wti : WipeTower) : ArrangePolygon :=
  get_arrange_poly stride ArrangeTarget.wipe_tower wti.tx wti.ty wti.rotation

/-- The inner loop of `prepare_all` over the instances of object `oidx`, from instance `i`. -/
def prepare_all_instances (stride : Int) (oidx : Nat) :
    Nat → List ModelInstance → ArrangeJob → ArrangeJob
  | _, [], job => job
  | i, mi :: rest, job =>
    let cont := if mi.printable then Container.selected else Container.unprintable
    prepare_all_instances stride oidx (i + 1) rest
      (job.emplace_back cont (get_arrange_poly_instance stride (oidx, i, mi)))

/-- The outer loop of `prepare_all` over the objects, from object `oidx`. -/
def prepare_all_objects (stride : Int) : Nat → List ModelObject → ArrangeJob → ArrangeJob
  | _, [], job => job
  | oidx, mo :: rest, job =>
    prepare_all_objects stride (oidx + 1) rest
      (prepare_all_instances stride oidx 0 mo.instances job)

/-- `ArrangeJob::prepare_all`. -/
def prepare_all (s : Priv) (job : ArrangeJob) : ArrangeJob :=
  let job := clear_input job
  let job := prepare_all_objects s.bed_stride 0 s.objects job
  let wti := s.wipetower
  if wti.present then
    job.emplace_back Container.selected (get_arrange_poly_wipe_tower s.bed_stride wti)
  else job

/-- The vector `obj_sel` of `prepare_selected`: for every object index the selected instance
list, if the selection has one (`nullptr` is `none`). -/
def obj_sel (n : Nat) (content : List (Nat × List Nat)) : List (Option (List Nat)) :=
  content.foldl
    (fun acc sl => if sl.1 < acc.length then acc.set sl.1 (some sl.2) else acc)
    (List.replicate n none)

/-- The vector `inst_sel` of `prepare_selected` for an object with `n` instances.  A write
at an index outside the vector (undefined in C++) has no effect here. -/
def inst_sel (n : Nat) (instlist : Option (List Nat)) : List Bool :=
  match instlist with
  | none => List.replicate n false
  | some l => l.foldl (fun acc inst_id => acc.set inst_id true) (List.replicate n false)

/-- The loop `for (i = 0; i < inst_sel.size(); ++i)` of `prepare_selected` for object `oidx`,
from instance `i`; `inst_sel` has one entry per instance. -/
def prepare_selected_instances (stride : Int) (oidx : Nat) :
    Nat → List ModelInstance → List Bool → ArrangeJob → ArrangeJob
  | i, mi :: rest, sel :: sels, job =>
    let cont :=
      if mi.printable then (if sel then Container.selected else Container.unselected)
      else Container.unprintable
    prepare_selected_instances stride oidx (i + 1) rest sels
      (job.emplace_back cont (get_arrange_poly_instance stride (oidx, i, mi)))
  | _, _, _, job => job

/-- The loop `for (oidx = 0; oidx < model.objects.size(); ++oidx)` of `prepare_selected`,
from object `oidx`; `obj_sel` has one entry per object. -/
def prepare_selected_objects (stride : Int) :
    Nat → List ModelObject → List (Option (List Nat)) → ArrangeJob → ArrangeJob
  | oidx, mo :: rest, instlist :: lists, job =>
    prepare_selected_objects stride (oidx + 1) rest lists
      (prepare_selected_instances stride oidx 0 mo.instances
        (inst_sel mo.instances.length instlist) job)
  | _, _, _, job => job

/-- The statement `p.translation(X) -= p.bed_idx * stride` applied to a fixed item. -/
def remove_stride (stride : Int) (p : ArrangePolygon) : ArrangePolygon :=
  { p with tx := p.tx - p.bed_idx * stride }

/-- `ArrangeJob::prepare_selected`. -/
def prepare_selected (s : Priv) (job : ArrangeJob) : ArrangeJob :=
  let job := clear_input job
  let stride := s.bed_stride
  let sel := obj_sel s.objects.length s.selection.content
  -- Go through the objects and check if inside the selection
  let job := prepare_selected_objects stride 0 s.objects sel job
  let wti := s.wipetower
  let job :=
    if wti.present then
      let ap := get_arrange_poly_wipe_tower stride wti
      if s.selection.is_wipe_tower then job.emplace_back Container.selected ap
      else job.emplace_back Container.unselected ap
    else job
  -- If the selection was empty arrange everything
  let job :=
    if job.m_selected.isEmpty then
      { job with m_selected := job.m_unselected, m_unselected := job.m_selected }
    else job
  -- The strides have to be removed from the fixed items.
  { job with m_unselected := job.m_unselected.map (remove_stride stride) }

/-- `ArrangePolygon::is_arranged()`: the bed index is not `UNARRANGED`. -/
def ArrangePolygon.is_arranged (env : Env) (p : ArrangePolygon) : Bool :=
  p.bed_idx != env.unarranged

/-- `ArrangePolygon::apply()`: run the setter installed by `get_arrange_poly` on the
polygon itself. -/
def ArrangePolygon.apply (env : Env) (stride : Int) (p : ArrangePolygon) (s : Priv) : Priv :=
  if p.is_arranged env then
    s.log (Call.apply_arrange_result p.target (p.tx + p.bed_idx * stride) p.ty p.rotation)
  else s

/-- The first loop of `finalize`: `beds = max(ap.bed_idx, beds); ap.apply();`. -/
def finalize_selected (env : Env) (stride : Int) :
    List ArrangePolygon → Int × Priv → Int × Priv
  | [], acc => acc
  | ap :: rest, (beds, s) =>
    finalize_selected env stride rest (max ap.bed_idx beds, ap.apply env stride s)

/-- The second loop of `finalize`: `beds = max(ap.bed_idx, beds);`. -/
def finalize_unselected : List ArrangePolygon → Int → Int
  | [], beds => beds
  | ap :: rest, beds => finalize_unselected rest (max ap.bed_idx beds)

/-- The third loop of `finalize`: `ap.bed_idx += beds + 1; ap.apply();`. -/
def finalize_unprintable (env : Env) (stride : Int) (beds : Int) :
    List ArrangePolygon → Priv → List ArrangePolygon × Priv
  | [], s => ([], s)
  | ap :: rest, s =>
    let ap1 := { ap with bed_idx := ap.bed_idx + (beds + 1) }
    let r := finalize_unprintable env stride beds rest (ap1.apply env stride s)
    (ap1 :: r.1, r.2)

/-- `ArrangeJob::finalize`; `was_canceled` is the answer of `Job::was_canceled()`. -/
def finalize (env : Env) (was_canceled : Bool) (job : ArrangeJob) (s : Priv) :
    ArrangeJob × Priv :=
  -- Ignore the arrange result if aborted.
  if was_canceled then (job, s)
  else
    -- Unprintable items go to the last virtual bed
    let r := finalize_selected env s.bed_stride job.m_selected (0, s)
    let beds := finalize_unselected job.m_unselected r.1
    let u := finalize_unprintable env s.bed_stride beds job.m_unprintable r.2
    ({ job with m_unprintable := u.1 }, update env 0 u.2)

/-- `PlaterJob::finalize`, the default `finalize` of the jobs of the group: a full refresh of
the scene unless the job was cancelled, then `Job::finalize()`. -/
def PlaterJob.finalize (env : Env) (was_canceled : Bool) (s : Priv) : Priv :=
  let s := if !was_canceled then update env FORCE_FULL_SCREEN_REFRESH s else s
  s.log Call.job_finalize

/-- The virtual call `finalize()` on the job registered under `jid`: `ArrangeJob` overrides
`finalize`, `RotoptimizeJob` inherits `PlaterJob::finalize`. -/
def finalize_of (env : Env) (jid : Jobs) (was_canceled : Bool) (job : ArrangeJob) (s : Priv) :
    ArrangeJob × Priv :=
  match jid with
  | Jobs.Arrange => finalize env was_canceled job s
  | Jobs.Rotoptimize => (job, PlaterJob.finalize env was_canceled s)

/-- Following the spec's words: the instances of object `oidx`, from instance `i`, each with
its object index and instance index. -/
def instances_from (oidx : Nat) : Nat → List ModelInstance → List (Nat × Nat × ModelInstance)
  | _, [] => []
  | i, mi :: rest => (oidx, i, mi) :: instances_from oidx (i + 1) rest

/-- Following the spec's words: the instances of the objects, from object `oidx`, in model
order. -/
def all_instances_from : Nat → List ModelObject → List (Nat × Nat × ModelInstance)
  | _, [] => []
  | oidx, mo :: rest => instances_from oidx 0 mo.instances ++ all_instances_from (oidx + 1) rest

/-- Following the spec's words: every instance of the model, in model order. -/
def all_instances (objects : List ModelObject) : List (Nat × Nat × ModelInstance) :=
  all_instances_from 0 objects

/-- Following the spec's words: instance `inst_idx` of object `obj_idx` is selected when the
selection content lists it. -/
def is_selected (sel : Selection) (obj_idx inst_idx : Nat) : Bool :=
  sel.content.any (fun sl => sl.1 == obj_idx && sl.2.contains inst_idx)

/-- Following the spec's words: the result of routing the listed instances, where `selfun`
tells which instances count as selected: printable selected ones are appended to "selected",
printable unselected ones to "unselected", non-printable ones to "unprintable". -/
def routed (stride : Int) (selfun : Nat → Nat → Bool) (l : List (Nat × Nat × ModelInstance))
    (job : ArrangeJob) : ArrangeJob :=
  { m_selected := job.m_selected ++
      (l.filter (fun x => x.2.2.printable && selfun x.1 x.2.1)).map
        (get_arrange_poly_instance stride),
    m_unselected := job.m_unselected ++
      (l.filter (fun x => x.2.2.printable && !selfun x.1 x.2.1)).map
        (get_arrange_poly_instance stride),
    m_unprintable := job.m_unprintable ++
      (l.filter (fun x => !x.2.2.printable)).map (get_arrange_poly_instance stride) }

/-- Following the spec's words: one arrange polygon per printable instance, in model order,
followed by one for the wipe tower when it is present. -/
def printable_items (s : Priv) : List ArrangePolygon :=
  ((all_instances s.objects).filter (fun x => x.2.2.printable)).map
      (get_arrange_poly_instance s.bed_stride) ++
    (if s.wipetower.present then [get_arrange_poly_wipe_tower s.bed_stride s.wipetower] else [])

/-- Following the spec's words: one arrange polygon per non-printable instance, in model
order. -/
def unprintable_items (s : Priv) : List ArrangePolygon :=
  ((all_instances s.objects).filter (fun x => !x.2.2.printable)).map
    (get_arrange_poly_instance s.bed_stride)

/-- Following the spec's words: the selected printable instances, in model order, plus the
wipe tower when it is present and selected. -/
def selected_items (s : Priv) : List ArrangePolygon :=
  ((all_instances s.objects).filter
      (fun x => x.2.2.printable && is_selected s.selection x.1 x.2.1)).map
      (get_arrange_poly_instance s.bed_stride) ++
    (if s.wipetower.present && s.selection.is_wipe_tower then
      [get_arrange_poly_wipe_tower s.bed_stride s.wipetower] else [])

/-- Following the spec's words: the printable instances that are not selected, in model
order, plus the wipe tower when it is present and not selected. -/
def unselected_items (s : Priv) : List ArrangePolygon :=
  ((all_instances s.objects).filter
      (fun x => x.2.2.printable && !is_selected s.selection x.1 x.2.1)).map
      (get_arrange_poly_instance s.bed_stride) ++
    (if s.wipetower.present && !s.selection.is_wipe_tower then
      [get_arrange_poly_wipe_tower s.bed_stride s.wipetower] else [])

/-- The plate of the arrangement scenario of spec §8: five printable instances and one
non-printable instance, spread over three objects. -/
def scenario_plate : List ModelObject :=
  [{ instances := [{ tx := 10 }, { tx := 250 }, { tx := -30 }] },
   { instances := [{ tx := 40 }, { printable := false, tx := 500 }] },
   { instances := [{ tx := 70 }] }]

/-! ## Undo / redo -/

/-- `Plater::priv::undo_redo_stack()`: the active stack. -/
def undo_redo_stack (s : Priv) : Stack :=
  match s.m_undo_redo_stack_active with
  | ActiveStack.main => s.m_undo_redo_stack_main
  | ActiveStack.gizmos => s.m_undo_redo_stack_gizmos

/-- Write access through the reference returned by `undo_redo_stack()`. -/
def set_undo_redo_stack (s : Priv) (st : Stack) : Priv :=
  match s.m_undo_redo_stack_active with
  | ActiveStack.main => { s with m_undo_redo_stack_main := st }
  | ActiveStack.gizmos => { s with m_undo_redo_stack_gizmos := st }

/-- `Plater::priv::suppress_snapshots`: `m_prevent_snapshots++`. -/
def suppress_snapshots (s : Priv) : Priv :=
  { s with m_prevent_snapshots := s.m_prevent_snapshots + 1 }

/-- `Plater::priv::allow_snapshots`: `m_prevent_snapshots--`. -/
def allow_snapshots (s : Priv) : Priv :=
  { s with m_prevent_snapshots := s.m_prevent_snapshots - 1 }

/-- Total memory held by a list of snapshots. -/
def memsize_of (l : List Snapshot) : Nat :=
  (l.map Snapshot.memsize).sum

/-- Modelled from the spec: `UndoRedo::Stack::take_snapshot` (`UndoRedo.cpp` is not among the
sources); it "captures a full immutable Snapshot at a new strictly-increasing timestamp,
appends it", and the new capture becomes the active one. -/
def Stack.take_snapshot (st : Stack) (name : String) (data : SnapshotData) (memsize : Nat) :
    Stack :=
  let t := (st.snapshots.map Snapshot.timestamp).foldl max st.active_snapshot_time + 1
  { st with
    snapshots := st.snapshots ++
      [{ timestamp := t, name := name, snapshot_data := data, memsize := memsize }],
    active_snapshot_time := t }

/-- The eviction loop of `Stack.release_least_recently_used`. -/
def evict_oldest (limit active : Nat) : List Snapshot → List Snapshot
  | [] => []
  | sn :: rest =>
    if limit < memsize_of (sn :: rest) ∧ sn.timestamp ≠ active then
      evict_oldest limit active rest
    else sn :: rest

/-- Modelled from the spec: `UndoRedo::Stack::release_least_recently_used` (`UndoRedo.cpp` is
not among the sources); it "evicts oldest entries until total memory is under budget" and
"never evicts the entry at the current active timestamp". -/
def Stack.release_least_recently_used (st : Stack) : Stack :=
  { st with snapshots := evict_oldest st.memory_limit st.active_snapshot_time st.snapshots }

/-- The `SnapshotData` filled in at the head of `take_snapshot`. -/
def current_snapshot_data (env : Env) (s : Priv) : SnapshotData :=
  let d : SnapshotData := { printer_technology := s.printer_technology }
  let d := if env.layers_editing_enabled then
    { d with variable_layer_editing_active := true } else d
  let d :=
    if env.selected_settings then
      { d with selected_settings_on_sidebar := true,
               layer_range_idx := env.selected_layers_range_idx }
    else if env.selected_layer then
      { d with selected_layer_on_sidebar := true,
               layer_range_idx := env.selected_layers_range_idx }
    else if env.selected_layerroot then
      { d with selected_layerroot_on_sidebar := true }
    else d
  if env.wants_reslice_supports_on_undo then { d with recalculate_sla_supports := true } else d

/-- `Plater::priv::take_snapshot(snapshot_name)`. -/
def take_snapshot (env : Env) (snapshot_name : String) (s : Priv) : Priv :=
  if s.m_prevent_snapshots > 0 then s
  else
    let snapshot_data := current_snapshot_data env s
    -- updating the Wipe tower config values at the ModelWipeTower from the Print config
    let s :=
      if s.printer_technology = PrinterTechnology.ptFFF then
        { s with model_wipe_tower_position := env.wipe_tower_xy,
                 model_wipe_tower_rotation := env.wipe_tower_rotation_angle }
      else s
    let s := set_undo_redo_stack s
      ((undo_redo_stack s).take_snapshot snapshot_name snapshot_data env.snapshot_memsize)
    let s := set_undo_redo_stack s (undo_redo_stack s).release_least_recently_used
    -- Save the last active preset name of a particular printer technology.
    let s :=
      if s.printer_technology = PrinterTechnology.ptFFF then
        { s with m_last_fff_printer_profile_name := env.selected_preset_name }
      else
        { s with m_last_sla_printer_profile_name := env.selected_preset_name }
    s.log (Call.log_info ("Undo / Redo snapshot taken: " ++ snapshot_name))

/-- A call of one of the two scope operations on the suppression counter. -/
inductive SnapshotScopeCall where
  | suppress
  | allow
  deriving DecidableEq, Repr

/-- Run a sequence of `suppress_snapshots` / `allow_snapshots` calls. -/
def run_scope_calls : List SnapshotScopeCall → Priv → Priv
  | [], s => s
  | SnapshotScopeCall.suppress :: rest, s => run_scope_calls rest (suppress_snapshots s)
  | SnapshotScopeCall.allow :: rest, s => run_scope_calls rest (allow_snapshots s)

/-- Following the spec's words ("nested don't-snapshot scopes"): the number of scopes that
are open after the calls, starting with `depth` open scopes; `none` when some `allow` has no
open scope to close, that is, when the sequence is not properly nested. -/
def open_scopes (depth : Nat) : List SnapshotScopeCall → Option Nat
  | [] => some depth
  | SnapshotScopeCall.suppress :: rest => open_scopes (depth + 1) rest
  | SnapshotScopeCall.allow :: rest =>
    match depth with
    | 0 => none
    | d + 1 => open_scopes d rest

/-- The search `std::lower_bound(snapshots.begin(), snapshots.end(), Snapshot(t))` with
`Snapshot::operator<` comparing time stamps: the position of the first snapshot whose time
stamp is not less than `t` (the size if there is none). -/
def lower_bound (snapshots : List Snapshot) (t : Nat) : Nat :=
  (snapshots.takeWhile (fun sn => decide (sn.timestamp < t))).length

/-- `Plater::priv::get_active_snapshot_index`. -/
def get_active_snapshot_index (s : Priv) : Int :=
  (lower_bound (undo_redo_stack s).snapshots (undo_redo_stack s).active_snapshot_time : Nat)

/-- `Plater::priv::undo`: the position `it_current` handed to `undo_redo_to`, or `none` when
`undo_redo_to` is not called.  Positions are integers, `snapshots.begin()` is `0`; the
decrement of an iterator equal to `begin()` (undefined in C++) shows as position `-1`. -/
def undo (s : Priv) : Option Int :=
  let snapshots := (undo_redo_stack s).snapshots
  let it_current : Int := (lower_bound snapshots (undo_redo_stack s).active_snapshot_time : Nat)
  let it_current := it_current - 1
  if it_current ≠ 0 then some it_current else none

/-- `Plater::priv::redo`: the position `it_current` handed to `undo_redo_to`, or `none` when
`undo_redo_to` is not called.  `snapshots.end()` is the size of the vector. -/
def redo (s : Priv) : Option Int :=
  let snapshots := (undo_redo_stack s).snapshots
  let it_current : Int := (lower_bound snapshots (undo_redo_stack s).active_snapshot_time : Nat)
  let it_current := it_current + 1
  if it_current ≠ (snapshots.length : Int) then some it_current else none

/-! ## Gizmos stack and time travel -/

/-- Modelled from the spec: `UndoRedo::Stack::clear` (`UndoRedo.cpp` is not among the
sources); "leaving it clears the sub-stack". -/
def Stack.clear (st : Stack) : Stack :=
  { st with snapshots := [], active_snapshot_time := 0 }

/-- `Plater::priv::enter_gizmos_stack`. -/
def enter_gizmos_stack (env : Env) (s : Priv) : Priv :=
  if s.m_undo_redo_stack_active = ActiveStack.main then
    let s := { s with m_undo_redo_stack_active := ActiveStack.gizmos }
    -- Take the initial snapshot of the gizmos.
    take_snapshot env "Gizmos-Initial" s
  else s

/-- `Plater::priv::leave_gizmos_stack`. -/
def leave_gizmos_stack (s : Priv) : Priv :=
  if s.m_undo_redo_stack_active = ActiveStack.gizmos then
    let s := set_undo_redo_stack s (undo_redo_stack s).clear
    { s with m_undo_redo_stack_active := ActiveStack.main }
  else s

/-- `Plater::priv::update_after_undo_redo(snapshot, temp_snapshot_was_taken)`. -/
def update_after_undo_redo (env : Env) (_snapshot : Snapshot) (s : Priv) : Priv :=
  -- get_selection().clear()
  let s := { s with selection := {} }
  -- always stop / update the background processing (for both the SLA and FFF technologies)
  let s := update env
    (FORCE_BACKGROUND_PROCESSING_UPDATE ||| POSTPONE_VALIDATION_ERROR_MESSAGE) s
  -- Release the old snapshots always
  let s := set_undo_redo_stack s (undo_redo_stack s).release_least_recently_used
  -- get_selection().set_deserialized(...)
  let s := { s with selection := env.selection_deserialized }
  let s := s.log Call.gizmos_update_after_undo_redo
  let s := s.log Call.obj_list_update_after_undo_redo
  let s :=
    if env.mode_simple && env.model_has_advanced_features then
      (s.log Call.save_mode_advanced).log Call.view3D_set_as_dirty
    else s
  -- update() above was called with POSTPONE_VALIDATION_ERROR_MESSAGE, so that if an error
  -- message was generated when updating the back end, it would not open immediately, but it
  -- would be saved to be show later. Let's do it now.
  let s := show_delayed_error_message s
  s.log (Call.log_info "Undo / Redo snapshot reloaded.")

/-- The selection mode `ObjectList::SELECTION_MODE` chosen by `undo_redo_to`, as a number:
`smUndef` 0, `smSettings` 1, `smLayer` 2, `smLayerRoot` 3. -/
def selection_mode_of (d : SnapshotData) : Nat :=
  if d.selected_settings_on_sidebar then 1
  else if d.selected_layer_on_sidebar then 2
  else if d.selected_layerroot_on_sidebar then 3
  else 0

/-- The text of the confirmation asked by `undo_redo_to` before a change of technology. -/
def switch_message (pt : PrinterTechnology) : String :=
  let s_pt := if pt = PrinterTechnology.ptFFF then "FFF" else "SLA"
  s_pt ++ " printer was active at the time the target Undo / Redo snapshot was taken. " ++
    "Switching to " ++ s_pt ++ " printer requires reloading of " ++ s_pt ++ " presets."

/-- The part of `undo_redo_to` that follows a successful jump in time. -/
def undo_redo_to_after_jump (env : Env) (it_snapshot : Snapshot)
    (printer_technology_changed : Bool) (s : Priv) : Priv :=
  let new_printer_technology := it_snapshot.snapshot_data.printer_technology
  let s :=
    if printer_technology_changed then
      -- Switch to the other printer technology, to the last printer active for it.
      let s := s.log (Call.app_config_set_printer
        (if new_printer_technology = PrinterTechnology.ptFFF
          then s.m_last_fff_printer_profile_name else s.m_last_sla_printer_profile_name))
      let s := s.log Call.load_presets
      let s := s.log Call.unselect_objects
      -- This also switches the printer technology based on the printer technology of the
      -- active printer profile.
      { s.log Call.load_current_presets with printer_technology := new_printer_technology }
    else s
  -- updating the Print config from the Wipe tower config values at the ModelWipeTower
  let s :=
    if s.printer_technology = PrinterTechnology.ptFFF then
      if env.wipe_tower_xy != s.model_wipe_tower_position ||
          env.wipe_tower_rotation_angle != s.model_wipe_tower_rotation then
        s.log (Call.tab_print_load_config s.model_wipe_tower_position
          s.model_wipe_tower_rotation)
      else s
    else s
  -- set selection mode for ObjectList on sidebar
  let s := s.log (Call.set_selection_mode (selection_mode_of it_snapshot.snapshot_data))
  let s :=
    if it_snapshot.snapshot_data.selected_settings_on_sidebar ||
        it_snapshot.snapshot_data.selected_layer_on_sidebar then
      s.log (Call.set_selected_layers_range_idx it_snapshot.snapshot_data.layer_range_idx)
    else s
  let s := update_after_undo_redo env it_snapshot s
  -- Enable layer editing after the Undo / Redo jump.
  if !env.layers_editing_enabled_after && env.layers_height_allowed &&
      it_snapshot.snapshot_data.variable_layer_editing_active then
    s.log (Call.force_main_toolbar_left_action "layersediting")
  else s

/-- The body of `undo_redo_to(it_snapshot)` between the construction and the destruction of
the `SuppressSnapshots` guard; `it_snapshot` is the snapshot the iterator points to.  The jump
itself, `Stack::undo` or `Stack::redo`, is recorded as a call; when it succeeds the restored
time is the active one and the model holds the deserialized objects. -/
def undo_redo_to_body (env : Env) (it_snapshot : Snapshot) (s : Priv) : Priv :=
  let new_printer_technology := it_snapshot.snapshot_data.printer_technology
  let printer_technology_changed := s.printer_technology != new_printer_technology
  let s :=
    if printer_technology_changed then
      s.log (Call.check_unsaved_changes (switch_message new_printer_technology))
    else s
  if printer_technology_changed && !env.confirm_switch then
    -- Don't switch the profiles.
    s
  else
    -- Save the last active preset name of a particular printer technology.
    let s :=
      if s.printer_technology = PrinterTechnology.ptFFF then
        { s with m_last_fff_printer_profile_name := env.selected_preset_name }
      else
        { s with m_last_sla_printer_profile_name := env.selected_preset_name }
    -- updating the Wipe tower config values at the ModelWipeTower from the Print config
    let s :=
      if s.printer_technology = PrinterTechnology.ptFFF then
        { s with model_wipe_tower_position := env.wipe_tower_xy,
                 model_wipe_tower_rotation := env.wipe_tower_rotation_angle }
      else s
    -- Disable layer editing before the Undo / Redo jump.
    let s :=
      if !it_snapshot.snapshot_data.variable_layer_editing_active &&
          env.layers_editing_enabled then
        s.log (Call.force_main_toolbar_left_action "layersediting")
      else s
    -- Do the jump in time.
    let s :=
      if it_snapshot.timestamp < (undo_redo_stack s).active_snapshot_time then
        s.log (Call.stack_undo it_snapshot.timestamp)
      else
        s.log (Call.stack_redo it_snapshot.timestamp)
    if env.jump_ok then
      let s := set_undo_redo_stack s
        { undo_redo_stack s with active_snapshot_time := it_snapshot.timestamp }
      let s := { s with objects := env.restored_objects,
                        model_wipe_tower_position := env.restored_wipe_tower_position,
                        model_wipe_tower_rotation := env.restored_wipe_tower_rotation }
      undo_redo_to_after_jump env it_snapshot printer_technology_changed s
    else s

/-- `Plater::priv::undo_redo_to(it_snapshot)`: the guard `SuppressSnapshots` suppresses
snapshots for the duration of the call (`suppress_snapshots` on entry, `allow_snapshots` on
every exit). -/
def undo_redo_to (env : Env) (it_snapshot : Snapshot) (s : Priv) : Priv :=
  allow_snapshots (undo_redo_to_body env it_snapshot (suppress_snapshots s))

/-! ## `find_new_position` -/

/-- Modelled from the spec: `ModelInstance::get_arrange_polygon()` (`Model.cpp` is not among
the sources) as used by `find_new_position`: translation and rotation of the instance, bed
index and priority as default-constructed, no setter.  The field `target` records the instance
the polygon was made from. -/
def get_arrange_polygon_instance (env : Env) (x : Nat × Nat × ModelInstance) : ArrangePolygon :=
  { target := ArrangeTarget.model_instance x.1 x.2.1, tx := x.2.2.tx, ty := x.2.2.ty,
    rotation := x.2.2.rotation, bed_idx := env.unarranged, priority := env.default_priority }

/-- `priv::WipeTower::get_arrange_polygon()`: position and rotation of the wipe tower,
`ret.priority++`. -/
def WipeTower.get_arrange_polygon (env : Env) (wti : WipeTower) : ArrangePolygon :=
  { target := ArrangeTarget.wipe_tower, tx := wti.tx, ty := wti.ty, rotation := wti.rotation,
    bed_idx := env.unarranged, priority := env.default_priority + 1 }

/-- The inner loop of `find_new_position` over the instances of object `oidx`, from instance
`i`: `std::find(instances.begin(), instances.end(), inst)` compares pointers, here the pairs of
object index and instance index; the accumulator is `(movable, fixed)`. -/
def find_new_position_instances (env : Env) (instances : List (Nat × Nat)) (oidx : Nat) :
    Nat → List ModelInstance → List ArrangePolygon × List ArrangePolygon →
      List ArrangePolygon × List ArrangePolygon
  | _, [], acc => acc
  | i, mi :: rest, acc =>
    let arrpoly := get_arrange_polygon_instance env (oidx, i, mi)
    if instances.contains (oidx, i) then
      find_new_position_instances env instances oidx (i + 1) rest (acc.1 ++ [arrpoly], acc.2)
    else
      find_new_position_instances env instances oidx (i + 1) rest (acc.1, acc.2 ++ [arrpoly])

/-- The outer loop of `find_new_position` over the objects, from object `oidx`. -/
def find_new_position_objects (env : Env) (instances : List (Nat × Nat)) :
    Nat → List ModelObject → List ArrangePolygon × List ArrangePolygon →
      List ArrangePolygon × List ArrangePolygon
  | _, [], acc => acc
  | oidx, mo :: rest, acc =>
    find_new_position_objects env instances (oidx + 1) rest
      (find_new_position_instances env instances oidx 0 mo.instances acc)

/-- The lists `(movable, fixed)` of `find_new_position` at the call of
`arrangement::arrange`. -/
def find_new_position_lists (env : Env) (instances : List (Nat × Nat)) (s : Priv) :
    List ArrangePolygon × List ArrangePolygon :=
  let acc := find_new_position_objects env instances 0 s.objects ([], [])
  if s.wipetower.present then
    (acc.1, acc.2 ++ [s.wipetower.get_arrange_polygon env])
  else acc

/-- Modelled from the spec: the effect of `arrangement::arrange` (`Arrange.cpp` is not among
the sources) on the movable items from index `i` on: the packer writes the solved translation,
rotation and bed index of every item in place, whatever values it finds. -/
def arranged_from (result : Nat → Int × Int × Int × Int) :
    Nat → List ArrangePolygon → List ArrangePolygon
  | _, [] => []
  | i, ap :: rest =>
    { ap with tx := (result i).1, ty := (result i).2.1, rotation := (result i).2.2.1,
              bed_idx := (result i).2.2.2 } :: arranged_from result (i + 1) rest

/-- The write-back loop of `find_new_position`, from index `i`:
`if (movable[i].bed_idx == 0) instances[i]->apply_arrange_result(...)`.  The result is `none`
when `movable[i]` is read outside the vector. -/
def find_new_position_write_back (movable : List ArrangePolygon) :
    Nat → List (Nat × Nat) → Priv → Option Priv
  | _, [], s => some s
  | i, inst :: rest, s =>
    match movable.get? i with
    | none => none
    | some ap =>
      find_new_position_write_back movable (i + 1) rest
        (if ap.bed_idx = 0 then
          s.log (Call.apply_arrange_result (ArrangeTarget.model_instance inst.1 inst.2)
            ap.tx ap.ty ap.rotation)
        else s)

/-- `Plater::priv::find_new_position(instances, min_d)`; an instance pointer is the pair of
its object index and instance index. -/
def find_new_position (env : Env) (instances : List (Nat × Nat)) (s : Priv) : Option Priv :=
  let lists := find_new_position_lists env instances s
  let movable := arranged_from (env.arrange_result lists.1 lists.2) 0 lists.1
  find_new_position_write_back movable 0 instances s

/-- Following the spec's words: the pointers to the instances of object `oidx`, which has
`n` instances: the complete instance list of that object. -/
def instance_pointers (oidx n : Nat) : List (Nat × Nat) :=
  (List.range n).map (fun i => (oidx, i))

/-- Following the spec's words: the calls that commit the solved placement of the packed
items to the instances they belong to, for the items placed on bed 0 only. -/
def bed_zero_writes : List (Nat × Nat) → List ArrangePolygon → List Call
  | inst :: rest, ap :: aps =>
    if ap.bed_idx = 0 then
      Call.apply_arrange_result (ArrangeTarget.model_instance inst.1 inst.2)
        ap.tx ap.ty ap.rotation :: bed_zero_writes rest aps
    else bed_zero_writes rest aps
  | _, _ => []

/-! ## Debounce timer -/

/-- The `wxEVT_TIMER` handler bound in the constructor of `priv`. -/
def on_timer (env : Env) (s : Priv) : Priv :=
  if !s.suppressed_backround_processing_update then
    (update_restart_background_process env false false s).2
  else s

/-- The fire of the single-shot timer, the timer being a single pending-fire slot: a pending
fire leaves the slot and the handler runs; without a pending fire nothing happens. -/
def timer_fire (env : Env) (s : Priv) : Priv :=
  match s.background_process_timer with
  | none => s
  | some _ => on_timer env { s with background_process_timer := none }

/-- A burst of `n` consecutive calls of `schedule_background_process`. -/
def schedule_burst : Nat → Priv → Priv
  | 0, s => s
  | n + 1, s => schedule_burst n (schedule_background_process s)

/-- The values of the `EVT_PROCESS_COMPLETED` events queued so far, oldest first. -/
def completed_events : List Call → List Int
  | [] => []
  | Call.queue_process_completed value :: rest => value :: completed_events rest
  | _ :: rest => completed_events rest

/-! ## History menu -/

/-- The outcome of a read in the snapshot vector: the element was read, the code decided not
to read, or the code read at a position outside the vector. -/
inductive Read (α : Type) where
  | found (a : α)
  | absent
  | out_of_range
  deriving DecidableEq, Repr

/-- The conversion of an integer to `size_t` (64 bits). -/
def to_size_t (z : Int) : Int :=
  z % 2 ^ 64

/-- The test and the read shared by the two string getters:
`0 < idx_in_ss_stack && (size_t)idx_in_ss_stack < ss_stack.size() - 1`, then
`ss_stack[idx_in_ss_stack].name`; the subtraction is done in `size_t`. -/
def read_snapshot_name (ss_stack : List Snapshot) (idx_in_ss_stack : Int) : Read String :=
  if 0 < idx_in_ss_stack ∧
      to_size_t idx_in_ss_stack < to_size_t ((ss_stack.length : Int) - 1) then
    match ss_stack.get? idx_in_ss_stack.toNat with
    | some sn => Read.found sn.name
    | none => Read.out_of_range
  else Read.absent

/-- `Plater::undo_redo_string_getter(is_undo, idx, out_text)`: `found` is `true` with the text,
`absent` is `false`. -/
def undo_redo_string_getter (is_undo : Bool) (idx : Int) (s : Priv) : Read String :=
  let ss_stack := (undo_redo_stack s).snapshots
  let idx_in_ss_stack := get_active_snapshot_index s + (if is_undo then -(idx + 1) else idx)
  read_snapshot_name ss_stack idx_in_ss_stack

/-- `Plater::undo_redo_topmost_string_getter(is_undo, out_text)`: `absent` is the empty
string. -/
def undo_redo_topmost_string_getter (is_undo : Bool) (s : Priv) : Read String :=
  let ss_stack := (undo_redo_stack s).snapshots
  let idx_in_ss_stack := get_active_snapshot_index s + (if is_undo then -1 else 0)
  read_snapshot_name ss_stack idx_in_ss_stack

/-- `Plater::priv::undo_redo_to(size_t time_to_load)`: the position `it_current` handed to
`undo_redo_to(it_current)`. -/
def undo_redo_to_time (time_to_load : Nat) (s : Priv) : Int :=
  (lower_bound (undo_redo_stack s).snapshots time_to_load : Nat)

/-- The read `undo_redo_stack().snapshots()[idx].timestamp` of `undo_to` and `redo_to`,
followed by `undo_redo_to(timestamp)`: the position jumped to. -/
def jump_to_index (idx : Int) (s : Priv) : Read Int :=
  if 0 ≤ idx then
    match (undo_redo_stack s).snapshots.get? idx.toNat with
    | some sn => Read.found (undo_redo_to_time sn.timestamp s)
    | none => Read.out_of_range
  else Read.out_of_range

/-- `Plater::undo_to(selection)`: the position of the snapshot jumped to, `absent` when no
jump is made. -/
def undo_to (selection : Int) (s : Priv) : Read Int :=
  if selection = 0 then
    match undo s with
    | some it => Read.found it
    | none => Read.absent
  else
    jump_to_index (get_active_snapshot_index s - selection - 1) s

/-- `Plater::redo_to(selection)`: the position of the snapshot jumped to, `absent` when no
jump is made. -/
def redo_to (selection : Int) (s : Priv) : Read Int :=
  if selection = 0 then
    match redo s with
    | some it => Read.found it
    | none => Read.absent
  else
    jump_to_index (get_active_snapshot_index s + selection + 1) s

/-! ## What an arrangement run commits -/

/-- The calls `apply_arrange_result` of a log, oldest first: what was written back to the
instances and to the wipe tower. -/
def arrange_results : List Call → List Call
  | [] => []
  | Call.apply_arrange_result target tx ty rotation :: rest =>
    Call.apply_arrange_result target tx ty rotation :: arrange_results rest
  | _ :: rest => arrange_results rest

/-- Following the spec's words: what the setters of the listed items commit, "bed index plus
stride offset" re-applied to the x translation, for the items that count as arranged. -/
def setter_commits (env : Env) (stride : Int) (l : List ArrangePolygon) : List Call :=
  (l.filter (fun p => p.is_arranged env)).map
    (fun p => Call.apply_arrange_result p.target (p.tx + p.bed_idx * stride) p.ty p.rotation)

end Plater

/-! # Properties -/

namespace Plater

/-! ## Job group -/

theorem cancel_from_calls (l : List Job) (k : Nat) :
    (cancel_from k l).2 = (List.range' k l.length).map Call.job_cancel := by
  induction l generalizing k with
  | nil => rfl
  | cons j rest ih => simp [cancel_from, ih, List.range']

theorem cancel_from_length (l : List Job) (k : Nat) :
    (cancel_from k l).1.length = l.length := by
  induction l generalizing k with
  | nil => rfl
  | cons j rest ih => simp [cancel_from, ih]

theorem join_from_calls (env : Env) (w : Int) (l : List Job) (k : Nat) :
    (join_from env w k l).2.2 = (List.range' k l.length).map (fun j => Call.job_join j w) := by
  induction l generalizing k with
  | nil => rfl
  | cons j rest ih => simp [join_from, ih, List.range']

theorem join_from_length (env : Env) (w : Int) (l : List Job) (k : Nat) :
    (join_from env w k l).2.1.length = l.length := by
  induction l generalizing k with
  | nil => rfl
  | cons j rest ih => simp [join_from, ih]

theorem stop_all_calls (env : Env) (s : Priv) :
    ∃ errs, (stop_all env s).calls = s.calls ++
        (List.range s.m_jobs.length).map Call.job_cancel ++
        (List.range s.m_jobs.length).map (fun j => Call.job_join j 10000) ++ errs ∧
      (errs = [] ∨ errs = [Call.log_error "Could not abort a job!"]) ∧
      (stop_all env s).m_jobs.length = s.m_jobs.length ∧
      (stop_all env s).background_process = s.background_process := by
  simp only [stop_all, join_all, cancel_all, Priv.log]
  split
  · exact ⟨[Call.log_error "Could not abort a job!"], by
      simp [join_from_calls, cancel_from_calls, cancel_from_length, List.range_eq_range',
        ABORT_WAIT_MAX_MS], Or.inr rfl, by simp [join_from_length, cancel_from_length], rfl⟩
  · exact ⟨[], by
      simp [join_from_calls, cancel_from_calls, cancel_from_length, List.range_eq_range',
        ABORT_WAIT_MAX_MS], Or.inl rfl, by simp [join_from_length, cancel_from_length], rfl⟩

theorem job_start_is_running (j : Job) : j.start.is_running = true := by
  unfold Job.start
  split
  · assumption
  · rfl

/-- C1: `ExclusiveJobGroup::start(jid)` returns, and the calls it makes are, in this order:
stop of the background process, `cancel` on every job of the group, `join` with the bound of
10000 ms on every job of the group, at most one logged error, and last `start` on the job
registered at index `jid` (and on no other job).  Afterwards the background process is not
running and the job at index `jid` is. -/
theorem start_stops_everything_first (env : Env) (jid : Jobs) (s : Priv)
    (hreg : jid.toIndex < s.m_jobs.length) :
    ∃ s1 errs, start env jid s = some s1 ∧
      s1.calls = s.calls ++ [Call.background_process_stop] ++
        (List.range s.m_jobs.length).map Call.job_cancel ++
        (List.range s.m_jobs.length).map (fun j => Call.job_join j 10000) ++
        errs ++ [Call.job_start jid.toIndex] ∧
      (errs = [] ∨ errs = [Call.log_error "Could not abort a job!"]) ∧
      s1.m_jobs.length = s.m_jobs.length ∧
      s1.background_process.running = false ∧
      (s1.m_jobs.get? jid.toIndex).map Job.is_running = some true := by
  obtain ⟨errs, hcalls, herrs, hlen, hbg⟩ := stop_all_calls env (background_process_stop s)
  have hlen2 : (stop_all env (background_process_stop s)).m_jobs.length
      = s.m_jobs.length := by rw [hlen]; rfl
  have hlt : jid.toIndex < (stop_all env (background_process_stop s)).m_jobs.length := by
    rw [hlen2]; exact hreg
  have hj := List.get?_eq_get hlt
  have hstart : start env jid s = some
      { stop_all env (background_process_stop s) with
        m_jobs := (stop_all env (background_process_stop s)).m_jobs.set
          jid.toIndex ((stop_all env (background_process_stop s)).m_jobs.get
            ⟨jid.toIndex, hlt⟩).start,
        calls := (stop_all env (background_process_stop s)).calls ++
          [Call.job_start jid.toIndex] } := by
    simp only [start, hj]
  refine ⟨_, errs, hstart, ?_, herrs, ?_, ?_, ?_⟩
  · show (stop_all env (background_process_stop s)).calls ++ _ = _
    rw [hcalls]
    simp [background_process_stop, Priv.log]
  · simp [hlen2]
  · show (stop_all env (background_process_stop s)).background_process.running = false
    rw [hbg]
    rfl
  · show (((stop_all env (background_process_stop s)).m_jobs.set jid.toIndex _).get?
      jid.toIndex).map Job.is_running = some true
    rw [List.get?_eq_getElem?, List.getElem?_set_self hlt]
    simp [job_start_is_running]

/-- The registry of the source with the orientation search running: `start(Arrange)` stops
the background process, cancels and joins both jobs and then starts job 0. -/
theorem start_stops_everything_first_witness :
    ∃ s1 errs,
      start {} Jobs.Arrange { m_jobs := [{}, { state := JobState.Running }] } = some s1 ∧
      s1.calls = ([] : List Call) ++ [Call.background_process_stop] ++
        (List.range 2).map Call.job_cancel ++
        (List.range 2).map (fun j => Call.job_join j 10000) ++
        errs ++ [Call.job_start 0] ∧
      (errs = [] ∨ errs = [Call.log_error "Could not abort a job!"]) ∧
      s1.m_jobs.length = 2 ∧
      s1.background_process.running = false ∧
      (s1.m_jobs.get? 0).map Job.is_running = some true :=
  start_stops_everything_first {} Jobs.Arrange { m_jobs := [{}, { state := JobState.Running }] }
    (by decide)

/-! ## Background-process controller -/

/-- C2: if any job of the job group is running, `restart_background_process(state)` returns
`false` and leaves everything as it was; in particular it makes no call to
`background_process.start()`. -/
theorem restart_refused_while_job_running (env : Env) (state : Nat) (s : Priv)
    (hrun : ∃ j ∈ s.m_jobs, j.is_running = true) :
    restart_background_process env state s = (false, s) := by
  have h : is_any_running s = true := by
    simpa [is_any_running, List.any_eq_true] using hrun
  simp [restart_background_process, h]

/-- A running orientation search blocks a restart requested with the `RESTART` bit. -/
theorem restart_refused_while_job_running_witness :
    restart_background_process {} UPDATE_BACKGROUND_PROCESS_RESTART
        { m_jobs := [{}, { state := JobState.Running }],
          background_process := { empty := false } } =
      (false, { m_jobs := [{}, { state := JobState.Running }],
                background_process := { empty := false } }) :=
  restart_refused_while_job_running {} UPDATE_BACKGROUND_PROCESS_RESTART
    { m_jobs := [{}, { state := JobState.Running }], background_process := { empty := false } }
    ⟨{ state := JobState.Running }, by simp, by decide⟩

/-- C3, as stated, fails: with no job running, the `RESTART` bit set and the `INVALID` bit
clear, an empty background process is not started. -/
theorem restart_skips_empty_process :
    is_any_running { background_process := { empty := true } } = false ∧
      UPDATE_BACKGROUND_PROCESS_RESTART &&& UPDATE_BACKGROUND_PROCESS_RESTART ≠ 0 ∧
      UPDATE_BACKGROUND_PROCESS_RESTART &&& UPDATE_BACKGROUND_PROCESS_INVALID = 0 ∧
      restart_background_process {} UPDATE_BACKGROUND_PROCESS_RESTART
          { background_process := { empty := true } } =
        (false, { background_process := { empty := true } }) := by
  decide

/-- C3, amended: with no job running, `restart_background_process(state)` calls
`background_process.start()` exactly when the background process is not empty, the `INVALID`
bit is clear, and the `RESTART` bit or the `FORCE_EXPORT` bit is set or the `FORCE_RESTART` bit
is set while the process has not finished; otherwise it changes nothing.  In particular it
never starts the process when the `INVALID` bit is set or none of the three bits is set. -/
theorem restart_starts_exactly_when_warranted (env : Env) (state : Nat) (s : Priv)
    (hidle : ∀ j ∈ s.m_jobs, j.is_running = false) :
    ((s.background_process.empty = false ∧ state &&& 4 = 0 ∧
        ((state &&& 8 ≠ 0 ∧ s.background_process.finished = false) ∨
          state &&& 16 ≠ 0 ∨ state &&& 1 ≠ 0)) →
      (restart_background_process env state s).1 = env.start_ok ∧
      (restart_background_process env state s).2.calls =
        s.calls ++ Call.background_process_start ::
          (if env.start_ok then [Call.set_cancel_callback] else [])) ∧
    (¬ (s.background_process.empty = false ∧ state &&& 4 = 0 ∧
        ((state &&& 8 ≠ 0 ∧ s.background_process.finished = false) ∨
          state &&& 16 ≠ 0 ∨ state &&& 1 ≠ 0)) →
      restart_background_process env state s = (false, s)) ∧
    ((state &&& 4 ≠ 0 ∨ (state &&& 1 = 0 ∧ state &&& 8 = 0 ∧ state &&& 16 = 0)) →
      restart_background_process env state s = (false, s)) := by
  have h : is_any_running s = false := by
    simp only [is_any_running, List.any_eq_false]
    intro j hj
    simp [hidle j hj]
  refine ⟨?_, ?_, ?_⟩
  · rintro ⟨he, hi, hb⟩
    have hc : (!s.background_process.empty &&
        (state &&& UPDATE_BACKGROUND_PROCESS_INVALID) == 0 &&
        (((state &&& UPDATE_BACKGROUND_PROCESS_FORCE_RESTART) != 0 &&
            !s.background_process.finished) ||
          (state &&& UPDATE_BACKGROUND_PROCESS_FORCE_EXPORT) != 0 ||
          (state &&& UPDATE_BACKGROUND_PROCESS_RESTART) != 0)) = true := by
      simp only [UPDATE_BACKGROUND_PROCESS_INVALID, UPDATE_BACKGROUND_PROCESS_FORCE_RESTART,
        UPDATE_BACKGROUND_PROCESS_FORCE_EXPORT, UPDATE_BACKGROUND_PROCESS_RESTART, he, hi]
      rcases hb with ⟨h8, hf⟩ | h16 | h1
      · simp [h8, hf]
      · simp [h16]
      · simp only [Nat.and_one_is_mod] at h1
        simp only [Nat.and_one_is_mod]
        have h2 : state % 2 = 1 := by omega
        simp [h2]
    simp only [restart_background_process, h, hc]
    cases env.start_ok <;> simp [Priv.log]
  · intro hn
    have hc : (!s.background_process.empty &&
        (state &&& UPDATE_BACKGROUND_PROCESS_INVALID) == 0 &&
        (((state &&& UPDATE_BACKGROUND_PROCESS_FORCE_RESTART) != 0 &&
            !s.background_process.finished) ||
          (state &&& UPDATE_BACKGROUND_PROCESS_FORCE_EXPORT) != 0 ||
          (state &&& UPDATE_BACKGROUND_PROCESS_RESTART) != 0)) = false := by
      simp only [UPDATE_BACKGROUND_PROCESS_INVALID, UPDATE_BACKGROUND_PROCESS_FORCE_RESTART,
        UPDATE_BACKGROUND_PROCESS_FORCE_EXPORT, UPDATE_BACKGROUND_PROCESS_RESTART]
      by_contra hcon
      apply hn
      simp only [Bool.not_eq_false, Bool.and_eq_true, Bool.or_eq_true, Bool.not_eq_true',
        beq_iff_eq, bne_iff_ne, ne_eq] at hcon
      tauto
    simp [restart_background_process, h, hc]
  · intro hn
    have hc : (!s.background_process.empty &&
        (state &&& UPDATE_BACKGROUND_PROCESS_INVALID) == 0 &&
        (((state &&& UPDATE_BACKGROUND_PROCESS_FORCE_RESTART) != 0 &&
            !s.background_process.finished) ||
          (state &&& UPDATE_BACKGROUND_PROCESS_FORCE_EXPORT) != 0 ||
          (state &&& UPDATE_BACKGROUND_PROCESS_RESTART) != 0)) = false := by
      simp only [UPDATE_BACKGROUND_PROCESS_INVALID, UPDATE_BACKGROUND_PROCESS_FORCE_RESTART,
        UPDATE_BACKGROUND_PROCESS_FORCE_EXPORT, UPDATE_BACKGROUND_PROCESS_RESTART]
      rcases hn with h4 | ⟨h1, h8, h16⟩
      · simp [h4]
      · simp [h1, h8, h16]
    simp [restart_background_process, h, hc]

/-- No job running, a non-empty print and the `RESTART` bit: the process is started and the
cancel callback installed. -/
theorem restart_starts_exactly_when_warranted_witness :
    (restart_background_process {} UPDATE_BACKGROUND_PROCESS_RESTART
        { background_process := { empty := false } }).2.calls =
      [Call.background_process_start, Call.set_cancel_callback] :=
  ((restart_starts_exactly_when_warranted {} UPDATE_BACKGROUND_PROCESS_RESTART
    { background_process := { empty := false } } (by decide)).1 (by decide)).2

/-- Logging a call other than `background_process.start()` leaves the number of recorded
starts as it was. -/
theorem starts_log (s : Priv) (c : Call) (hc : c ≠ Call.background_process_start) :
    (s.log c).calls.count Call.background_process_start =
      s.calls.count Call.background_process_start := by
  simp [Priv.log, List.count_append, List.count_singleton, hc]

theorem update_invalidated_starts (env : Env) (s : Priv) :
    (update_invalidated env s).2.calls.count Call.background_process_start =
      s.calls.count Call.background_process_start := by
  unfold update_invalidated
  dsimp only [Priv.log]
  split_ifs <;> simp [List.count_append, List.count_singleton]

theorem update_validate_starts (env : Env) (fv pp : Bool) (rs : Nat) (s : Priv) :
    (update_validate env fv pp rs s).2.calls.count Call.background_process_start =
      s.calls.count Call.background_process_start := by
  unfold update_validate
  dsimp only [Priv.log]
  split_ifs <;> simp [List.count_append, List.count_singleton]

theorem update_notify_cancelled_starts (env : Env) (wr : Bool) (rs : Nat) (s : Priv) :
    (update_notify_cancelled env wr rs s).calls.count Call.background_process_start =
      s.calls.count Call.background_process_start := by
  unfold update_notify_cancelled
  dsimp only [Priv.log]
  split_ifs <;> simp [List.count_append, List.count_singleton]

theorem update_buttons_starts (env : Env) (rs : Nat) (s : Priv) :
    (update_buttons env rs s).calls.count Call.background_process_start =
      s.calls.count Call.background_process_start := by
  unfold update_buttons
  dsimp only [Priv.log]
  split_ifs <;> simp [List.count_append, List.count_singleton]

/-- `update_background_process` itself never calls `background_process.start()`. -/
theorem update_background_process_starts (env : Env) (fv pp : Bool) (s : Priv) :
    (update_background_process env fv pp s).2.calls.count Call.background_process_start =
      s.calls.count Call.background_process_start := by
  unfold update_background_process
  simp only [update_buttons_starts, update_notify_cancelled_starts, update_validate_starts,
    update_invalidated_starts]
  split_ifs <;> simp [Priv.log, List.count_append, List.count_singleton]

/-- The state returned after an `UNCHANGED` apply without forced validation: only the stored
error is reported. -/
theorem update_background_process_unchanged (env : Env) (pp : Bool) (s : Priv)
    (h : env.apply_status = ApplyStatus.APPLY_STATUS_UNCHANGED) :
    (update_background_process env false pp s).1 =
      if s.delayed_error_message = "" then 0 else UPDATE_BACKGROUND_PROCESS_INVALID := by
  unfold update_background_process update_validate update_invalidated
  simp only [h]
  by_cases hd : s.delayed_error_message = "" <;> by_cases hl : env.layers_editing_enabled
    <;> simp [hd, hl, Priv.log]

/-- C10: when `background_process.apply` reports `UNCHANGED` and validation is not forced,
the state returned by `update_background_process` has neither the `RESTART` nor the
`REFRESH_SCENE` bit, and `update_restart_background_process` makes no call to
`background_process.start()`. -/
theorem unchanged_apply_does_not_restart (env : Env) (postpone force_update_scene
    force_update_preview : Bool) (s : Priv)
    (h : env.apply_status = ApplyStatus.APPLY_STATUS_UNCHANGED) :
    (update_background_process env false postpone s).1 &&&
        UPDATE_BACKGROUND_PROCESS_RESTART = 0 ∧
      (update_background_process env false postpone s).1 &&&
        UPDATE_BACKGROUND_PROCESS_REFRESH_SCENE = 0 ∧
      (update_restart_background_process env force_update_scene force_update_preview s).2.calls.count
          Call.background_process_start =
        s.calls.count Call.background_process_start := by
  refine ⟨?_, ?_, ?_⟩
  · rw [update_background_process_unchanged env postpone s h]
    split <;> decide
  · rw [update_background_process_unchanged env postpone s h]
    split <;> decide
  · unfold update_restart_background_process
    simp only [update_background_process_unchanged env false s h]
    have hr : ∀ (t : Priv) (st : Nat), (st = 0 ∨ st = UPDATE_BACKGROUND_PROCESS_INVALID) →
        (restart_background_process env st t).2 = t := by
      intro t st hst
      unfold restart_background_process
      rcases hst with rfl | rfl <;> split <;> simp [UPDATE_BACKGROUND_PROCESS_INVALID,
        UPDATE_BACKGROUND_PROCESS_FORCE_RESTART, UPDATE_BACKGROUND_PROCESS_FORCE_EXPORT,
        UPDATE_BACKGROUND_PROCESS_RESTART]
    rw [hr _ _ (by split <;> simp)]
    have hu := update_background_process_starts env false false s
    have h42 : (4 : Nat) &&& 2 = 0 := by decide
    have h02 : (0 : Nat) &&& 2 = 0 := by decide
    by_cases hd : s.delayed_error_message = "" <;> cases force_update_scene
      <;> cases force_update_preview
      <;> simp [hd, starts_log, hu, h42, h02, UPDATE_BACKGROUND_PROCESS_INVALID,
        UPDATE_BACKGROUND_PROCESS_REFRESH_SCENE]

/-- A second `apply` on an unchanged, valid, non-empty print with background processing
enabled: no bit is returned and nothing is started. -/
theorem unchanged_apply_does_not_restart_witness :
    (update_background_process { after_apply := { empty := false } } false false
        { config_background_processing := true, background_process := { empty := false } }).1 &&&
        UPDATE_BACKGROUND_PROCESS_RESTART = 0 ∧
      (update_background_process { after_apply := { empty := false } } false false
        { config_background_processing := true, background_process := { empty := false } }).1 &&&
        UPDATE_BACKGROUND_PROCESS_REFRESH_SCENE = 0 ∧
      (update_restart_background_process { after_apply := { empty := false } } false false
        { config_background_processing := true,
          background_process := { empty := false } }).2.calls.count
          Call.background_process_start =
        ([] : List Call).count Call.background_process_start :=
  unchanged_apply_does_not_restart { after_apply := { empty := false } } false false false
    { config_background_processing := true, background_process := { empty := false } } rfl

/-! ## Snapshot suppression -/

theorem run_scope_calls_counter (calls : List SnapshotScopeCall) (k d : Nat) (s : Priv)
    (h : open_scopes k calls = some d) :
    (run_scope_calls calls s).m_prevent_snapshots = s.m_prevent_snapshots - k + d := by
  induction calls generalizing k s with
  | nil =>
    simp only [open_scopes, Option.some.injEq] at h
    subst h
    simp [run_scope_calls]
  | cons c rest ih =>
    cases c with
    | suppress =>
      simp only [open_scopes] at h
      rw [run_scope_calls, ih (k + 1) _ h]
      simp only [suppress_snapshots]
      push_cast
      ring
    | allow =>
      cases k with
      | zero => simp [open_scopes] at h
      | succ k =>
        simp only [open_scopes] at h
        rw [run_scope_calls, ih k _ h]
        simp only [allow_snapshots]
        push_cast
        ring

theorem open_scopes_append (pre suf : List SnapshotScopeCall) (k : Nat) :
    open_scopes k (pre ++ suf) = (open_scopes k pre).bind (fun d => open_scopes d suf) := by
  induction pre generalizing k with
  | nil => simp [open_scopes]
  | cons c rest ih =>
    cases c with
    | suppress => simp [open_scopes, ih]
    | allow =>
      cases k with
      | zero => simp [open_scopes]
      | succ k => simp [open_scopes, ih]

/-- C4: `take_snapshot` called while `m_prevent_snapshots > 0` leaves the whole state as it
was (no stack entry, nothing else); and along a properly nested sequence of
`suppress_snapshots` / `allow_snapshots` calls started at counter 0, after every initial part
of the sequence the counter equals the number of scopes still open: it is 0 exactly when all
opened scopes are closed, positive otherwise, and `take_snapshot` does nothing then. -/
theorem take_snapshot_suppressed_in_scope (env : Env) (label : String) (s s0 : Priv)
    (pre suf : List SnapshotScopeCall)
    (hs : 0 < s.m_prevent_snapshots) (h0 : s0.m_prevent_snapshots = 0)
    (hnested : open_scopes 0 (pre ++ suf) ≠ none) :
    take_snapshot env label s = s ∧
    ∃ d, open_scopes 0 pre = some d ∧
      (run_scope_calls pre s0).m_prevent_snapshots = d ∧
      ((run_scope_calls pre s0).m_prevent_snapshots = 0 ↔ d = 0) ∧
      (0 < d → 0 < (run_scope_calls pre s0).m_prevent_snapshots ∧
        take_snapshot env label (run_scope_calls pre s0) = run_scope_calls pre s0) := by
  have hguard : ∀ t : Priv, 0 < t.m_prevent_snapshots → take_snapshot env label t = t := by
    intro t ht
    simp [take_snapshot, ht]
  refine ⟨hguard s hs, ?_⟩
  rw [open_scopes_append] at hnested
  cases hpre : open_scopes 0 pre with
  | none => simp [hpre] at hnested
  | some d =>
    have hc := run_scope_calls_counter pre 0 d s0 hpre
    rw [h0] at hc
    have hc2 : (run_scope_calls pre s0).m_prevent_snapshots = (d : Int) := by
      rw [hc]; simp
    refine ⟨d, rfl, hc2, ?_, ?_⟩
    · rw [hc2]; exact Int.natCast_eq_zero
    · intro hd
      have hpos : 0 < (run_scope_calls pre s0).m_prevent_snapshots := by
        rw [hc2]; exact_mod_cast hd
      exact ⟨hpos, hguard _ hpos⟩

/-- Two nested scopes, observed after the inner one has been closed: one scope is open, the
counter is 1 and a snapshot request is ignored. -/
theorem take_snapshot_suppressed_in_scope_witness :
    take_snapshot {} "Move Object" { m_prevent_snapshots := 2 } = { m_prevent_snapshots := 2 } ∧
    ∃ d, open_scopes 0 [SnapshotScopeCall.suppress, SnapshotScopeCall.suppress,
        SnapshotScopeCall.allow] = some d ∧
      (run_scope_calls [SnapshotScopeCall.suppress, SnapshotScopeCall.suppress,
        SnapshotScopeCall.allow] {}).m_prevent_snapshots = d ∧
      ((run_scope_calls [SnapshotScopeCall.suppress, SnapshotScopeCall.suppress,
        SnapshotScopeCall.allow] {}).m_prevent_snapshots = 0 ↔ d = 0) ∧
      (0 < d → 0 < (run_scope_calls [SnapshotScopeCall.suppress, SnapshotScopeCall.suppress,
        SnapshotScopeCall.allow] {}).m_prevent_snapshots ∧
        take_snapshot {} "Move Object" (run_scope_calls [SnapshotScopeCall.suppress,
          SnapshotScopeCall.suppress, SnapshotScopeCall.allow] {}) =
          run_scope_calls [SnapshotScopeCall.suppress, SnapshotScopeCall.suppress,
            SnapshotScopeCall.allow] {}) :=
  take_snapshot_suppressed_in_scope {} "Move Object" { m_prevent_snapshots := 2 } {}
    [SnapshotScopeCall.suppress, SnapshotScopeCall.suppress, SnapshotScopeCall.allow]
    [SnapshotScopeCall.allow] (by decide) rfl (by decide)

/-! ## Undo and redo -/

/-- On a stack strictly ordered by time stamp, the search for the time stamp of entry `i`
finds position `i`. -/
theorem lower_bound_of_entry (l : List Snapshot) (i : Nat) (hi : i < l.length)
    (hsorted : l.Pairwise (fun a b => a.timestamp < b.timestamp)) :
    lower_bound l (l.get ⟨i, hi⟩).timestamp = i := by
  induction l generalizing i with
  | nil => simp at hi
  | cons a rest ih =>
    rw [List.pairwise_cons] at hsorted
    cases i with
    | zero => simp [lower_bound, List.takeWhile]
    | succ k =>
      have hk : k < rest.length := by simpa using hi
      have hlt : a.timestamp < (rest.get ⟨k, hk⟩).timestamp :=
        hsorted.1 _ (List.get_mem rest k hk)
      have := ih k hk hsorted.2
      simp only [lower_bound] at this ⊢
      simp only [List.get_cons_succ, List.takeWhile, hlt, decide_True, List.length_cons, this]

/-- C5, as stated, fails: with two entries and the second one active, an entry immediately
before the active one exists (entry 0), yet `undo()` does not jump. -/
theorem undo_never_reaches_first_entry :
    ([{ timestamp := 0, name := "New Project" }, { timestamp := 1 }] : List Snapshot).Pairwise
        (fun a b => a.timestamp < b.timestamp) ∧
      lower_bound [{ timestamp := 0, name := "New Project" }, { timestamp := 1 }] 1 = 1 ∧
      undo { m_undo_redo_stack_main :=
        { snapshots := [{ timestamp := 0, name := "New Project" }, { timestamp := 1 }],
          active_snapshot_time := 1 } } = none := by
  refine ⟨by simp, by decide, by decide⟩

/-- C5, amended: on a stack strictly ordered by time stamp whose active time stamp is that of
entry `i` with `i ≥ 1`, `undo()` jumps to entry `i - 1` when `i ≥ 2` and does nothing when
`i = 1` (the first entry of the stack is never an undo target); the position it jumps to is
always inside the stack. -/
theorem undo_jumps_to_previous_entry (s : Priv) (i : Nat)
    (hi : i < (undo_redo_stack s).snapshots.length)
    (hsorted : (undo_redo_stack s).snapshots.Pairwise (fun a b => a.timestamp < b.timestamp))
    (hactive : (undo_redo_stack s).active_snapshot_time =
      ((undo_redo_stack s).snapshots.get ⟨i, hi⟩).timestamp)
    (hpos : 1 ≤ i) :
    (2 ≤ i → undo s = some ((i : Int) - 1)) ∧
    (i = 1 → undo s = none) ∧
    (∀ p, undo s = some p → 0 < p ∧ p < ((undo_redo_stack s).snapshots.length : Int)) := by
  have hlb := lower_bound_of_entry _ i hi hsorted
  rw [← hactive] at hlb
  have hundo : undo s = if (i : Int) - 1 ≠ 0 then some ((i : Int) - 1) else none := by
    simp only [undo, hlb]
  refine ⟨?_, ?_, ?_⟩
  · intro h2
    rw [hundo, if_pos (by omega)]
  · intro h1
    rw [hundo, if_neg (by omega)]
  · intro p hp
    rw [hundo] at hp
    split at hp
    · simp only [Option.some.injEq] at hp
      omega
    · simp at hp

/-- Three entries with the last one active: `undo()` jumps to entry 1. -/
theorem undo_jumps_to_previous_entry_witness :
    undo { m_undo_redo_stack_main :=
      { snapshots := [{ timestamp := 0, name := "New Project" },
          { timestamp := 1, name := "Move Object" }, { timestamp := 2 }],
        active_snapshot_time := 2 } } = some 1 :=
  (undo_jumps_to_previous_entry
    { m_undo_redo_stack_main :=
      { snapshots := [{ timestamp := 0, name := "New Project" },
          { timestamp := 1, name := "Move Object" }, { timestamp := 2 }],
        active_snapshot_time := 2 } } 2 (by decide) (by simp [undo_redo_stack]) rfl
    (by decide)).1 (by decide)

/-- C6: on a stack strictly ordered by time stamp whose active time stamp is that of entry
`i`, `redo()` jumps to entry `i + 1` whenever that entry exists and does nothing when entry `i`
is the last one; the position it jumps to is always inside the stack. -/
theorem redo_jumps_to_next_entry (s : Priv) (i : Nat)
    (hi : i < (undo_redo_stack s).snapshots.length)
    (hsorted : (undo_redo_stack s).snapshots.Pairwise (fun a b => a.timestamp < b.timestamp))
    (hactive : (undo_redo_stack s).active_snapshot_time =
      ((undo_redo_stack s).snapshots.get ⟨i, hi⟩).timestamp) :
    (i + 1 < (undo_redo_stack s).snapshots.length → redo s = some ((i : Int) + 1)) ∧
    (i + 1 = (undo_redo_stack s).snapshots.length → redo s = none) ∧
    (∀ p, redo s = some p → 0 ≤ p ∧ p < ((undo_redo_stack s).snapshots.length : Int)) := by
  have hlb := lower_bound_of_entry _ i hi hsorted
  rw [← hactive] at hlb
  have hredo : redo s = if (i : Int) + 1 ≠ ((undo_redo_stack s).snapshots.length : Int)
      then some ((i : Int) + 1) else none := by
    simp only [redo, hlb]
  refine ⟨?_, ?_, ?_⟩
  · intro h2
    rw [hredo, if_pos (by omega)]
  · intro h1
    rw [hredo, if_neg (by omega)]
  · intro p hp
    rw [hredo] at hp
    split at hp
    · simp only [Option.some.injEq] at hp
      omega
    · simp at hp

/-- Three entries with the first one active: `redo()` jumps to entry 1. -/
theorem redo_jumps_to_next_entry_witness :
    redo { m_undo_redo_stack_main :=
      { snapshots := [{ timestamp := 0, name := "New Project" },
          { timestamp := 1, name := "Move Object" }, { timestamp := 2 }],
        active_snapshot_time := 0 } } = some 1 :=
  (redo_jumps_to_next_entry
    { m_undo_redo_stack_main :=
      { snapshots := [{ timestamp := 0, name := "New Project" },
          { timestamp := 1, name := "Move Object" }, { timestamp := 2 }],
        active_snapshot_time := 0 } } 0 (by decide) (by simp [undo_redo_stack]) rfl).1
    (by decide)

/-! ## Arrangement: preparation -/

theorem routed_nil (stride : Int) (f : Nat → Nat → Bool) (job : ArrangeJob) :
    routed stride f [] job = job := by
  simp [routed]

theorem routed_append (stride : Int) (f : Nat → Nat → Bool)
    (l1 l2 : List (Nat × Nat × ModelInstance)) (job : ArrangeJob) :
    routed stride f (l1 ++ l2) job = routed stride f l2 (routed stride f l1 job) := by
  simp [routed, List.filter_append]

theorem routed_cons (stride : Int) (f : Nat → Nat → Bool) (x : Nat × Nat × ModelInstance)
    (l : List (Nat × Nat × ModelInstance)) (job : ArrangeJob) :
    routed stride f (x :: l) job =
      routed stride f l (job.emplace_back
        (if x.2.2.printable then (if f x.1 x.2.1 then Container.selected
          else Container.unselected) else Container.unprintable)
        (get_arrange_poly_instance stride x)) := by
  cases hp : x.2.2.printable <;> cases hf : f x.1 x.2.1 <;>
    simp [routed, ArrangeJob.emplace_back, List.filter_cons, hp, hf]

theorem prepare_all_instances_routed (stride : Int) (oidx : Nat) (l : List ModelInstance)
    (i : Nat) (job : ArrangeJob) :
    prepare_all_instances stride oidx i l job =
      routed stride (fun _ _ => true) (instances_from oidx i l) job := by
  induction l generalizing i job with
  | nil => simp [prepare_all_instances, instances_from, routed_nil]
  | cons mi rest ih =>
    rw [prepare_all_instances, instances_from, routed_cons, ih]
    simp

theorem prepare_all_objects_routed (stride : Int) (objs : List ModelObject) (oidx : Nat)
    (job : ArrangeJob) :
    prepare_all_objects stride oidx objs job =
      routed stride (fun _ _ => true) (all_instances_from oidx objs) job := by
  induction objs generalizing oidx job with
  | nil => simp [prepare_all_objects, all_instances_from, routed_nil]
  | cons mo rest ih =>
    rw [prepare_all_objects, all_instances_from, routed_append, ih,
      prepare_all_instances_routed]

/-- C8: after `ArrangeJob::prepare_all`, whatever the job held before and whatever is
selected, `m_selected` holds exactly one arrange polygon per printable instance, in model
order, followed by one for the wipe tower when it is present; `m_unprintable` holds exactly
one per non-printable instance; `m_unselected` is empty. -/
theorem prepare_all_partition (s : Priv) (job : ArrangeJob) :
    (prepare_all s job).m_selected = printable_items s ∧
      (prepare_all s job).m_unprintable = unprintable_items s ∧
      (prepare_all s job).m_unselected = [] := by
  unfold prepare_all
  simp only [prepare_all_objects_routed, clear_input]
  cases hw : s.wipetower.present <;>
    simp [routed, ArrangeJob.emplace_back, printable_items, unprintable_items, all_instances, hw]

theorem foldl_set_true_length (l : List Nat) (acc : List Bool) :
    (l.foldl (fun acc inst_id => acc.set inst_id true) acc).length = acc.length := by
  induction l generalizing acc with
  | nil => rfl
  | cons a rest ih => simp [List.foldl, ih]

theorem foldl_set_true_get (l : List Nat) (acc : List Bool) (i : Nat) :
    (l.foldl (fun acc inst_id => acc.set inst_id true) acc)[i]? =
      (acc[i]?).map (fun b => b || l.contains i) := by
  induction l generalizing acc with
  | nil => simp
  | cons a rest ih =>
    rw [List.foldl, ih, List.getElem?_set']
    by_cases h : a = i
    · subst h
      cases hacc : acc[a]? <;> simp
    · have h2 : ¬ i = a := fun e => h e.symm
      simp [h, List.contains_cons, h2]

/-- The vector `inst_sel` holds, at every instance index, whether the list names it. -/
theorem inst_sel_eq (n : Nat) (instlist : Option (List Nat)) :
    inst_sel n instlist = (List.range' 0 n).map (fun i =>
      match instlist with
      | none => false
      | some l => l.contains i) := by
  cases instlist with
  | none =>
    apply List.ext_getElem?
    intro i
    by_cases h : i < n <;> simp [inst_sel, List.getElem?_replicate, h, List.getElem?_range']
  | some l =>
    apply List.ext_getElem?
    intro i
    simp only [inst_sel, foldl_set_true_get]
    by_cases h : i < n
    · simp [List.getElem?_replicate, h, List.getElem?_range']
    · have h3 : (List.range' 0 n)[i]? = none := by
        apply List.getElem?_eq_none
        simp only [List.length_range']
        omega
      simp [List.getElem?_replicate, h, h3]

theorem prepare_selected_instances_routed (stride : Int) (oidx : Nat)
    (f : Nat → Nat → Bool) (l : List ModelInstance) (i : Nat) (job : ArrangeJob) :
    prepare_selected_instances stride oidx i l
        ((List.range' i l.length).map (fun k => f oidx k)) job =
      routed stride f (instances_from oidx i l) job := by
  induction l generalizing i job with
  | nil => simp [prepare_selected_instances, instances_from, routed_nil]
  | cons mi rest ih =>
    simp only [List.length_cons, List.range'_succ, List.map_cons]
    rw [prepare_selected_instances, instances_from, routed_cons, ih]

theorem prepare_selected_objects_routed (stride : Int) (h : Nat → Option (List Nat))
    (objs : List ModelObject) (oidx : Nat) (job : ArrangeJob) :
    prepare_selected_objects stride oidx objs ((List.range' oidx objs.length).map h) job =
      routed stride
        (fun o i => match h o with
          | none => false
          | some l => l.contains i)
        (all_instances_from oidx objs) job := by
  induction objs generalizing oidx job with
  | nil => simp [prepare_selected_objects, all_instances_from, routed_nil]
  | cons mo rest ih =>
    simp only [List.length_cons, List.range'_succ, List.map_cons]
    rw [prepare_selected_objects, all_instances_from, routed_append, ih, inst_sel_eq]
    congr 1
    exact prepare_selected_instances_routed stride oidx
      (fun o i => match h o with
        | none => false
        | some l => l.contains i) mo.instances 0 job

theorem lookup_absent (content : List (Nat × List Nat)) (o : Nat)
    (h : o ∉ content.map Prod.fst) : content.lookup o = none := by
  induction content with
  | nil => rfl
  | cons kv rest ih =>
    obtain ⟨k, v⟩ := kv
    simp only [List.map_cons, List.mem_cons, not_or] at h
    have hne : (o == k) = false := by simpa using h.1
    simp [List.lookup, hne, ih h.2]

theorem obj_sel_step_length (content : List (Nat × List Nat))
    (acc : List (Option (List Nat))) :
    (content.foldl
      (fun acc sl => if sl.1 < acc.length then acc.set sl.1 (some sl.2) else acc) acc).length =
      acc.length := by
  induction content generalizing acc with
  | nil => rfl
  | cons kv rest ih =>
    rw [List.foldl, ih]
    split <;> simp

theorem obj_sel_step_get (content : List (Nat × List Nat))
    (hkeys : (content.map Prod.fst).Nodup) (acc : List (Option (List Nat))) (o : Nat) :
    (content.foldl
      (fun acc sl => if sl.1 < acc.length then acc.set sl.1 (some sl.2) else acc) acc)[o]? =
      (acc[o]?).map (fun old =>
        match content.lookup o with
        | some l => some l
        | none => old) := by
  induction content generalizing acc with
  | nil => simp [List.lookup]
  | cons kv rest ih =>
    obtain ⟨k, v⟩ := kv
    simp only [List.map_cons, List.nodup_cons] at hkeys
    rw [List.foldl, ih hkeys.2]
    by_cases hko : k = o
    · subst hko
      have hl : rest.lookup k = none := lookup_absent rest k hkeys.1
      by_cases hlt : k < acc.length
      · simp [hlt, hl, List.lookup, List.getElem?_set']
      · have hnone : acc[k]? = none := List.getElem?_eq_none (by omega)
        simp [hlt, hnone]
    · have hne : (o == k) = false := by
        simp only [beq_eq_false_iff_ne, ne_eq]
        exact fun e => hko e.symm
      by_cases hlt : k < acc.length
      · simp [hlt, List.lookup, hne, List.getElem?_set', hko]
      · simp [hlt, List.lookup, hne]

/-- With one entry per object index in the selection content, `obj_sel` holds at every
object index the instance list the content gives for it. -/
theorem obj_sel_eq (n : Nat) (content : List (Nat × List Nat))
    (hkeys : (content.map Prod.fst).Nodup) :
    obj_sel n content = (List.range' 0 n).map (fun o => content.lookup o) := by
  apply List.ext_getElem?
  intro o
  simp only [obj_sel, obj_sel_step_get content hkeys]
  by_cases h : o < n
  · cases hl : content.lookup o <;>
      simp [List.getElem?_replicate, h, List.getElem?_range', hl]
  · have h3 : (List.range' 0 n)[o]? = none := by
      apply List.getElem?_eq_none
      simp only [List.length_range']
      omega
    simp [List.getElem?_replicate, h, h3]

theorem any_absent (content : List (Nat × List Nat)) (o i : Nat)
    (h : o ∉ content.map Prod.fst) :
    content.any (fun sl => sl.1 == o && sl.2.contains i) = false := by
  induction content with
  | nil => rfl
  | cons kv rest ih =>
    obtain ⟨k, v⟩ := kv
    simp only [List.map_cons, List.mem_cons, not_or] at h
    have hne : (k == o) = false := by
      simp only [beq_eq_false_iff_ne, ne_eq]
      exact fun e => h.1 e.symm
    simp only [List.any_cons, hne, Bool.false_and, Bool.false_or]
    exact ih h.2

/-- With one entry per object index, an instance is selected exactly when the instance list
found for its object names it. -/
theorem is_selected_lookup (sel : Selection) (hkeys : (sel.content.map Prod.fst).Nodup)
    (o i : Nat) :
    is_selected sel o i =
      match sel.content.lookup o with
      | none => false
      | some l => l.contains i := by
  unfold is_selected
  generalize sel.content = content at hkeys
  induction content with
  | nil => rfl
  | cons kv rest ih =>
    obtain ⟨k, v⟩ := kv
    simp only [List.map_cons, List.nodup_cons] at hkeys
    by_cases hko : k = o
    · subst hko
      simp only [List.any_cons, any_absent rest k i hkeys.1, List.lookup]
      simp
    · have hne : (o == k) = false := by
        simp only [beq_eq_false_iff_ne, ne_eq]
        exact fun e => hko e.symm
      have hne2 : (k == o) = false := by
        simp only [beq_eq_false_iff_ne, ne_eq]
        exact hko
      simp only [List.any_cons, hne2, Bool.false_and, Bool.false_or, List.lookup, hne]
      exact ih hkeys.2

/-- The state of the three containers of `prepare_selected` just before the test
`m_selected.empty()`. -/
theorem prepare_selected_before_swap (s : Priv) (job : ArrangeJob)
    (hkeys : (s.selection.content.map Prod.fst).Nodup) :
    prepare_selected s job =
      if (selected_items s).isEmpty then
        { m_selected := unselected_items s,
          m_unselected := (selected_items s).map (remove_stride s.bed_stride),
          m_unprintable := unprintable_items s }
      else
        { m_selected := selected_items s,
          m_unselected := (unselected_items s).map (remove_stride s.bed_stride),
          m_unprintable := unprintable_items s } := by
  have hf : (fun o i => match s.selection.content.lookup o with
      | none => false
      | some l => l.contains i) = is_selected s.selection := by
    funext o i
    exact (is_selected_lookup s.selection hkeys o i).symm
  have hloop : prepare_selected_objects s.bed_stride 0 s.objects
      (obj_sel s.objects.length s.selection.content) (clear_input job) =
      routed s.bed_stride (is_selected s.selection) (all_instances s.objects)
        (clear_input job) := by
    rw [obj_sel_eq _ _ hkeys, prepare_selected_objects_routed, hf]
    rfl
  unfold prepare_selected
  simp only [hloop]
  cases hw : s.wipetower.present <;> cases hs : s.selection.is_wipe_tower <;>
    simp only [routed, clear_input, ArrangeJob.emplace_back, selected_items, unselected_items,
      unprintable_items, hw, hs, List.nil_append, Bool.and_self, Bool.and_false, Bool.and_true,
      Bool.false_and, Bool.not_false, Bool.not_true, if_true, if_false, List.append_nil,
      Bool.false_eq_true] <;>
    split_ifs <;> simp_all

theorem nothing_selected_unselected_all (s : Priv) (h : selected_items s = []) :
    unselected_items s = printable_items s := by
  unfold selected_items at h
  rw [List.append_eq_nil] at h
  obtain ⟨h1, h2⟩ := h
  have hfil : (all_instances s.objects).filter
      (fun x => x.2.2.printable && !is_selected s.selection x.1 x.2.1) =
      (all_instances s.objects).filter (fun x => x.2.2.printable) := by
    apply List.filter_congr
    intro x hx
    rw [List.map_eq_nil_iff, List.filter_eq_nil_iff] at h1
    have := h1 x hx
    cases hp : x.2.2.printable <;> cases hsel : is_selected s.selection x.1 x.2.1 <;>
      simp_all
  have hwt : (s.wipetower.present && !s.selection.is_wipe_tower) = s.wipetower.present := by
    cases hw : s.wipetower.present <;> cases hs : s.selection.is_wipe_tower <;> simp_all
  unfold unselected_items printable_items
  rw [hfil, hwt]

/-- C7, amended: after `ArrangeJob::prepare_selected`, `m_unprintable` holds exactly the
non-printable instances.  If the selection names at least one printable instance, or the wipe
tower while it is present, `m_selected` holds exactly the selected printable instances (plus
the wipe tower when selected) and `m_unselected` the printable instances that are not selected
(plus the wipe tower when present and not selected), with the bed stride taken out of their
x translation.  Otherwise, that is, when the selection is empty or names only non-printable
instances, `m_selected` holds every printable instance (plus the wipe tower when present) and
`m_unselected` is empty. -/
theorem prepare_selected_partition (s : Priv) (job : ArrangeJob)
    (hkeys : (s.selection.content.map Prod.fst).Nodup) :
    (prepare_selected s job).m_unprintable = unprintable_items s ∧
    (selected_items s ≠ [] →
      (prepare_selected s job).m_selected = selected_items s ∧
      (prepare_selected s job).m_unselected =
        (unselected_items s).map (remove_stride s.bed_stride)) ∧
    (selected_items s = [] →
      (prepare_selected s job).m_selected = printable_items s ∧
      (prepare_selected s job).m_unselected = []) := by
  rw [prepare_selected_before_swap s job hkeys]
  refine ⟨?_, ?_, ?_⟩
  · split <;> rfl
  · intro hne
    have : (selected_items s).isEmpty = false := by
      cases hsel : selected_items s with
      | nil => exact absurd hsel hne
      | cons a l => rfl
    simp [this]
  · intro he
    have : (selected_items s).isEmpty = true := by rw [he]; rfl
    simp only [this, if_true]
    exact ⟨nothing_selected_unselected_all s he, by rw [he]; rfl⟩

/-- C7, as stated, fails: the selection is not empty (it names instance 1 of object 0, which
is not printable), yet `m_selected` does not hold "exactly the selected printable instances"
(there is none): it holds the printable instance 0, and `m_unselected` is empty. -/
theorem prepare_selected_unprintable_selection :
    is_selected { content := [(0, [1])] } 0 1 = true ∧
      is_selected { content := [(0, [1])] } 0 0 = false ∧
      ((prepare_selected
        { objects := [{ instances := [{ printable := true }, { printable := false }] }],
          selection := { content := [(0, [1])] } } {}).m_selected.map ArrangePolygon.target =
        [ArrangeTarget.model_instance 0 0]) ∧
      (prepare_selected
        { objects := [{ instances := [{ printable := true }, { printable := false }] }],
          selection := { content := [(0, [1])] } } {}).m_unselected = [] := by
  decide

/-- The scenario of spec §8 on a plate of five printable and one non-printable instance
(bed stride 120): with three printable instances selected the sizes are 3 / 2 / 1, with an
empty selection 5 / 0 / 1. -/
theorem prepare_selected_partition_witness :
    ((prepare_selected
        { bed_stride := 120, objects := scenario_plate,
          selection := { content := [(0, [0, 2]), (2, [0])] } } {}).m_selected.length = 3 ∧
      (prepare_selected
        { bed_stride := 120, objects := scenario_plate,
          selection := { content := [(0, [0, 2]), (2, [0])] } } {}).m_unselected.length = 2 ∧
      (prepare_selected
        { bed_stride := 120, objects := scenario_plate,
          selection := { content := [(0, [0, 2]), (2, [0])] } } {}).m_unprintable.length = 1) ∧
    ((prepare_selected { bed_stride := 120, objects := scenario_plate } {}).m_selected.length
        = 5 ∧
      (prepare_selected { bed_stride := 120, objects := scenario_plate } {}).m_unselected.length
        = 0 ∧
      (prepare_selected { bed_stride := 120, objects := scenario_plate } {}).m_unprintable.length
        = 1) := by
  have h3 := prepare_selected_partition
    { bed_stride := 120, objects := scenario_plate,
      selection := { content := [(0, [0, 2]), (2, [0])] } } {} (by decide)
  have h0 := prepare_selected_partition { bed_stride := 120, objects := scenario_plate } {}
    (by decide)
  refine ⟨⟨?_, ?_, ?_⟩, ⟨?_, ?_, ?_⟩⟩
  · rw [(h3.2.1 (by decide)).1]; decide
  · rw [(h3.2.1 (by decide)).2]; decide
  · rw [h3.1]; decide
  · rw [(h0.2.2 (by decide)).1]; decide
  · rw [(h0.2.2 (by decide)).2]; decide
  · rw [h0.1]; decide

/-! ## Arrangement: finalization -/

theorem finalize_selected_beds (env : Env) (stride : Int) (l : List ArrangePolygon)
    (b : Int) (s : Priv) :
    b ≤ (finalize_selected env stride l (b, s)).1 ∧
      ∀ p ∈ l, p.bed_idx ≤ (finalize_selected env stride l (b, s)).1 := by
  induction l generalizing b s with
  | nil => simp [finalize_selected]
  | cons ap rest ih =>
    rw [finalize_selected]
    have h := ih (max ap.bed_idx b) (ap.apply env stride s)
    refine ⟨le_trans (le_max_right _ _) h.1, ?_⟩
    intro p hp
    rcases List.mem_cons.mp hp with rfl | hp
    · exact le_trans (le_max_left _ _) h.1
    · exact h.2 p hp

theorem finalize_unselected_beds (l : List ArrangePolygon) (b : Int) :
    b ≤ finalize_unselected l b ∧ ∀ p ∈ l, p.bed_idx ≤ finalize_unselected l b := by
  induction l generalizing b with
  | nil => simp [finalize_unselected]
  | cons ap rest ih =>
    rw [finalize_unselected]
    have h := ih (max ap.bed_idx b)
    refine ⟨le_trans (le_max_right _ _) h.1, ?_⟩
    intro p hp
    rcases List.mem_cons.mp hp with rfl | hp
    · exact le_trans (le_max_left _ _) h.1
    · exact h.2 p hp

theorem finalize_unprintable_items (env : Env) (stride beds : Int) (l : List ArrangePolygon)
    (s : Priv) :
    (finalize_unprintable env stride beds l s).1 =
      l.map (fun ap => { ap with bed_idx := ap.bed_idx + (beds + 1) }) := by
  induction l generalizing s with
  | nil => rfl
  | cons ap rest ih => simp [finalize_unprintable, ih]

/-- The bed-index invariant for the items the packer placed: after `finalize` of a run that
was not cancelled, an unprintable item that the packer left with a bed index of at least 0
ends on a bed strictly after the bed of every selected and every unselected item. -/
theorem finalize_placed_unprintable_trail (env : Env) (job : ArrangeJob) (s : Priv)
    (u q : ArrangePolygon) (hu : u ∈ job.m_unprintable) (hplaced : 0 ≤ u.bed_idx)
    (hq : q ∈ (finalize env false job s).1.m_selected ∨
      q ∈ (finalize env false job s).1.m_unselected) :
    { u with bed_idx := u.bed_idx +
        (finalize_unselected job.m_unselected
          (finalize_selected env s.bed_stride job.m_selected (0, s)).1 + 1) } ∈
        (finalize env false job s).1.m_unprintable ∧
      q.bed_idx < u.bed_idx +
        (finalize_unselected job.m_unselected
          (finalize_selected env s.bed_stride job.m_selected (0, s)).1 + 1) := by
  have hs := finalize_selected_beds env s.bed_stride job.m_selected 0 s
  have hn := finalize_unselected_beds job.m_unselected
    (finalize_selected env s.bed_stride job.m_selected (0, s)).1
  constructor
  · simp only [finalize, finalize_unprintable_items, Bool.false_eq_true, if_false]
    exact List.mem_map.mpr ⟨u, hu, rfl⟩
  · simp only [finalize, Bool.false_eq_true, if_false] at hq
    rcases hq with hq | hq
    · have := hs.2 q hq
      omega
    · have := hn.2 q hq
      omega

/-- C9 fails on the code: a run that was not cancelled, in which the packer placed the
selected item on bed 0 and could not place the unprintable item (bed index `UNARRANGED`, -1).
`finalize` turns the bed index of the unprintable item into 0, the bed of the selected item,
and, the index no longer being `UNARRANGED`, writes its translation back to the instance. -/
theorem finalize_unplaced_unprintable_shares_bed :
    ((finalize {} false
        { m_selected := [{ target := ArrangeTarget.model_instance 0 0, tx := 5, ty := 5,
                           rotation := 0, bed_idx := 0, priority := 0 }],
          m_unprintable := [{ target := ArrangeTarget.model_instance 0 1, tx := 7, ty := 7,
                              rotation := 0, bed_idx := -1, priority := 0 }] }
        { bed_stride := 120 }).1.m_selected.map ArrangePolygon.bed_idx = [0]) ∧
      ((finalize {} false
        { m_selected := [{ target := ArrangeTarget.model_instance 0 0, tx := 5, ty := 5,
                           rotation := 0, bed_idx := 0, priority := 0 }],
          m_unprintable := [{ target := ArrangeTarget.model_instance 0 1, tx := 7, ty := 7,
                              rotation := 0, bed_idx := -1, priority := 0 }] }
        { bed_stride := 120 }).1.m_unprintable.map ArrangePolygon.bed_idx = [0]) ∧
      Call.apply_arrange_result (ArrangeTarget.model_instance 0 1) 7 7 0 ∈
        (finalize {} false
          { m_selected := [{ target := ArrangeTarget.model_instance 0 0, tx := 5, ty := 5,
                             rotation := 0, bed_idx := 0, priority := 0 }],
            m_unprintable := [{ target := ArrangeTarget.model_instance 0 1, tx := 7, ty := 7,
                                rotation := 0, bed_idx := -1, priority := 0 }] }
          { bed_stride := 120 }).2.calls := by
  decide

/-! ## Validation errors: shown or deferred -/

theorem shown_errors_append (a b : List Call) :
    shown_errors (a ++ b) = shown_errors a ++ shown_errors b := by
  induction a with
  | nil => rfl
  | cons c rest ih => cases c <;> simp [shown_errors, ih]

theorem update_invalidated_frame (env : Env) (s : Priv) :
    (update_invalidated env s).2.delayed_error_message = s.delayed_error_message ∧
      shown_errors (update_invalidated env s).2.calls = shown_errors s.calls ∧
      (update_invalidated env s).2.background_process = s.background_process ∧
      (update_invalidated env s).2.config_background_processing =
        s.config_background_processing := by
  unfold update_invalidated
  dsimp only [Priv.log]
  split_ifs <;> simp [shown_errors_append, shown_errors]

theorem update_validate_delayed (env : Env) (fv pp : Bool) (rs : Nat) (s : Priv) :
    (update_validate env fv pp rs s).2.delayed_error_message =
      if ((env.apply_status != ApplyStatus.APPLY_STATUS_UNCHANGED || fv) &&
          !s.background_process.empty) = true then
        (if env.validate_err = "" then ""
          else if (!pp && env.top_level_active) = true then "" else env.validate_err)
      else s.delayed_error_message := by
  unfold update_validate
  dsimp only [Priv.log]
  split_ifs <;> simp_all

theorem update_validate_shown (env : Env) (fv pp : Bool) (rs : Nat) (s : Priv) :
    shown_errors (update_validate env fv pp rs s).2.calls =
      shown_errors s.calls ++
        if ((env.apply_status != ApplyStatus.APPLY_STATUS_UNCHANGED || fv) &&
            !s.background_process.empty) = true ∧ env.validate_err ≠ "" ∧
            (!pp && env.top_level_active) = true then [env.validate_err] else [] := by
  unfold update_validate
  dsimp only [Priv.log]
  split_ifs <;> simp_all [shown_errors_append, shown_errors]

theorem update_notify_cancelled_frame (env : Env) (wr : Bool) (rs : Nat) (s : Priv) :
    (update_notify_cancelled env wr rs s).delayed_error_message = s.delayed_error_message ∧
      shown_errors (update_notify_cancelled env wr rs s).calls = shown_errors s.calls := by
  unfold update_notify_cancelled
  dsimp only [Priv.log]
  split_ifs <;> simp [shown_errors_append, shown_errors]

theorem update_buttons_frame (env : Env) (rs : Nat) (s : Priv) :
    (update_buttons env rs s).delayed_error_message = s.delayed_error_message ∧
      shown_errors (update_buttons env rs s).calls = shown_errors s.calls := by
  unfold update_buttons
  dsimp only [Priv.log]
  split_ifs <;> simp [shown_errors_append, shown_errors]

/-- What `update_background_process` leaves in `delayed_error_message`. -/
theorem update_background_process_delayed (env : Env) (fv pp : Bool) (s : Priv) :
    (update_background_process env fv pp s).2.delayed_error_message =
      if validation_runs env fv = true then
        (if env.validate_err = "" then ""
          else if (!pp && env.top_level_active) = true then "" else env.validate_err)
      else s.delayed_error_message := by
  unfold update_background_process validation_runs
  simp only [(update_buttons_frame _ _ _).1, (update_notify_cancelled_frame _ _ _ _).1,
    update_validate_delayed, (update_invalidated_frame _ _).1,
    (update_invalidated_frame _ _).2.2.1]
  split_ifs <;> simp_all [Priv.log]

/-- The errors `update_background_process` shows. -/
theorem update_background_process_shown (env : Env) (fv pp : Bool) (s : Priv) :
    shown_errors (update_background_process env fv pp s).2.calls =
      shown_errors s.calls ++
        if validation_runs env fv = true ∧ env.validate_err ≠ "" ∧
            (!pp && env.top_level_active) = true then [env.validate_err] else [] := by
  unfold update_background_process validation_runs
  simp only [(update_buttons_frame _ _ _).2, (update_notify_cancelled_frame _ _ _ _).2,
    update_validate_shown, (update_invalidated_frame _ _).2.1,
    (update_invalidated_frame _ _).2.2.1]
  split_ifs <;> simp_all [Priv.log, shown_errors_append, shown_errors]

theorem update_invalidated_state (env : Env) (s : Priv) :
    (update_invalidated env s).1 =
      if env.apply_status = ApplyStatus.APPLY_STATUS_INVALIDATED ∧
          (s.printer_technology = PrinterTechnology.ptSLA ∨
            (s.printer_technology = PrinterTechnology.ptFFF ∧ s.config_wipe_tower = true))
      then UPDATE_BACKGROUND_PROCESS_REFRESH_SCENE else 0 := by
  unfold update_invalidated
  dsimp only [Priv.log]
  split_ifs <;> simp_all

theorem update_validate_state (env : Env) (fv pp : Bool) (rs : Nat) (s : Priv) :
    (update_validate env fv pp rs s).1 =
      rs ||| (if ((env.apply_status != ApplyStatus.APPLY_STATUS_UNCHANGED || fv) &&
          !s.background_process.empty) = true then
        (if env.validate_err = "" then
          (if (env.apply_status != ApplyStatus.APPLY_STATUS_UNCHANGED &&
              s.config_background_processing) = true
            then UPDATE_BACKGROUND_PROCESS_RESTART else 0)
          else UPDATE_BACKGROUND_PROCESS_INVALID)
      else (if s.delayed_error_message = "" then 0 else UPDATE_BACKGROUND_PROCESS_INVALID)) := by
  unfold update_validate
  dsimp only [Priv.log]
  split_ifs <;> simp_all

/-- The bit mask returned by `update_background_process`. -/
theorem update_background_process_state (env : Env) (fv pp : Bool) (s : Priv) :
    (update_background_process env fv pp s).1 =
      (if env.apply_status = ApplyStatus.APPLY_STATUS_INVALIDATED ∧
          (s.printer_technology = PrinterTechnology.ptSLA ∨
            (s.printer_technology = PrinterTechnology.ptFFF ∧ s.config_wipe_tower = true))
        then UPDATE_BACKGROUND_PROCESS_REFRESH_SCENE else 0) |||
      (if validation_runs env fv = true then
        (if env.validate_err = "" then
          (if (env.apply_status != ApplyStatus.APPLY_STATUS_UNCHANGED &&
              s.config_background_processing) = true
            then UPDATE_BACKGROUND_PROCESS_RESTART else 0)
          else UPDATE_BACKGROUND_PROCESS_INVALID)
      else (if s.delayed_error_message = "" then 0 else UPDATE_BACKGROUND_PROCESS_INVALID)) := by
  unfold update_background_process validation_runs
  simp only [update_validate_state, update_invalidated_state,
    (update_invalidated_frame _ _).1, (update_invalidated_frame _ _).2.2.1,
    (update_invalidated_frame _ _).2.2.2]
  by_cases hl : env.layers_editing_enabled = true <;> simp [hl, Priv.log]

/-- C11: whenever the validation run inside `update_background_process` returns a non-empty
error, the returned state has the `INVALID` bit, and exactly one of two things happened: the
error was shown (this happens exactly when error messages are not postponed and the top-level
window is active) and nothing is stored, or the error is stored in `delayed_error_message`
and nothing was shown. -/
theorem validation_error_shown_or_deferred (env : Env) (force_validation postpone : Bool)
    (s : Priv) (hruns : validation_runs env force_validation = true)
    (herr : env.validate_err ≠ "") :
    (update_background_process env force_validation postpone s).1 &&&
        UPDATE_BACKGROUND_PROCESS_INVALID ≠ 0 ∧
    ((postpone = false ∧ env.top_level_active = true) →
      shown_errors (update_background_process env force_validation postpone s).2.calls =
        shown_errors s.calls ++ [env.validate_err] ∧
      (update_background_process env force_validation postpone s).2.delayed_error_message
        = "") ∧
    (¬ (postpone = false ∧ env.top_level_active = true) →
      shown_errors (update_background_process env force_validation postpone s).2.calls =
        shown_errors s.calls ∧
      (update_background_process env force_validation postpone s).2.delayed_error_message
        = env.validate_err) := by
  refine ⟨?_, ?_, ?_⟩
  · rw [update_background_process_state]
    simp only [hruns, herr, if_true, if_false]
    split <;> decide
  · rintro ⟨hp, ha⟩
    rw [update_background_process_shown, update_background_process_delayed]
    simp [hruns, herr, hp, ha]
  · intro hn
    rw [update_background_process_shown, update_background_process_delayed]
    have hc : (!postpone && env.top_level_active) = false := by
      cases postpone <;> cases hta : env.top_level_active <;> simp_all
    simp [hruns, herr, hc]

/-- An invalidated, non-empty print with an error while the window is not active: the error
is stored and not shown. -/
theorem validation_error_shown_or_deferred_witness :
    shown_errors (update_background_process
        { apply_status := ApplyStatus.APPLY_STATUS_INVALIDATED,
          after_apply := { empty := false }, validate_err := "No extrusions",
          top_level_active := false } false false {}).2.calls = shown_errors [] ∧
      (update_background_process
        { apply_status := ApplyStatus.APPLY_STATUS_INVALIDATED,
          after_apply := { empty := false }, validate_err := "No extrusions",
          top_level_active := false } false false {}).2.delayed_error_message =
        "No extrusions" :=
  (validation_error_shown_or_deferred
    { apply_status := ApplyStatus.APPLY_STATUS_INVALIDATED,
      after_apply := { empty := false }, validate_err := "No extrusions",
      top_level_active := false } false false {} (by decide) (by decide)).2.2 (by decide)

theorem show_delayed_error_message_stored (s : Priv) (h : s.delayed_error_message ≠ "") :
    show_delayed_error_message s =
      { s with delayed_error_message := "",
               calls := s.calls ++ [Call.show_error s.delayed_error_message] } := by
  simp [show_delayed_error_message, h, Priv.log]

theorem show_delayed_error_message_empty (s : Priv) (h : s.delayed_error_message = "") :
    show_delayed_error_message s = s := by
  simp [show_delayed_error_message, h]

/-- C12, as stated, fails: `schedule_background_process` empties a stored error without
showing it. -/
theorem schedule_discards_deferred_error :
    (schedule_background_process
        { delayed_error_message := "No extrusions" }).delayed_error_message = "" ∧
      shown_errors (schedule_background_process
        { delayed_error_message := "No extrusions" }).calls = [] := by
  decide

/-- C12, amended: once `delayed_error_message` holds a non-empty error,
`show_delayed_error_message` shows exactly it and empties the store;
`update_background_process` leaves it stored, shows nothing and reports `INVALID` when it does
not validate, and when it validates it discards the stored error as no longer valid and
puts the outcome of the new validation in its place (the new error, unless that is empty or
shown at once); `schedule_background_process` discards it without showing anything. -/
theorem deferred_error_superseded (env : Env) (force_validation postpone : Bool) (s : Priv)
    (hstored : s.delayed_error_message ≠ "") :
    (shown_errors (show_delayed_error_message s).calls =
        shown_errors s.calls ++ [s.delayed_error_message] ∧
      (show_delayed_error_message s).delayed_error_message = "") ∧
    (validation_runs env force_validation = false →
      (update_background_process env force_validation postpone s).2.delayed_error_message =
        s.delayed_error_message ∧
      shown_errors (update_background_process env force_validation postpone s).2.calls =
        shown_errors s.calls ∧
      (update_background_process env force_validation postpone s).1 &&&
        UPDATE_BACKGROUND_PROCESS_INVALID ≠ 0) ∧
    (validation_runs env force_validation = true →
      (update_background_process env force_validation postpone s).2.delayed_error_message =
        (if env.validate_err ≠ "" ∧ ¬ (postpone = false ∧ env.top_level_active = true)
          then env.validate_err else "") ∧
      shown_errors (update_background_process env force_validation postpone s).2.calls =
        shown_errors s.calls ++
          (if env.validate_err ≠ "" ∧ postpone = false ∧ env.top_level_active = true
            then [env.validate_err] else [])) ∧
    ((schedule_background_process s).delayed_error_message = "" ∧
      shown_errors (schedule_background_process s).calls = shown_errors s.calls) := by
  refine ⟨?_, ?_, ?_, ?_⟩
  · rw [show_delayed_error_message_stored s hstored]
    simp [shown_errors_append, shown_errors]
  · intro hr
    refine ⟨?_, ?_, ?_⟩
    · rw [update_background_process_delayed]; simp [hr]
    · rw [update_background_process_shown]; simp [hr]
    · rw [update_background_process_state]
      simp only [hr, hstored, if_false, Bool.false_eq_true]
      split <;> decide
  · intro hr
    constructor
    · rw [update_background_process_delayed]
      cases postpone <;> cases hta : env.top_level_active <;>
        by_cases he : env.validate_err = "" <;> simp [hr, he]
    · rw [update_background_process_shown]
      cases postpone <;> cases hta : env.top_level_active <;>
        by_cases he : env.validate_err = "" <;> simp [hr, he]
  · simp [schedule_background_process, Priv.log, shown_errors_append, shown_errors]

/-- A stored error and an update that finds nothing changed: the error stays stored, nothing
is shown, and the state is `INVALID`. -/
theorem deferred_error_superseded_witness :
    (update_background_process {} false false
        { delayed_error_message := "No extrusions" }).2.delayed_error_message =
        "No extrusions" ∧
      shown_errors (update_background_process {} false false
        { delayed_error_message := "No extrusions" }).2.calls = shown_errors [] ∧
      (update_background_process {} false false
        { delayed_error_message := "No extrusions" }).1 &&&
        UPDATE_BACKGROUND_PROCESS_INVALID ≠ 0 :=
  (deferred_error_superseded {} false false { delayed_error_message := "No extrusions" }
    (by decide)).2.1 (by decide)

/-- C13: `show_delayed_error_message` (all that `on_activate` does besides moving the
keyboard focus) with a non-empty stored error displays exactly that error and leaves
`delayed_error_message` empty, so that a repeated call displays nothing; with an empty stored
error it changes nothing.  An error that `update_background_process` stored because the window
was not active is the one displayed by the next `on_activate`. -/
theorem delayed_error_shown_exactly_once (env env2 : Env) (force_validation postpone : Bool)
    (s t : Priv) (hruns : validation_runs env force_validation = true)
    (herr : env.validate_err ≠ "") (hinactive : env.top_level_active = false) :
    (t.delayed_error_message ≠ "" →
      (show_delayed_error_message t).calls =
        t.calls ++ [Call.show_error t.delayed_error_message] ∧
      (show_delayed_error_message t).delayed_error_message = "" ∧
      show_delayed_error_message (show_delayed_error_message t) =
        show_delayed_error_message t) ∧
    (t.delayed_error_message = "" → show_delayed_error_message t = t) ∧
    shown_errors (on_activate env2 t).calls =
      shown_errors t.calls ++ (if t.delayed_error_message = "" then []
        else [t.delayed_error_message]) ∧
    (on_activate env2 t).delayed_error_message = "" ∧
    shown_errors (on_activate env2
        (update_background_process env force_validation postpone s).2).calls =
      shown_errors s.calls ++ [env.validate_err] := by
  have hact : ∀ u : Priv, shown_errors (on_activate env2 u).calls =
      shown_errors u.calls ++ (if u.delayed_error_message = "" then []
        else [u.delayed_error_message]) ∧ (on_activate env2 u).delayed_error_message = "" := by
    intro u
    unfold on_activate
    dsimp only [Priv.log]
    by_cases hu : u.delayed_error_message = ""
    · split_ifs <;>
        simp [show_delayed_error_message, hu, shown_errors_append, shown_errors]
    · split_ifs <;>
        simp [show_delayed_error_message, hu, Priv.log, shown_errors_append, shown_errors]
  refine ⟨?_, show_delayed_error_message_empty t, (hact t).1, (hact t).2, ?_⟩
  · intro ht
    rw [show_delayed_error_message_stored t ht]
    refine ⟨rfl, rfl, ?_⟩
    rw [show_delayed_error_message_empty _ rfl]
  · rw [(hact _).1, update_background_process_shown, update_background_process_delayed]
    simp [hruns, herr, hinactive]

/-- An error found while the window was not active is displayed by the next activation. -/
theorem delayed_error_shown_exactly_once_witness :
    shown_errors (on_activate {}
        (update_background_process
          { apply_status := ApplyStatus.APPLY_STATUS_INVALIDATED,
            after_apply := { empty := false }, validate_err := "No extrusions",
            top_level_active := false } false false {}).2).calls =
      shown_errors [] ++ ["No extrusions"] :=
  (delayed_error_shown_exactly_once
    { apply_status := ApplyStatus.APPLY_STATUS_INVALIDATED,
      after_apply := { empty := false }, validate_err := "No extrusions",
      top_level_active := false } {} false false {} {} (by decide) (by decide) rfl).2.2.2.2

/-! ## Export -/

theorem scheduled_append (a b : List Call) :
    scheduled (a ++ b) = scheduled a ++ scheduled b := by
  induction a with
  | nil => rfl
  | cons c rest ih => cases c <;> simp [scheduled, ih]

/-- `update_background_process` schedules neither an export nor an upload. -/
theorem update_background_process_scheduled (env : Env) (fv pp : Bool) (s : Priv) :
    scheduled (update_background_process env fv pp s).2.calls = scheduled s.calls := by
  have h1 : ∀ t : Priv, scheduled (update_invalidated env t).2.calls = scheduled t.calls := by
    intro t
    unfold update_invalidated
    dsimp only [Priv.log]
    split_ifs <;> simp [scheduled_append, scheduled]
  have h2 : ∀ (rs : Nat) (t : Priv),
      scheduled (update_validate env fv pp rs t).2.calls = scheduled t.calls := by
    intro rs t
    unfold update_validate
    dsimp only [Priv.log]
    split_ifs <;> simp [scheduled_append, scheduled]
  have h3 : ∀ (wr : Bool) (rs : Nat) (t : Priv),
      scheduled (update_notify_cancelled env wr rs t).calls = scheduled t.calls := by
    intro wr rs t
    unfold update_notify_cancelled
    dsimp only [Priv.log]
    split_ifs <;> simp [scheduled_append, scheduled]
  have h4 : ∀ (rs : Nat) (t : Priv),
      scheduled (update_buttons env rs t).calls = scheduled t.calls := by
    intro rs t
    unfold update_buttons
    dsimp only [Priv.log]
    split_ifs <;> simp [scheduled_append, scheduled]
  unfold update_background_process
  simp only [h1, h2, h3, h4]
  split_ifs <;> simp [Priv.log, scheduled_append, scheduled]

theorem calls_extend_refl (t : Priv) : calls_extend t t :=
  ⟨[], by simp⟩

theorem calls_extend_log (t u : Priv) (c : Call) (h : calls_extend t u) :
    calls_extend t (u.log c) := by
  obtain ⟨tail, ht⟩ := h
  exact ⟨tail ++ [c], by simp [Priv.log, ht]⟩

theorem calls_extend_restart (env : Env) (state : Nat) (t u : Priv) (h : calls_extend t u) :
    calls_extend t (restart_background_process env state u).2 := by
  unfold restart_background_process
  split_ifs
  · exact h
  · exact calls_extend_log _ _ _ (calls_extend_log _ _ _ h)
  · exact calls_extend_log _ _ _ h
  · exact h

/-! ## Time travel -/

/-- C15: when the printer technology of the target snapshot differs from the current one and
the caller declines the confirmation, `undo_redo_to` only asks the question: the model, both
stacks with their active time stamps, the active-stack selector, the printer technology, the
last-active profile names and the suppression counter all have their values from before the
call. -/
theorem undo_redo_to_declined_changes_nothing (env : Env) (it_snapshot : Snapshot) (s : Priv)
    (hchanged : s.printer_technology ≠ it_snapshot.snapshot_data.printer_technology)
    (hdeclined : env.confirm_switch = false) :
    undo_redo_to env it_snapshot s =
        s.log (Call.check_unsaved_changes
          (switch_message it_snapshot.snapshot_data.printer_technology)) ∧
      (undo_redo_to env it_snapshot s).objects = s.objects ∧
      (undo_redo_to env it_snapshot s).model_wipe_tower_position =
        s.model_wipe_tower_position ∧
      (undo_redo_to env it_snapshot s).model_wipe_tower_rotation =
        s.model_wipe_tower_rotation ∧
      (undo_redo_to env it_snapshot s).m_undo_redo_stack_main = s.m_undo_redo_stack_main ∧
      (undo_redo_to env it_snapshot s).m_undo_redo_stack_gizmos = s.m_undo_redo_stack_gizmos ∧
      (undo_redo_to env it_snapshot s).m_undo_redo_stack_active = s.m_undo_redo_stack_active ∧
      (undo_redo_to env it_snapshot s).printer_technology = s.printer_technology ∧
      (undo_redo_to env it_snapshot s).m_last_fff_printer_profile_name =
        s.m_last_fff_printer_profile_name ∧
      (undo_redo_to env it_snapshot s).m_last_sla_printer_profile_name =
        s.m_last_sla_printer_profile_name ∧
      (undo_redo_to env it_snapshot s).m_prevent_snapshots = s.m_prevent_snapshots := by
  have h : undo_redo_to env it_snapshot s =
      s.log (Call.check_unsaved_changes
        (switch_message it_snapshot.snapshot_data.printer_technology)) := by
    have hne : (s.printer_technology != it_snapshot.snapshot_data.printer_technology) = true := by
      simpa using hchanged
    simp only [undo_redo_to, undo_redo_to_body, suppress_snapshots, allow_snapshots, hne,
      hdeclined, Priv.log, Bool.not_false, Bool.and_self, if_true]
    simp
  rw [h]
  simp [Priv.log]

/-- An SLA snapshot while an FFF printer is active, and the user declines: the state keeps
its stack, technology and counter. -/
theorem undo_redo_to_declined_changes_nothing_witness :
    undo_redo_to { confirm_switch := false }
        { timestamp := 0, snapshot_data := { printer_technology := PrinterTechnology.ptSLA } }
        { m_undo_redo_stack_main := { snapshots := [{ timestamp := 0 }, { timestamp := 1 }],
                                      active_snapshot_time := 1 },
          m_prevent_snapshots := 0 } =
      Priv.log
        { m_undo_redo_stack_main := { snapshots := [{ timestamp := 0 }, { timestamp := 1 }],
                                      active_snapshot_time := 1 },
          m_prevent_snapshots := 0 }
        (Call.check_unsaved_changes (switch_message PrinterTechnology.ptSLA)) :=
  (undo_redo_to_declined_changes_nothing { confirm_switch := false }
    { timestamp := 0, snapshot_data := { printer_technology := PrinterTechnology.ptSLA } }
    { m_undo_redo_stack_main := { snapshots := [{ timestamp := 0 }, { timestamp := 1 }],
                                  active_snapshot_time := 1 },
      m_prevent_snapshots := 0 } (by decide) rfl).1

theorem controller_frame_refl (t : Priv) : controller_frame t t := by
  cases t
  simp [controller_frame]

theorem controller_frame_trans (t u v : Priv) (h1 : controller_frame t u)
    (h2 : controller_frame u v) : controller_frame t v := by
  cases t
  cases u
  cases v
  simp only [controller_frame, Priv.mk.injEq] at *
  simp_all

theorem controller_frame_log (t : Priv) (c : Call) : controller_frame t (t.log c) := by
  cases t
  simp [controller_frame, Priv.log]

/-- `update_background_process` writes nothing but the call log, the stored error, the state
of the background process and the timer. -/
theorem update_background_process_frame (env : Env) (fv pp : Bool) (s : Priv) :
    controller_frame s (update_background_process env fv pp s).2 := by
  have h1 : ∀ t : Priv, controller_frame t (update_invalidated env t).2 := by
    intro t
    cases t
    unfold update_invalidated
    dsimp only [Priv.log]
    split_ifs <;> simp [controller_frame]
  have h2 : ∀ (rs : Nat) (t : Priv), controller_frame t (update_validate env fv pp rs t).2 := by
    intro rs t
    cases t
    unfold update_validate
    dsimp only [Priv.log]
    split_ifs <;> simp [controller_frame]
  have h3 : ∀ (wr : Bool) (rs : Nat) (t : Priv),
      controller_frame t (update_notify_cancelled env wr rs t) := by
    intro wr rs t
    cases t
    unfold update_notify_cancelled
    dsimp only [Priv.log]
    split_ifs <;> simp [controller_frame]
  have h4 : ∀ (rs : Nat) (t : Priv), controller_frame t (update_buttons env rs t) := by
    intro rs t
    cases t
    unfold update_buttons
    dsimp only [Priv.log]
    split_ifs <;> simp [controller_frame]
  have h0 : controller_frame s
      (if env.layers_editing_enabled = true then
        ({ ((({ s.log Call.timer_stop with background_process_timer := none } : Priv).log
            Call.update_print_volume_state).log Call.background_process_apply) with
          background_process := env.after_apply } : Priv).log Call.canvas_refresh
      else
        { ((({ s.log Call.timer_stop with background_process_timer := none } : Priv).log
            Call.update_print_volume_state).log Call.background_process_apply) with
          background_process := env.after_apply }) := by
    cases s
    split_ifs <;> simp [controller_frame, Priv.log]
  unfold update_background_process
  dsimp only
  exact controller_frame_trans _ _ _ h0
    (controller_frame_trans _ _ _ (h1 _)
      (controller_frame_trans _ _ _ (h2 _ _)
        (controller_frame_trans _ _ _ (h3 _ _ _) (h4 _ _))))

theorem controller_frame_technology (t u : Priv) (h : controller_frame t u) :
    u.printer_technology = t.printer_technology := by
  have := congrArg Priv.printer_technology h
  simpa using this

theorem restart_background_process_errors (env : Env) (state : Nat) (t : Priv) :
    (restart_background_process env state t).2.delayed_error_message =
        t.delayed_error_message ∧
      shown_errors (restart_background_process env state t).2.calls =
        shown_errors t.calls := by
  unfold restart_background_process
  dsimp only [Priv.log]
  split_ifs <;> simp [shown_errors_append, shown_errors]

/-- The end of `update_after_undo_redo`: whatever error the call of `update` left stored is
shown, and nothing stays stored. -/
theorem update_after_undo_redo_shows_stored (env : Env) (snapshot : Snapshot) (s : Priv) :
    shown_errors (update_after_undo_redo env snapshot s).calls =
        shown_errors (update env
          (FORCE_BACKGROUND_PROCESSING_UPDATE ||| POSTPONE_VALIDATION_ERROR_MESSAGE)
          { s with selection := {} }).calls ++
        (if (update env
            (FORCE_BACKGROUND_PROCESSING_UPDATE ||| POSTPONE_VALIDATION_ERROR_MESSAGE)
            { s with selection := {} }).delayed_error_message = "" then []
          else [(update env
            (FORCE_BACKGROUND_PROCESSING_UPDATE ||| POSTPONE_VALIDATION_ERROR_MESSAGE)
            { s with selection := {} }).delayed_error_message]) ∧
      (update_after_undo_redo env snapshot s).delayed_error_message = "" := by
  unfold update_after_undo_redo
  dsimp only
  generalize update env
    (FORCE_BACKGROUND_PROCESSING_UPDATE ||| POSTPONE_VALIDATION_ERROR_MESSAGE)
    { s with selection := {} } = t
  by_cases ht : t.delayed_error_message = "" <;>
    cases hact : t.m_undo_redo_stack_active <;>
    by_cases hm : (env.mode_simple && env.model_has_advanced_features) = true <;>
    simp [show_delayed_error_message, set_undo_redo_stack, Priv.log, ht, hact, hm,
      shown_errors_append, shown_errors]

/-- In SLA mode `update` with the postpone flag leaves a validation error stored. -/
theorem update_sla_postponed (env : Env) (s : Priv)
    (hsla : s.printer_technology = PrinterTechnology.ptSLA) :
    shown_errors (update env
        (FORCE_BACKGROUND_PROCESSING_UPDATE ||| POSTPONE_VALIDATION_ERROR_MESSAGE) s).calls =
        shown_errors s.calls ∧
      (update env
        (FORCE_BACKGROUND_PROCESSING_UPDATE ||| POSTPONE_VALIDATION_ERROR_MESSAGE)
        s).delayed_error_message =
        (if validation_runs env false = true then env.validate_err
          else s.delayed_error_message) := by
  have hflag : ((FORCE_BACKGROUND_PROCESSING_UPDATE ||| POSTPONE_VALIDATION_ERROR_MESSAGE) &&&
      POSTPONE_VALIDATION_ERROR_MESSAGE != 0) = true := by decide
  have htech : ∀ t : Priv, t.printer_technology = PrinterTechnology.ptSLA →
      (((update_background_process env false true t).2.log
        (Call.reload_scene false
          ((FORCE_BACKGROUND_PROCESSING_UPDATE ||| POSTPONE_VALIDATION_ERROR_MESSAGE) &&&
            FORCE_FULL_SCREEN_REFRESH != 0))).log
        Call.preview_reload_print).printer_technology = PrinterTechnology.ptSLA := by
    intro t ht
    have := controller_frame_technology _ _ (update_background_process_frame env false true t)
    simp [Priv.log, this, ht]
  have hmain : ∀ t : Priv, t.printer_technology = PrinterTechnology.ptSLA →
      shown_errors t.calls = shown_errors s.calls →
      t.delayed_error_message = s.delayed_error_message →
      shown_errors (
        (restart_background_process env (update_background_process env false true t).1
          (((update_background_process env false true t).2.log
            (Call.reload_scene false
              ((FORCE_BACKGROUND_PROCESSING_UPDATE ||| POSTPONE_VALIDATION_ERROR_MESSAGE) &&&
                FORCE_FULL_SCREEN_REFRESH != 0))).log Call.preview_reload_print)).2.calls) =
        shown_errors s.calls ∧
      (restart_background_process env (update_background_process env false true t).1
          (((update_background_process env false true t).2.log
            (Call.reload_scene false
              ((FORCE_BACKGROUND_PROCESSING_UPDATE ||| POSTPONE_VALIDATION_ERROR_MESSAGE) &&&
                FORCE_FULL_SCREEN_REFRESH != 0))).log
            Call.preview_reload_print)).2.delayed_error_message =
        (if validation_runs env false = true then env.validate_err
          else s.delayed_error_message) := by
    intro t _ hshown hdel
    rw [(restart_background_process_errors _ _ _).1, (restart_background_process_errors _ _ _).2]
    constructor
    · simp [Priv.log, shown_errors_append, shown_errors, update_background_process_shown,
        hshown]
    · simp only [Priv.log, update_background_process_delayed, hdel]
      by_cases hr : validation_runs env false = true <;>
        by_cases he : env.validate_err = "" <;> simp [hr, he]
  unfold update
  dsimp only
  by_cases ha : env.autocenter = true
  · have hs1 : (s.log Call.center_instances_around_point).printer_technology =
        PrinterTechnology.ptSLA := by simp [Priv.log, hsla]
    simp only [ha, if_true, hs1, Bool.true_or, decide_True, hflag, htech _ hs1]
    exact hmain _ hs1 (by simp [Priv.log, shown_errors_append, shown_errors])
      (by simp [Priv.log])
  · simp only [ha, if_false, if_true, hsla, Bool.true_or, decide_True, hflag, htech _ hsla,
      Bool.false_eq_true]
    exact hmain _ hsla rfl rfl

/-- In FFF mode `update` ends with `schedule_background_process`, which empties the store:
whatever error the controller update queued is gone when `update` returns. -/
theorem update_fff_postponed (env : Env) (s : Priv)
    (hfff : s.printer_technology = PrinterTechnology.ptFFF) :
    shown_errors (update env
        (FORCE_BACKGROUND_PROCESSING_UPDATE ||| POSTPONE_VALIDATION_ERROR_MESSAGE) s).calls =
        shown_errors s.calls ∧
      (update env
        (FORCE_BACKGROUND_PROCESSING_UPDATE ||| POSTPONE_VALIDATION_ERROR_MESSAGE)
        s).delayed_error_message = "" := by
  have hflag : ((FORCE_BACKGROUND_PROCESSING_UPDATE ||| POSTPONE_VALIDATION_ERROR_MESSAGE) &&&
      POSTPONE_VALIDATION_ERROR_MESSAGE != 0) = true := by decide
  have hforce : ((FORCE_BACKGROUND_PROCESSING_UPDATE ||| POSTPONE_VALIDATION_ERROR_MESSAGE) &&&
      FORCE_BACKGROUND_PROCESSING_UPDATE != 0) = true := by decide
  have htech : ∀ t : Priv, t.printer_technology = PrinterTechnology.ptFFF →
      ¬ (((update_background_process env false true t).2.log
        (Call.reload_scene false
          ((FORCE_BACKGROUND_PROCESSING_UPDATE ||| POSTPONE_VALIDATION_ERROR_MESSAGE) &&&
            FORCE_FULL_SCREEN_REFRESH != 0))).log
        Call.preview_reload_print).printer_technology = PrinterTechnology.ptSLA := by
    intro t ht
    have := controller_frame_technology _ _ (update_background_process_frame env false true t)
    simp [Priv.log, this, ht]
  have hmain : ∀ t : Priv, shown_errors t.calls = shown_errors s.calls →
      shown_errors (schedule_background_process
          (((update_background_process env false true t).2.log
            (Call.reload_scene false
              ((FORCE_BACKGROUND_PROCESSING_UPDATE ||| POSTPONE_VALIDATION_ERROR_MESSAGE) &&&
                FORCE_FULL_SCREEN_REFRESH != 0))).log Call.preview_reload_print)).calls =
        shown_errors s.calls ∧
      (schedule_background_process
          (((update_background_process env false true t).2.log
            (Call.reload_scene false
              ((FORCE_BACKGROUND_PROCESSING_UPDATE ||| POSTPONE_VALIDATION_ERROR_MESSAGE) &&&
                FORCE_FULL_SCREEN_REFRESH != 0))).log
            Call.preview_reload_print)).delayed_error_message = "" := by
    intro t hshown
    constructor
    · simp [schedule_background_process, Priv.log, shown_errors_append, shown_errors,
        update_background_process_shown, hshown]
    · simp [schedule_background_process, Priv.log]
  unfold update
  dsimp only
  by_cases ha : env.autocenter = true
  · have hs1 : (s.log Call.center_instances_around_point).printer_technology =
        PrinterTechnology.ptFFF := by simp [Priv.log, hfff]
    simp only [ha, if_true, hs1, hforce, hflag, Bool.or_true, if_neg (htech _ hs1)]
    exact hmain (s.log Call.center_instances_around_point)
      (by simp [Priv.log, shown_errors_append, shown_errors])
  · simp only [ha, if_false, if_true, hfff, hforce, hflag, Bool.or_true,
      if_neg (htech _ hfff), Bool.false_eq_true]
    exact hmain s rfl

/-- In SLA mode the claim of C16 holds: a validation error produced by the restored state
is not shown during the controller update, stays stored until the end of
`update_after_undo_redo`, and is shown there. -/
theorem update_after_undo_redo_sla_shows_error (env : Env) (snapshot : Snapshot) (s : Priv)
    (hsla : s.printer_technology = PrinterTechnology.ptSLA)
    (hruns : validation_runs env false = true) (herr : env.validate_err ≠ "") :
    shown_errors (update env
        (FORCE_BACKGROUND_PROCESSING_UPDATE ||| POSTPONE_VALIDATION_ERROR_MESSAGE)
        { s with selection := {} }).calls = shown_errors s.calls ∧
      (update env
        (FORCE_BACKGROUND_PROCESSING_UPDATE ||| POSTPONE_VALIDATION_ERROR_MESSAGE)
        { s with selection := {} }).delayed_error_message = env.validate_err ∧
      shown_errors (update_after_undo_redo env snapshot s).calls =
        shown_errors s.calls ++ [env.validate_err] ∧
      (update_after_undo_redo env snapshot s).delayed_error_message = "" := by
  have hu := update_sla_postponed env { s with selection := {} } hsla
  have ha := update_after_undo_redo_shows_stored env snapshot s
  simp only [hruns, if_true] at hu
  refine ⟨hu.1, hu.2, ?_, ha.2⟩
  rw [ha.1, hu.1, hu.2]
  simp [herr]

/-- In FFF mode `update_after_undo_redo` shows no validation error at all, whatever the
validation of the restored state returned. -/
theorem update_after_undo_redo_fff_shows_nothing (env : Env) (snapshot : Snapshot) (s : Priv)
    (hfff : s.printer_technology = PrinterTechnology.ptFFF) :
    shown_errors (update_after_undo_redo env snapshot s).calls = shown_errors s.calls ∧
      (update_after_undo_redo env snapshot s).delayed_error_message = "" := by
  have hu := update_fff_postponed env { s with selection := {} } hfff
  have ha := update_after_undo_redo_shows_stored env snapshot s
  refine ⟨?_, ha.2⟩
  rw [ha.1, hu.1, hu.2]
  simp

/-- C16 fails on the code in FFF mode: the state restored by the jump is invalid
(`validate()` returns "No extrusions"); the controller update inside `update` queues the error
without showing it, but `update` then calls `schedule_background_process`, which empties
`delayed_error_message`, so that `show_delayed_error_message` at the end of
`update_after_undo_redo` finds nothing: the error is never shown and is not stored either. -/
theorem undo_redo_fff_error_lost :
    (update_background_process
        { apply_status := ApplyStatus.APPLY_STATUS_INVALIDATED,
          after_apply := { empty := false }, validate_err := "No extrusions" } false true
        { printer_technology := PrinterTechnology.ptFFF,
          background_process := { empty := false } }).2.delayed_error_message =
        "No extrusions" ∧
      shown_errors (update_after_undo_redo
        { apply_status := ApplyStatus.APPLY_STATUS_INVALIDATED,
          after_apply := { empty := false }, validate_err := "No extrusions" }
        { timestamp := 1 }
        { printer_technology := PrinterTechnology.ptFFF,
          background_process := { empty := false } }).calls = [] ∧
      (update_after_undo_redo
        { apply_status := ApplyStatus.APPLY_STATUS_INVALIDATED,
          after_apply := { empty := false }, validate_err := "No extrusions" }
        { timestamp := 1 }
        { printer_technology := PrinterTechnology.ptFFF,
          background_process := { empty := false } }).delayed_error_message = "" := by
  decide

/-! ## Gizmos stack -/

/-- C17, as stated, fails: the main stack is active and snapshots are suppressed
(`m_prevent_snapshots = 1`); `enter_gizmos_stack` makes the gizmos stack active, but
`take_snapshot` returns at its guard and the gizmos stack holds no snapshot. -/
theorem enter_gizmos_stack_suppressed :
    (enter_gizmos_stack {} { m_prevent_snapshots := 1 }).m_undo_redo_stack_active =
        ActiveStack.gizmos ∧
      (enter_gizmos_stack {} { m_prevent_snapshots := 1 }).m_undo_redo_stack_gizmos.snapshots =
        [] := by
  decide

/-- C17, amended: in a state in which the main stack is active, `enter_gizmos_stack` makes
the gizmos stack the active one and leaves the main stack as it was; if moreover snapshots
are not suppressed and the gizmos stack is empty, the gizmos stack then holds exactly one
snapshot, the initial one, which is the active one, whereas under suppression the gizmos stack
is left as it was.  In a state in which the gizmos stack is active, `leave_gizmos_stack`
leaves the gizmos stack empty and makes the main stack active again without touching it; so
the main stack is unchanged by an enter/leave pair. -/
theorem gizmos_stack_enter_leave (env : Env) (s : Priv) :
    (s.m_undo_redo_stack_active = ActiveStack.main →
      (enter_gizmos_stack env s).m_undo_redo_stack_active = ActiveStack.gizmos ∧
      (enter_gizmos_stack env s).m_undo_redo_stack_main = s.m_undo_redo_stack_main ∧
      (s.m_prevent_snapshots ≤ 0 → s.m_undo_redo_stack_gizmos.snapshots = [] →
        ∃ sn, (enter_gizmos_stack env s).m_undo_redo_stack_gizmos.snapshots = [sn] ∧
          sn.name = "Gizmos-Initial" ∧
          (enter_gizmos_stack env s).m_undo_redo_stack_gizmos.active_snapshot_time =
            sn.timestamp) ∧
      (0 < s.m_prevent_snapshots →
        (enter_gizmos_stack env s).m_undo_redo_stack_gizmos = s.m_undo_redo_stack_gizmos) ∧
      (leave_gizmos_stack (enter_gizmos_stack env s)).m_undo_redo_stack_main =
        s.m_undo_redo_stack_main ∧
      (leave_gizmos_stack (enter_gizmos_stack env s)).m_undo_redo_stack_active =
        ActiveStack.main ∧
      (leave_gizmos_stack (enter_gizmos_stack env s)).m_undo_redo_stack_gizmos.snapshots =
        []) ∧
    (s.m_undo_redo_stack_active = ActiveStack.gizmos →
      (leave_gizmos_stack s).m_undo_redo_stack_gizmos.snapshots = [] ∧
      (leave_gizmos_stack s).m_undo_redo_stack_active = ActiveStack.main ∧
      (leave_gizmos_stack s).m_undo_redo_stack_main = s.m_undo_redo_stack_main) := by
  have hleave : ∀ t : Priv, t.m_undo_redo_stack_active = ActiveStack.gizmos →
      (leave_gizmos_stack t).m_undo_redo_stack_gizmos.snapshots = [] ∧
      (leave_gizmos_stack t).m_undo_redo_stack_active = ActiveStack.main ∧
      (leave_gizmos_stack t).m_undo_redo_stack_main = t.m_undo_redo_stack_main := by
    intro t ht
    simp [leave_gizmos_stack, ht, set_undo_redo_stack, undo_redo_stack, Stack.clear]
  have henter : s.m_undo_redo_stack_active = ActiveStack.main →
      (enter_gizmos_stack env s).m_undo_redo_stack_active = ActiveStack.gizmos ∧
      (enter_gizmos_stack env s).m_undo_redo_stack_main = s.m_undo_redo_stack_main := by
    intro hmain
    unfold enter_gizmos_stack take_snapshot
    simp only [hmain, if_true]
    dsimp only [Priv.log, set_undo_redo_stack, undo_redo_stack]
    split_ifs <;> simp
  refine ⟨fun hmain => ⟨(henter hmain).1, (henter hmain).2, ?_, ?_, ?_, ?_, ?_⟩, hleave s⟩
  · intro hallowed hempty
    have hguard : ¬ (s.m_prevent_snapshots > 0) := by omega
    unfold enter_gizmos_stack take_snapshot
    simp only [hmain, if_true, hguard, if_false]
    dsimp only [Priv.log, set_undo_redo_stack, undo_redo_stack]
    split_ifs <;>
      simp [Stack.take_snapshot, Stack.release_least_recently_used, hempty, evict_oldest]
  · intro hsup
    simp [enter_gizmos_stack, take_snapshot, hmain, hsup]
  · rw [(hleave _ (henter hmain).1).2.2]
    exact (henter hmain).2
  · exact (hleave _ (henter hmain).1).2.1
  · exact (hleave _ (henter hmain).1).1

/-- A fresh state with one snapshot on the main stack: entering gives the gizmos stack its
initial snapshot. -/
theorem gizmos_stack_enter_leave_witness :
    ∃ sn, (enter_gizmos_stack {}
        { m_undo_redo_stack_main :=
            { snapshots := [{ timestamp := 1, name := "New Project" }],
              active_snapshot_time := 1 } }).m_undo_redo_stack_gizmos.snapshots = [sn] ∧
      sn.name = "Gizmos-Initial" ∧
      (enter_gizmos_stack {}
        { m_undo_redo_stack_main :=
            { snapshots := [{ timestamp := 1, name := "New Project" }],
              active_snapshot_time := 1 } }).m_undo_redo_stack_gizmos.active_snapshot_time =
        sn.timestamp :=
  ((gizmos_stack_enter_leave {}
    { m_undo_redo_stack_main :=
        { snapshots := [{ timestamp := 1, name := "New Project" }],
          active_snapshot_time := 1 } }).1 rfl).2.2.1 (by decide) rfl

/-! ## Suppression counter -/

/-- C18, as stated, fails: starting from 0, a single `allow_snapshots` call leaves the
counter at -1. -/
theorem allow_snapshots_unmatched_negative :
    (run_scope_calls [SnapshotScopeCall.allow] {}).m_prevent_snapshots = -1 ∧
      (run_scope_calls [SnapshotScopeCall.allow] {}).m_prevent_snapshots < 0 := by
  decide

/-- C18, amended: starting from 0, along every sequence of `suppress_snapshots` and
`allow_snapshots` calls in which every `allow_snapshots` closes a scope opened by an earlier
`suppress_snapshots` (the way the scope guards issue them), the counter is greater than or
equal to 0 after every call. -/
theorem counter_nonnegative_when_nested (pre suf : List SnapshotScopeCall) (s0 : Priv)
    (h0 : s0.m_prevent_snapshots = 0) (hnested : open_scopes 0 (pre ++ suf) ≠ none) :
    0 ≤ (run_scope_calls pre s0).m_prevent_snapshots := by
  rw [open_scopes_append] at hnested
  cases hpre : open_scopes 0 pre with
  | none => simp [hpre] at hnested
  | some d =>
    rw [run_scope_calls_counter pre 0 d s0 hpre, h0]
    simp

/-- A scope opened inside another one and closed again: the counter is 1, not negative. -/
theorem counter_nonnegative_when_nested_witness :
    0 ≤ (run_scope_calls [SnapshotScopeCall.suppress, SnapshotScopeCall.suppress,
      SnapshotScopeCall.allow] {}).m_prevent_snapshots :=
  counter_nonnegative_when_nested
    [SnapshotScopeCall.suppress, SnapshotScopeCall.suppress, SnapshotScopeCall.allow]
    [SnapshotScopeCall.allow] {} rfl (by decide)

/-! ## Finalization of the jobs -/

/-- C19: if the job was cancelled, `ArrangeJob::finalize` returns at once: the three
containers are as the packer left them (no bed index is changed), no call is recorded (no
setter runs, nothing is written to an instance or to the wipe tower, `update` is not called)
and nothing else of the state changes. -/
theorem finalize_cancelled_discards (env : Env) (job : ArrangeJob) (s : Priv) :
    finalize env true job s = (job, s) ∧
      (finalize env true job s).1.m_selected = job.m_selected ∧
      (finalize env true job s).1.m_unselected = job.m_unselected ∧
      (finalize env true job s).1.m_unprintable = job.m_unprintable ∧
      (finalize env true job s).2.calls = s.calls := by
  have h : finalize env true job s = (job, s) := by
    simp [finalize]
  rw [h]
  exact ⟨rfl, rfl, rfl, rfl, rfl⟩

/-- `update(flags)` always reloads the scene, forcing a full refresh exactly when the flag
`FORCE_FULL_SCREEN_REFRESH` is given. -/
theorem update_reloads_scene (env : Env) (flags : Nat) (s : Priv) :
    Call.reload_scene false ((flags &&& FORCE_FULL_SCREEN_REFRESH) != 0) ∈
      (update env flags s).calls := by
  have hgen : ∀ (st : Nat) (t : Priv), calls_extend
      (t.log (Call.reload_scene false ((flags &&& FORCE_FULL_SCREEN_REFRESH) != 0)))
      (if ((t.log (Call.reload_scene false ((flags &&& FORCE_FULL_SCREEN_REFRESH) != 0))).log
            Call.preview_reload_print).printer_technology = PrinterTechnology.ptSLA then
        (restart_background_process env st
          ((t.log (Call.reload_scene false ((flags &&& FORCE_FULL_SCREEN_REFRESH) != 0))).log
            Call.preview_reload_print)).2
      else
        schedule_background_process
          ((t.log (Call.reload_scene false ((flags &&& FORCE_FULL_SCREEN_REFRESH) != 0))).log
            Call.preview_reload_print)) := by
    intro st t
    split_ifs
    · exact calls_extend_restart _ _ _ _ (calls_extend_log _ _ _ (calls_extend_refl _))
    · exact ⟨[Call.preview_reload_print, Call.timer_start 500, Call.canvas_set_config], by
        simp [schedule_background_process, Priv.log]⟩
  unfold update
  dsimp only
  obtain ⟨tail, ht⟩ := hgen
    (if ((if env.autocenter = true then s.log Call.center_instances_around_point
          else s).printer_technology = PrinterTechnology.ptSLA ||
        (flags &&& FORCE_BACKGROUND_PROCESSING_UPDATE) != 0) = true then
      update_background_process env false ((flags &&& POSTPONE_VALIDATION_ERROR_MESSAGE) != 0)
        (if env.autocenter = true then s.log Call.center_instances_around_point else s)
    else (0, if env.autocenter = true then s.log Call.center_instances_around_point else s)).1
    (if ((if env.autocenter = true then s.log Call.center_instances_around_point
          else s).printer_technology = PrinterTechnology.ptSLA ||
        (flags &&& FORCE_BACKGROUND_PROCESSING_UPDATE) != 0) = true then
      update_background_process env false ((flags &&& POSTPONE_VALIDATION_ERROR_MESSAGE) != 0)
        (if env.autocenter = true then s.log Call.center_instances_around_point else s)
    else (0, if env.autocenter = true then s.log Call.center_instances_around_point else s)).2
  rw [ht]
  simp [Priv.log]

/-- C20, as stated, fails for `ArrangeJob`: `finalize` of a run that was not cancelled calls
`update()` without a flag; the scene is reloaded with `force_full_scene_refresh = false`, and
no forced reload is recorded. -/
theorem arrange_finalize_no_full_refresh :
    (finalize_of {} Jobs.Arrange false {} {}).2 = update {} 0 {} ∧
      (finalize_of {} Jobs.Arrange false {} {}).2.calls =
        [Call.reload_scene false false, Call.preview_reload_print, Call.timer_start 500,
          Call.canvas_set_config] ∧
      Call.reload_scene false true ∉ (finalize_of {} Jobs.Arrange false {} {}).2.calls := by
  decide

/-- C20, amended: `finalize` of a `RotoptimizeJob` run that was not cancelled (the inherited
`PlaterJob::finalize`) calls `update` with the flag `FORCE_FULL_SCREEN_REFRESH` and so reloads
the scene with a forced full refresh; `finalize` of an `ArrangeJob` run that was not
cancelled (its own override) calls `update` without a flag, after the setters, and so reloads
the scene without forcing a full refresh; `finalize` of a cancelled run, for either job, does
not call `update` and reloads nothing. -/
theorem finalize_refreshes_scene (env : Env) (job : ArrangeJob) (s : Priv) :
    ((finalize_of env Jobs.Rotoptimize false job s).2 =
        (update env FORCE_FULL_SCREEN_REFRESH s).log Call.job_finalize ∧
      Call.reload_scene false true ∈ (finalize_of env Jobs.Rotoptimize false job s).2.calls) ∧
    ((finalize_of env Jobs.Arrange false job s).2 =
        update env 0
          (finalize_unprintable env s.bed_stride
            (finalize_unselected job.m_unselected
              (finalize_selected env s.bed_stride job.m_selected (0, s)).1)
            job.m_unprintable
            (finalize_selected env s.bed_stride job.m_selected (0, s)).2).2 ∧
      Call.reload_scene false false ∈ (finalize_of env Jobs.Arrange false job s).2.calls) ∧
    ((finalize_of env Jobs.Rotoptimize true job s).2 = s.log Call.job_finalize ∧
      (finalize_of env Jobs.Arrange true job s).2 = s) := by
  refine ⟨⟨?_, ?_⟩, ⟨?_, ?_⟩, ?_, ?_⟩
  · simp [finalize_of, PlaterJob.finalize]
  · have h := update_reloads_scene env FORCE_FULL_SCREEN_REFRESH s
    have hf : ((FORCE_FULL_SCREEN_REFRESH &&& FORCE_FULL_SCREEN_REFRESH) != 0) = true := by
      decide
    rw [hf] at h
    simp [finalize_of, PlaterJob.finalize, Priv.log, h]
  · simp [finalize_of, finalize]
  · have h := update_reloads_scene env 0
      (finalize_unprintable env s.bed_stride
        (finalize_unselected job.m_unselected
          (finalize_selected env s.bed_stride job.m_selected (0, s)).1)
        job.m_unprintable
        (finalize_selected env s.bed_stride job.m_selected (0, s)).2).2
    have hf : ((0 &&& FORCE_FULL_SCREEN_REFRESH) != 0) = false := by decide
    rw [hf] at h
    simpa [finalize_of, finalize] using h
  · simp [finalize_of, PlaterJob.finalize]
  · simp [finalize_of, finalize]

/-! ## The state returned by the controller -/

/-- The lowest bit of a mask made of a scene part and a validation part. -/
theorem restart_bit_of_mask (a b : Nat) (ha : a = 0 ∨ a = 2) (hb : b = 0 ∨ b = 1 ∨ b = 4) :
    (a ||| b) &&& 1 ≠ 0 ↔ b = 1 := by
  rcases ha with rfl | rfl <;> rcases hb with rfl | rfl | rfl <;> decide

/-- The validation part of the returned mask is `RESTART` exactly when the status is not
`UNCHANGED`, the process is not empty, the error is empty and background processing is on. -/
theorem validation_part_restart (env : Env) (fv : Bool) (s : Priv) :
    (if validation_runs env fv = true then
        (if env.validate_err = "" then
          (if (env.apply_status != ApplyStatus.APPLY_STATUS_UNCHANGED &&
              s.config_background_processing) = true
            then UPDATE_BACKGROUND_PROCESS_RESTART else 0)
          else UPDATE_BACKGROUND_PROCESS_INVALID)
      else (if s.delayed_error_message = "" then 0 else UPDATE_BACKGROUND_PROCESS_INVALID)) = 1 ↔
    (env.apply_status ≠ ApplyStatus.APPLY_STATUS_UNCHANGED ∧
      env.after_apply.empty = false ∧ env.validate_err = "" ∧
      s.config_background_processing = true) := by
  simp only [validation_runs, UPDATE_BACKGROUND_PROCESS_RESTART,
    UPDATE_BACKGROUND_PROCESS_INVALID, Bool.and_eq_true, Bool.or_eq_true, bne_iff_ne, ne_eq,
    Bool.not_eq_true']
  split_ifs with h1 h2 h3 h4
  · exact ⟨fun _ => ⟨h3.1, h1.2, h2, h3.2⟩, fun _ => rfl⟩
  · refine ⟨fun h => absurd h (by decide), fun h => absurd ⟨h.1, h.2.2.2⟩ h3⟩
  · refine ⟨fun h => absurd h (by decide), fun h => absurd h.2.2.1 h2⟩
  · refine ⟨fun h => absurd h (by decide), fun h => absurd ⟨Or.inl h.1, h.2.1⟩ h1⟩
  · refine ⟨fun h => absurd h (by decide), fun h => absurd ⟨Or.inl h.1, h.2.1⟩ h1⟩

/-- C22: `update_background_process` sets the `RESTART` bit in its result exactly when `apply`
reported a status other than `UNCHANGED`, the background process is not empty, validation
returned an empty error and background processing is enabled in the configuration; so a
forced validation of an unchanged print never sets `RESTART`. -/
theorem restart_bit_exactly_when_warranted (env : Env) (force_validation postpone : Bool)
    (s : Priv) :
    ((update_background_process env force_validation postpone s).1 &&&
        UPDATE_BACKGROUND_PROCESS_RESTART ≠ 0 ↔
      (env.apply_status ≠ ApplyStatus.APPLY_STATUS_UNCHANGED ∧
        env.after_apply.empty = false ∧ env.validate_err = "" ∧
        s.config_background_processing = true)) ∧
    (env.apply_status = ApplyStatus.APPLY_STATUS_UNCHANGED →
      (update_background_process env true postpone s).1 &&&
        UPDATE_BACKGROUND_PROCESS_RESTART = 0) := by
  have key : ∀ fv : Bool,
      ((update_background_process env fv postpone s).1 &&&
        UPDATE_BACKGROUND_PROCESS_RESTART ≠ 0 ↔
      (env.apply_status ≠ ApplyStatus.APPLY_STATUS_UNCHANGED ∧
        env.after_apply.empty = false ∧ env.validate_err = "" ∧
        s.config_background_processing = true)) := by
    intro fv
    rw [update_background_process_state, ← validation_part_restart env fv s]
    apply restart_bit_of_mask
    · unfold UPDATE_BACKGROUND_PROCESS_REFRESH_SCENE
      split_ifs
      · exact Or.inr rfl
      · exact Or.inl rfl
    · unfold UPDATE_BACKGROUND_PROCESS_RESTART UPDATE_BACKGROUND_PROCESS_INVALID
      split_ifs
      · exact Or.inr (Or.inl rfl)
      · exact Or.inl rfl
      · exact Or.inr (Or.inr rfl)
      · exact Or.inl rfl
      · exact Or.inr (Or.inr rfl)
  refine ⟨key force_validation, ?_⟩
  intro hst
  by_contra hne
  exact ((key true).mp hne).1 hst

/-- A changed, non-empty, valid print with background processing on gets `RESTART`; a forced
validation of an unchanged print does not. -/
theorem restart_bit_exactly_when_warranted_witness :
    (update_background_process
        { apply_status := ApplyStatus.APPLY_STATUS_CHANGED, after_apply := { empty := false } }
        false false { config_background_processing := true }).1 &&&
        UPDATE_BACKGROUND_PROCESS_RESTART ≠ 0 ∧
      (update_background_process { after_apply := { empty := false } } true false
        { config_background_processing := true }).1 &&& UPDATE_BACKGROUND_PROCESS_RESTART = 0 :=
  ⟨(restart_bit_exactly_when_warranted
      { apply_status := ApplyStatus.APPLY_STATUS_CHANGED, after_apply := { empty := false } }
      false false { config_background_processing := true }).1.mpr
      ⟨by decide, rfl, rfl, rfl⟩,
    (restart_bit_exactly_when_warranted { after_apply := { empty := false } } true false
      { config_background_processing := true }).2 rfl⟩

/-- C29: the bit mask returned by `update_background_process` never has the `FORCE_RESTART`
or the `FORCE_EXPORT` bit, consists of bits among `RESTART`, `REFRESH_SCENE` and `INVALID`
only, and never has `RESTART` and `INVALID` together. -/
theorem returned_mask_well_formed (env : Env) (force_validation postpone : Bool) (s : Priv) :
    (update_background_process env force_validation postpone s).1 &&&
        UPDATE_BACKGROUND_PROCESS_FORCE_RESTART = 0 ∧
      (update_background_process env force_validation postpone s).1 &&&
        UPDATE_BACKGROUND_PROCESS_FORCE_EXPORT = 0 ∧
      (update_background_process env force_validation postpone s).1 &&&
        (UPDATE_BACKGROUND_PROCESS_RESTART ||| UPDATE_BACKGROUND_PROCESS_REFRESH_SCENE |||
          UPDATE_BACKGROUND_PROCESS_INVALID) =
        (update_background_process env force_validation postpone s).1 ∧
      ¬ ((update_background_process env force_validation postpone s).1 &&&
          UPDATE_BACKGROUND_PROCESS_RESTART ≠ 0 ∧
        (update_background_process env force_validation postpone s).1 &&&
          UPDATE_BACKGROUND_PROCESS_INVALID ≠ 0) := by
  rw [update_background_process_state]
  split_ifs <;> decide

/-! ## The "cancelled" notification -/

theorem completed_events_append (a b : List Call) :
    completed_events (a ++ b) = completed_events a ++ completed_events b := by
  induction a with
  | nil => rfl
  | cons c rest ih => cases c <;> simp [completed_events, ih]

theorem update_invalidated_completed (env : Env) (s : Priv) :
    completed_events (update_invalidated env s).2.calls = completed_events s.calls := by
  unfold update_invalidated
  dsimp only [Priv.log]
  split_ifs <;> simp [completed_events_append, completed_events]

theorem update_validate_completed (env : Env) (fv pp : Bool) (rs : Nat) (s : Priv) :
    completed_events (update_validate env fv pp rs s).2.calls = completed_events s.calls ∧
      (update_validate env fv pp rs s).2.background_process = s.background_process := by
  unfold update_validate
  dsimp only [Priv.log]
  split_ifs <;> simp [completed_events_append, completed_events]

theorem update_notify_cancelled_completed (env : Env) (wr : Bool) (rs : Nat) (s : Priv) :
    completed_events (update_notify_cancelled env wr rs s).calls =
      completed_events s.calls ++
        if env.apply_status ≠ ApplyStatus.APPLY_STATUS_UNCHANGED ∧ wr = true ∧
            s.background_process.running = false ∧
            rs &&& UPDATE_BACKGROUND_PROCESS_RESTART = 0 then [-1] else [] := by
  unfold update_notify_cancelled
  dsimp only [Priv.log]
  split_ifs with h1 h2 h2
  · simp [completed_events_append, completed_events]
  · exfalso
    apply h2
    simpa [bne_iff_ne, and_assoc] using h1
  · exfalso
    apply h1
    simpa [bne_iff_ne, and_assoc] using h2
  · simp

theorem update_buttons_completed (env : Env) (rs : Nat) (s : Priv) :
    completed_events (update_buttons env rs s).calls = completed_events s.calls := by
  unfold update_buttons
  dsimp only [Priv.log]
  split_ifs <;> simp [completed_events_append, completed_events]

/-- C25: `update_background_process` posts the event `EVT_PROCESS_COMPLETED` with the value
`-1` exactly when `apply` reported a status other than `UNCHANGED`, the background process was
running before `apply`, it is not running after `apply`, and the `RESTART` bit is not set in
the result; in every other case it posts no completion event. -/
theorem cancelled_event_exactly_when_stopped (env : Env) (force_validation postpone : Bool)
    (s : Priv) :
    completed_events (update_background_process env force_validation postpone s).2.calls =
      completed_events s.calls ++
        if env.apply_status ≠ ApplyStatus.APPLY_STATUS_UNCHANGED ∧
            s.background_process.running = true ∧ env.after_apply.running = false ∧
            (update_background_process env force_validation postpone s).1 &&&
              UPDATE_BACKGROUND_PROCESS_RESTART = 0 then [-1] else [] := by
  unfold update_background_process
  simp only [update_buttons_completed, update_notify_cancelled_completed,
    (update_validate_completed _ _ _ _ _).1, (update_validate_completed _ _ _ _ _).2,
    update_invalidated_completed, (update_invalidated_frame _ _).2.2.1]
  by_cases hl : env.layers_editing_enabled = true <;>
    simp [hl, Priv.log, completed_events_append, completed_events]

/-! ## Debounce -/

theorem update_invalidated_applies (env : Env) (s : Priv) :
    (update_invalidated env s).2.calls.count Call.background_process_apply =
        s.calls.count Call.background_process_apply ∧
      (update_invalidated env s).2.background_process_timer = s.background_process_timer := by
  unfold update_invalidated
  dsimp only [Priv.log]
  split_ifs <;> simp [List.count_append, List.count_singleton]

theorem update_validate_applies (env : Env) (fv pp : Bool) (rs : Nat) (s : Priv) :
    (update_validate env fv pp rs s).2.calls.count Call.background_process_apply =
        s.calls.count Call.background_process_apply ∧
      (update_validate env fv pp rs s).2.background_process_timer =
        s.background_process_timer := by
  unfold update_validate
  dsimp only [Priv.log]
  split_ifs <;> simp [List.count_append, List.count_singleton]

theorem update_notify_cancelled_applies (env : Env) (wr : Bool) (rs : Nat) (s : Priv) :
    (update_notify_cancelled env wr rs s).calls.count Call.background_process_apply =
        s.calls.count Call.background_process_apply ∧
      (update_notify_cancelled env wr rs s).background_process_timer =
        s.background_process_timer := by
  unfold update_notify_cancelled
  dsimp only [Priv.log]
  split_ifs <;> simp [List.count_append, List.count_singleton]

theorem update_buttons_applies (env : Env) (rs : Nat) (s : Priv) :
    (update_buttons env rs s).calls.count Call.background_process_apply =
        s.calls.count Call.background_process_apply ∧
      (update_buttons env rs s).background_process_timer = s.background_process_timer := by
  unfold update_buttons
  dsimp only [Priv.log]
  split_ifs <;> simp [List.count_append, List.count_singleton]

/-- One run of `update_background_process` calls `background_process.apply` exactly once and
leaves no fire of the timer pending. -/
theorem update_background_process_applies (env : Env) (fv pp : Bool) (s : Priv) :
    (update_background_process env fv pp s).2.calls.count Call.background_process_apply =
        s.calls.count Call.background_process_apply + 1 ∧
      (update_background_process env fv pp s).2.background_process_timer = none := by
  unfold update_background_process
  simp only [(update_buttons_applies _ _ _).1, (update_buttons_applies _ _ _).2,
    (update_notify_cancelled_applies _ _ _ _).1, (update_notify_cancelled_applies _ _ _ _).2,
    (update_validate_applies _ _ _ _ _).1, (update_validate_applies _ _ _ _ _).2,
    (update_invalidated_applies _ _).1, (update_invalidated_applies _ _).2]
  split_ifs <;> simp [Priv.log, List.count_append, List.count_singleton]

theorem restart_background_process_applies (env : Env) (state : Nat) (s : Priv) :
    (restart_background_process env state s).2.calls.count Call.background_process_apply =
        s.calls.count Call.background_process_apply ∧
      (restart_background_process env state s).2.background_process_timer =
        s.background_process_timer := by
  unfold restart_background_process
  dsimp only [Priv.log]
  split_ifs <;> simp [List.count_append, List.count_singleton]

theorem update_restart_background_process_applies (env : Env) (fs fp : Bool) (s : Priv) :
    (update_restart_background_process env fs fp s).2.calls.count
          Call.background_process_apply =
        s.calls.count Call.background_process_apply + 1 ∧
      (update_restart_background_process env fs fp s).2.background_process_timer = none := by
  unfold update_restart_background_process
  simp only [(restart_background_process_applies _ _ _).1,
    (restart_background_process_applies _ _ _).2]
  have h := update_background_process_applies env false false s
  split_ifs <;> simp [Priv.log, List.count_append, List.count_singleton, h.1, h.2]

theorem schedule_background_process_applies (s : Priv) :
    (schedule_background_process s).calls.count Call.background_process_apply =
        s.calls.count Call.background_process_apply ∧
      (schedule_background_process s).background_process_timer = some 500 ∧
      (schedule_background_process s).suppressed_backround_processing_update =
        s.suppressed_backround_processing_update := by
  simp [schedule_background_process, Priv.log, List.count_append, List.count_singleton]

theorem schedule_burst_applies (n : Nat) (s : Priv) :
    (schedule_burst n s).calls.count Call.background_process_apply =
        s.calls.count Call.background_process_apply ∧
      (schedule_burst n s).background_process_timer =
        (if n = 0 then s.background_process_timer else some 500) ∧
      (schedule_burst n s).suppressed_backround_processing_update =
        s.suppressed_backround_processing_update := by
  induction n generalizing s with
  | zero => simp [schedule_burst]
  | succ k ih =>
    have h := schedule_background_process_applies s
    have hk := ih (schedule_background_process s)
    refine ⟨?_, ?_, ?_⟩
    · simp only [schedule_burst]
      rw [hk.1, h.1]
    · simp only [schedule_burst]
      rw [hk.2.1, h.2.1]
      simp
    · simp only [schedule_burst]
      rw [hk.2.2, h.2.2]

/-- Without a pending fire the timer does nothing. -/
theorem timer_fire_idle (env : Env) (t : Priv) (h : t.background_process_timer = none) :
    timer_fire env t = t := by
  unfold timer_fire
  rw [h]

/-- C23: with the timer as a single pending-fire slot, a burst of `n >= 1` consecutive calls
of `schedule_background_process` leaves exactly one fire pending and calls
`background_process.apply` not at all; when that fire comes, updates not being suppressed,
`update_background_process` runs exactly once (one more `apply` than before the burst), no
fire remains pending, and a further fire of the timer does nothing. -/
theorem burst_of_schedules_fires_once (env : Env) (n : Nat) (s : Priv) (hn : 1 ≤ n)
    (hs : s.suppressed_backround_processing_update = false) :
    (schedule_burst n s).background_process_timer = some 500 ∧
      (schedule_burst n s).calls.count Call.background_process_apply =
        s.calls.count Call.background_process_apply ∧
      (timer_fire env (schedule_burst n s)).calls.count Call.background_process_apply =
        s.calls.count Call.background_process_apply + 1 ∧
      (timer_fire env (schedule_burst n s)).background_process_timer = none ∧
      timer_fire env (timer_fire env (schedule_burst n s)) =
        timer_fire env (schedule_burst n s) := by
  have hb := schedule_burst_applies n s
  have hn0 : n ≠ 0 := by omega
  have htimer : (schedule_burst n s).background_process_timer = some 500 := by
    rw [hb.2.1, if_neg hn0]
  have hfire : timer_fire env (schedule_burst n s) =
      (update_restart_background_process env false false
        { schedule_burst n s with background_process_timer := none }).2 := by
    unfold timer_fire
    rw [htimer]
    simp only [on_timer]
    rw [if_pos]
    simp [hb.2.2, hs]
  have hu := update_restart_background_process_applies env false false
    { schedule_burst n s with background_process_timer := none }
  have hnone : (timer_fire env (schedule_burst n s)).background_process_timer = none := by
    rw [hfire]
    exact hu.2
  refine ⟨htimer, hb.1, ?_, hnone, ?_⟩
  · rw [hfire, hu.1]
    simp [hb.1]
  · exact timer_fire_idle env _ hnone

theorem burst_of_schedules_fires_once_witness :
    (schedule_burst 3 {}).background_process_timer = some 500 ∧
      (timer_fire {} (schedule_burst 3 {})).calls.count Call.background_process_apply =
        ({} : Priv).calls.count Call.background_process_apply + 1 :=
  ⟨(burst_of_schedules_fires_once {} 3 {} (by decide) rfl).1,
    (burst_of_schedules_fires_once {} 3 {} (by decide) rfl).2.2.1⟩

/-! ## `update` and the debounce timer -/

/-- In FFF mode without the force flag, `update` is the scene reload followed by
`schedule_background_process`. -/
theorem update_fff_unforced (env : Env) (flags : Nat) (s : Priv)
    (hfff : s.printer_technology = PrinterTechnology.ptFFF)
    (hflag : flags &&& FORCE_BACKGROUND_PROCESSING_UPDATE = 0) :
    update env flags s =
      schedule_background_process
        (((if env.autocenter = true then s.log Call.center_instances_around_point else s).log
          (Call.reload_scene false ((flags &&& FORCE_FULL_SCREEN_REFRESH) != 0))).log
          Call.preview_reload_print) := by
  unfold update
  by_cases ha : env.autocenter = true <;> simp [ha, hfff, hflag, Priv.log]

/-- In SLA mode `update` runs `update_background_process`, reloads the scene and ends with
`restart_background_process`, whatever the flags. -/
theorem update_sla_any (env : Env) (flags : Nat) (s : Priv)
    (hsla : s.printer_technology = PrinterTechnology.ptSLA) :
    update env flags s =
      (restart_background_process env
        (update_background_process env false ((flags &&& POSTPONE_VALIDATION_ERROR_MESSAGE) != 0)
          (if env.autocenter = true then s.log Call.center_instances_around_point else s)).1
        (((update_background_process env false
            ((flags &&& POSTPONE_VALIDATION_ERROR_MESSAGE) != 0)
            (if env.autocenter = true then s.log Call.center_instances_around_point
              else s)).2.log
          (Call.reload_scene false ((flags &&& FORCE_FULL_SCREEN_REFRESH) != 0))).log
          Call.preview_reload_print)).2 := by
  have hpre : (if env.autocenter = true then s.log Call.center_instances_around_point
      else s).printer_technology = PrinterTechnology.ptSLA := by
    split_ifs <;> simp [Priv.log, hsla]
  have htech := controller_frame_technology _ _
    (update_background_process_frame env false
      ((flags &&& POSTPONE_VALIDATION_ERROR_MESSAGE) != 0)
      (if env.autocenter = true then s.log Call.center_instances_around_point else s))
  unfold update
  dsimp only
  rw [hpre]
  simp only [Bool.or_eq_true, decide_eq_true_eq, true_or, if_true]
  exact if_pos (htech.trans hpre)

/-- Logging a call other than `background_process.apply` leaves the number of recorded
applies as it was. -/
theorem applies_log (s : Priv) (c : Call) (hc : c ≠ Call.background_process_apply) :
    (s.log c).calls.count Call.background_process_apply =
      s.calls.count Call.background_process_apply := by
  simp [Priv.log, List.count_append, List.count_singleton, hc]

/-- C24 (counterexample): in SLA mode `update` with no flag at all calls
`background_process.apply` through `update_background_process` and leaves no fire of the
debounce timer pending. -/
theorem update_sla_applies_synchronously :
    (0 : Nat) &&& FORCE_BACKGROUND_PROCESSING_UPDATE = 0 ∧
      Call.background_process_apply ∈
        (update {} 0 { printer_technology := PrinterTechnology.ptSLA }).calls ∧
      Call.timer_start 500 ∉
        (update {} 0 { printer_technology := PrinterTechnology.ptSLA }).calls ∧
      (update {} 0 { printer_technology := PrinterTechnology.ptSLA }).background_process_timer =
        none := by
  decide

/-- C24 (amended): for flags without `FORCE_BACKGROUND_PROCESSING_UPDATE`, in FFF mode `update`
makes no call of `background_process.apply` and leaves one fire of the debounce timer pending;
in SLA mode `update` calls `background_process.apply` exactly once, synchronously, and leaves
no fire pending. -/
theorem update_debounces_in_fff_only (env : Env) (flags : Nat) (s : Priv)
    (hflag : flags &&& FORCE_BACKGROUND_PROCESSING_UPDATE = 0) :
    (s.printer_technology = PrinterTechnology.ptFFF →
      (update env flags s).calls.count Call.background_process_apply =
          s.calls.count Call.background_process_apply ∧
        (update env flags s).background_process_timer = some 500) ∧
    (s.printer_technology = PrinterTechnology.ptSLA →
      (update env flags s).calls.count Call.background_process_apply =
          s.calls.count Call.background_process_apply + 1 ∧
        (update env flags s).background_process_timer = none) := by
  have hpre : (if env.autocenter = true then s.log Call.center_instances_around_point
      else s).calls.count Call.background_process_apply =
      s.calls.count Call.background_process_apply := by
    split_ifs
    · exact applies_log _ _ (by simp)
    · rfl
  constructor
  · intro hfff
    rw [update_fff_unforced env flags s hfff hflag]
    generalize (if env.autocenter = true then s.log Call.center_instances_around_point
      else s) = t at hpre
    have h := schedule_background_process_applies
      ((t.log (Call.reload_scene false ((flags &&& FORCE_FULL_SCREEN_REFRESH) != 0))).log
        Call.preview_reload_print)
    refine ⟨?_, h.2.1⟩
    rw [h.1, applies_log _ _ (by simp), applies_log _ _ (by simp), hpre]
  · intro hsla
    rw [update_sla_any env flags s hsla]
    generalize (if env.autocenter = true then s.log Call.center_instances_around_point
      else s) = t at hpre
    have hu := update_background_process_applies env false
      ((flags &&& POSTPONE_VALIDATION_ERROR_MESSAGE) != 0) t
    rw [(restart_background_process_applies _ _ _).1, (restart_background_process_applies _ _ _).2]
    constructor
    · rw [applies_log _ _ (by simp), applies_log _ _ (by simp), hu.1, hpre]
    · exact hu.2

theorem update_debounces_in_fff_only_witness :
    (update {} 0 {}).background_process_timer = some 500 ∧
      (update {} 0 { printer_technology := PrinterTechnology.ptSLA }).background_process_timer =
        none :=
  ⟨((update_debounces_in_fff_only {} 0 {} (by decide)).1 rfl).2,
    ((update_debounces_in_fff_only {} 0 { printer_technology := PrinterTechnology.ptSLA }
      (by decide)).2 rfl).2⟩

/-! ## Bed stride -/

/-- Every item of `selected_items` and of `unselected_items` was made by `get_arrange_poly`. -/
theorem items_from_get_arrange_poly (s : Priv) (p : ArrangePolygon)
    (hp : p ∈ selected_items s ∨ p ∈ unselected_items s) :
    ∃ target x y r, p = get_arrange_poly s.bed_stride target x y r := by
  have hinst : ∀ (f : Nat × Nat × ModelInstance → Bool),
      p ∈ ((all_instances s.objects).filter f).map (get_arrange_poly_instance s.bed_stride) →
      ∃ target x y r, p = get_arrange_poly s.bed_stride target x y r := by
    intro f hmem
    obtain ⟨x, _, hx⟩ := List.mem_map.mp hmem
    exact ⟨_, _, _, _, hx.symm⟩
  have hwt : ∀ c : Bool,
      p ∈ (if c = true then [get_arrange_poly_wipe_tower s.bed_stride s.wipetower] else []) →
      ∃ target x y r, p = get_arrange_poly s.bed_stride target x y r := by
    intro c hmem
    split_ifs at hmem
    · rw [List.mem_singleton] at hmem
      exact ⟨_, _, _, _, hmem⟩
    · simp at hmem
  rcases hp with hp | hp
  · unfold selected_items at hp
    rcases List.mem_append.mp hp with h | h
    · exact hinst _ h
    · exact hwt _ h
  · unfold unselected_items at hp
    rcases List.mem_append.mp hp with h | h
    · exact hinst _ h
    · exact hwt _ h

/-! ## The fallback of `prepare_selected` -/

/-- A selection that names no printable instance and not the wipe tower selects no item. -/
theorem selected_items_nil_of_unprintable (s : Priv)
    (hwt : s.selection.is_wipe_tower = false)
    (hsel : ∀ x ∈ all_instances s.objects,
      is_selected s.selection x.1 x.2.1 = true → x.2.2.printable = false) :
    selected_items s = [] := by
  unfold selected_items
  rw [List.append_eq_nil]
  constructor
  · rw [List.map_eq_nil_iff, List.filter_eq_nil_iff]
    intro x hx hc
    rw [Bool.and_eq_true] at hc
    have := hsel x hx hc.2
    rw [hc.1] at this
    exact Bool.noConfusion this
  · rw [hwt]
    simp

/-- C27: in `ArrangeJob::prepare_selected` the fallback to "arrange everything" is decided by
`m_selected` being empty: whenever the selection names only non-printable instances and not the
wipe tower (the selection itself may well be non-empty), `m_selected` ends up holding every
printable instance and the wipe tower when present, as `get_arrange_poly` made them (no stride
subtracted), `m_unselected` ends up empty and `m_unprintable` holds the non-printable
instances. -/
theorem fallback_decided_by_m_selected (s : Priv) (job : ArrangeJob)
    (hkeys : (s.selection.content.map Prod.fst).Nodup)
    (hwt : s.selection.is_wipe_tower = false)
    (hsel : ∀ x ∈ all_instances s.objects,
      is_selected s.selection x.1 x.2.1 = true → x.2.2.printable = false) :
    (prepare_selected s job).m_selected = printable_items s ∧
      (prepare_selected s job).m_unselected = [] ∧
      (prepare_selected s job).m_unprintable = unprintable_items s := by
  have hnil := selected_items_nil_of_unprintable s hwt hsel
  have hall := nothing_selected_unselected_all s hnil
  rw [prepare_selected_before_swap s job hkeys, hnil, hall]
  simp

theorem fallback_decided_by_m_selected_witness :
    ({ content := [(1, [1])] } : Selection).content ≠ [] ∧
      (prepare_selected
        { bed_stride := 120, objects := scenario_plate,
          wipetower := { present := true, tx := 300 },
          selection := { content := [(1, [1])] } } {}).m_selected =
        printable_items
          { bed_stride := 120, objects := scenario_plate,
            wipetower := { present := true, tx := 300 },
            selection := { content := [(1, [1])] } } ∧
      (prepare_selected
        { bed_stride := 120, objects := scenario_plate,
          wipetower := { present := true, tx := 300 },
          selection := { content := [(1, [1])] } } {}).m_unselected = [] :=
  ⟨by decide,
    (fallback_decided_by_m_selected
      { bed_stride := 120, objects := scenario_plate,
        wipetower := { present := true, tx := 300 },
        selection := { content := [(1, [1])] } } {} (by decide) rfl (by decide)).1,
    (fallback_decided_by_m_selected
      { bed_stride := 120, objects := scenario_plate,
        wipetower := { present := true, tx := 300 },
        selection := { content := [(1, [1])] } } {} (by decide) rfl (by decide)).2.1⟩

/-! ## History menu -/

/-- When the test of the string getters passes and the read succeeds, the position is
neither the first nor the last one of the vector, and the text is the name stored there. -/
theorem read_snapshot_name_found (l : List Snapshot) (idx : Int) (label : String)
    (h : read_snapshot_name l idx = Read.found label) :
    0 < idx ∧ idx + 1 < (l.length : Int) ∧
      ∃ sn, l.get? idx.toNat = some sn ∧ sn.name = label := by
  unfold read_snapshot_name at h
  split_ifs at h with hc
  rw [List.get?_eq_getElem?] at h
  cases hget : l[idx.toNat]? with
  | none => simp [hget] at h
  | some sn =>
    simp only [hget, Read.found.injEq] at h
    have hlen : idx.toNat < l.length := by
      obtain ⟨hlt, _⟩ := List.getElem?_eq_some.mp hget
      exact hlt
    have hne : idx ≠ (l.length : Int) - 1 := by
      intro heq
      have := hc.2
      rw [heq] at this
      exact lt_irrefl _ this
    refine ⟨hc.1, by omega, sn, ?_, h⟩
    rw [List.get?_eq_getElem?]
    exact hget

/-- On a stack strictly ordered by time stamp, the jump by index reaches the entry whose time
stamp it read. -/
theorem jump_to_index_entry (s : Priv) (idx : Int) (h0 : 0 ≤ idx)
    (hlt : idx < ((undo_redo_stack s).snapshots.length : Int))
    (hsorted : (undo_redo_stack s).snapshots.Pairwise (fun a b => a.timestamp < b.timestamp)) :
    jump_to_index idx s = Read.found idx := by
  have hi : idx.toNat < (undo_redo_stack s).snapshots.length := by omega
  unfold jump_to_index
  rw [if_pos h0, List.get?_eq_get hi]
  simp only [undo_redo_to_time]
  rw [lower_bound_of_entry _ _ hi hsorted, Int.toNat_of_nonneg h0]

/-- C26: the history menu and the jump agree.  On a stack strictly ordered by time stamp, with
`a` the active snapshot index: whenever `undo_redo_string_getter(true, k)` returns a label, the
label is the name of entry `a - k - 1` and `undo_to(k)` jumps to exactly entry `a - k - 1`;
whenever `undo_redo_string_getter(false, k)` returns a label, the label is the name of entry
`a + k` and `redo_to(k)` jumps to entry `a + k + 1`, which is inside the stack. -/
theorem history_menu_and_jump_agree (s : Priv) (k : Int) (label : String)
    (hsorted : (undo_redo_stack s).snapshots.Pairwise (fun a b => a.timestamp < b.timestamp)) :
    (undo_redo_string_getter true k s = Read.found label →
      (∃ sn, (undo_redo_stack s).snapshots.get? (get_active_snapshot_index s - k - 1).toNat =
          some sn ∧ sn.name = label) ∧
        0 < get_active_snapshot_index s - k - 1 ∧
        undo_to k s = Read.found (get_active_snapshot_index s - k - 1)) ∧
    (undo_redo_string_getter false k s = Read.found label →
      (∃ sn, (undo_redo_stack s).snapshots.get? (get_active_snapshot_index s + k).toNat =
          some sn ∧ sn.name = label) ∧
        redo_to k s = Read.found (get_active_snapshot_index s + k + 1) ∧
        0 ≤ get_active_snapshot_index s + k + 1 ∧
        get_active_snapshot_index s + k + 1 < ((undo_redo_stack s).snapshots.length : Int)) := by
  have ha : get_active_snapshot_index s =
      ((lower_bound (undo_redo_stack s).snapshots (undo_redo_stack s).active_snapshot_time : Nat)
        : Int) := rfl
  constructor
  · intro h
    have h1 : read_snapshot_name (undo_redo_stack s).snapshots
        (get_active_snapshot_index s - k - 1) = Read.found label := by
      have hidx : get_active_snapshot_index s + -(k + 1) =
          get_active_snapshot_index s - k - 1 := by ring
      rw [← hidx]
      exact h
    obtain ⟨hpos, hlast, hname⟩ := read_snapshot_name_found _ _ _ h1
    refine ⟨hname, hpos, ?_⟩
    unfold undo_to
    by_cases hk0 : k = 0
    · rw [if_pos hk0]
      have hundo : undo s = some (get_active_snapshot_index s - k - 1) := by
        unfold undo
        simp only [← ha]
        rw [if_pos]
        · rw [hk0]
          simp
        · rw [hk0] at hpos
          omega
      rw [hundo]
    · rw [if_neg hk0]
      exact jump_to_index_entry s _ (le_of_lt hpos) (by omega) hsorted
  · intro h
    have h1 : read_snapshot_name (undo_redo_stack s).snapshots
        (get_active_snapshot_index s + k) = Read.found label := h
    obtain ⟨hpos, hlast, hname⟩ := read_snapshot_name_found _ _ _ h1
    refine ⟨hname, ?_, by omega, hlast⟩
    unfold redo_to
    by_cases hk0 : k = 0
    · rw [if_pos hk0]
      have hredo : redo s = some (get_active_snapshot_index s + k + 1) := by
        unfold redo
        simp only [← ha]
        rw [if_pos]
        · rw [hk0]
          simp
        · rw [hk0] at hlast
          omega
      rw [hredo]
    · rw [if_neg hk0]
      exact jump_to_index_entry s _ (by omega) hlast hsorted

/-- A history of five entries with entry 2 active: the first undo label is the name of entry 1
and `undo_to(0)` jumps there; the second redo label is the name of entry 3 and `redo_to(1)`
jumps to entry 4. -/
theorem history_menu_and_jump_agree_witness :
    undo_to 0
        { m_undo_redo_stack_main :=
          { snapshots := [{ timestamp := 0, name := "New Project" },
              { timestamp := 3, name := "Move" }, { timestamp := 5, name := "Rotate" },
              { timestamp := 8, name := "Scale" }, { timestamp := 9 }],
            active_snapshot_time := 5 } } = Read.found 1 ∧
      redo_to 1
        { m_undo_redo_stack_main :=
          { snapshots := [{ timestamp := 0, name := "New Project" },
              { timestamp := 3, name := "Move" }, { timestamp := 5, name := "Rotate" },
              { timestamp := 8, name := "Scale" }, { timestamp := 9 }],
            active_snapshot_time := 5 } } = Read.found 4 :=
  ⟨((history_menu_and_jump_agree
      { m_undo_redo_stack_main :=
        { snapshots := [{ timestamp := 0, name := "New Project" },
            { timestamp := 3, name := "Move" }, { timestamp := 5, name := "Rotate" },
            { timestamp := 8, name := "Scale" }, { timestamp := 9 }],
          active_snapshot_time := 5 } } 0 "Move" (by simp [undo_redo_stack])).1
      (by decide)).2.2,
    ((history_menu_and_jump_agree
      { m_undo_redo_stack_main :=
        { snapshots := [{ timestamp := 0, name := "New Project" },
            { timestamp := 3, name := "Move" }, { timestamp := 5, name := "Rotate" },
            { timestamp := 8, name := "Scale" }, { timestamp := 9 }],
          active_snapshot_time := 5 } } 1 "Scale" (by simp [undo_redo_stack])).2
      (by decide)).2.1⟩

/-! ## The string getters and the bounds of the snapshot vector -/

theorem lower_bound_le (l : List Snapshot) (t : Nat) : lower_bound l t ≤ l.length := by
  unfold lower_bound
  exact (List.takeWhile_sublist _).length_le

/-- On a non-empty vector the test of the string getters admits valid positions only. -/
theorem read_snapshot_name_in_range (l : List Snapshot) (idx : Int) (hne : l ≠ [])
    (hlen : (l.length : Int) < 2 ^ 64) (hidx : idx < 2 ^ 64) :
    read_snapshot_name l idx ≠ Read.out_of_range := by
  have hpos : 0 < l.length := List.length_pos.mpr hne
  unfold read_snapshot_name
  split_ifs with hc
  · have h1 : to_size_t idx = idx := Int.emod_eq_of_lt (le_of_lt hc.1) hidx
    have h2 : to_size_t ((l.length : Int) - 1) = (l.length : Int) - 1 :=
      Int.emod_eq_of_lt (by omega) (by omega)
    have h3 := hc.2
    rw [h1, h2] at h3
    have hi : idx.toNat < l.length := by omega
    rw [List.get?_eq_get hi]
    simp
  · simp

/-- On the empty vector `ss_stack.size() - 1` wraps around to the largest `size_t`, so the
test admits every positive position. -/
theorem read_snapshot_name_nil (idx : Int) (hidx : idx < 2 ^ 64 - 1) :
    read_snapshot_name [] idx = if 0 < idx then Read.out_of_range else Read.absent := by
  have h2 : to_size_t (((([] : List Snapshot).length : Nat) : Int) - 1) = 2 ^ 64 - 1 := by
    decide
  unfold read_snapshot_name
  rw [h2]
  by_cases h0 : 0 < idx
  · have h1 : to_size_t idx = idx := Int.emod_eq_of_lt (le_of_lt h0) (by omega)
    rw [h1, if_pos ⟨h0, hidx⟩, if_pos h0]
    rfl
  · rw [if_neg (fun h => h0 h.1), if_neg h0]

/-- C30: the reads of the two string getters, for `idx >= 0` in the range of `int` and a
snapshot vector of fewer than `2^31` entries.  On a non-empty active stack neither getter
reads outside the snapshot vector.  On an empty active stack the topmost getter reports no
label, but `undo_redo_string_getter` reads outside the vector exactly when `is_undo` is false
and `idx >= 1`: the bound `ss_stack.size() - 1` wraps around.  A label that is reported is
never that of the first or of the last entry. -/
theorem string_getter_reads_outside_empty_stack (s : Priv) (is_undo : Bool) (idx : Int)
    (h0 : 0 ≤ idx) (hint : idx < 2 ^ 31)
    (hlen : ((undo_redo_stack s).snapshots.length : Int) < 2 ^ 31) :
    ((undo_redo_stack s).snapshots ≠ [] →
      undo_redo_string_getter is_undo idx s ≠ Read.out_of_range ∧
        undo_redo_topmost_string_getter is_undo s ≠ Read.out_of_range) ∧
    ((undo_redo_stack s).snapshots = [] →
      undo_redo_topmost_string_getter is_undo s = Read.absent ∧
        (undo_redo_string_getter is_undo idx s = Read.out_of_range ↔
          (is_undo = false ∧ 1 ≤ idx))) ∧
    (∀ label, undo_redo_string_getter is_undo idx s = Read.found label →
      0 < get_active_snapshot_index s + (if is_undo = true then -(idx + 1) else idx) ∧
        get_active_snapshot_index s + (if is_undo = true then -(idx + 1) else idx) + 1 <
          ((undo_redo_stack s).snapshots.length : Int)) := by
  have ha : get_active_snapshot_index s ≤ ((undo_redo_stack s).snapshots.length : Int) := by
    unfold get_active_snapshot_index
    exact_mod_cast lower_bound_le _ _
  have ha0 : 0 ≤ get_active_snapshot_index s := by
    unfold get_active_snapshot_index
    exact Int.ofNat_nonneg _
  refine ⟨?_, ?_, ?_⟩
  · intro hne
    constructor
    · unfold undo_redo_string_getter
      apply read_snapshot_name_in_range _ _ hne (by omega)
      split_ifs <;> omega
    · unfold undo_redo_topmost_string_getter
      apply read_snapshot_name_in_range _ _ hne (by omega)
      split_ifs <;> omega
  · intro hnil
    have ha1 : get_active_snapshot_index s = 0 := by
      rw [hnil] at ha
      simp only [List.length_nil, Nat.cast_zero] at ha
      omega
    constructor
    · unfold undo_redo_topmost_string_getter
      simp only [hnil, ha1]
      rw [read_snapshot_name_nil _ (by split_ifs <;> decide)]
      cases is_undo <;> simp
    · unfold undo_redo_string_getter
      simp only [hnil, ha1]
      rw [read_snapshot_name_nil _ (by split_ifs <;> omega)]
      cases is_undo
      · simp only [Bool.false_eq_true, if_false, zero_add, true_and]
        constructor
        · intro h
          split_ifs at h
          omega
        · intro h
          rw [if_pos (by omega)]
      · simp only [if_true, zero_add]
        rw [if_neg (by omega)]
        simp
  · intro label h
    have h1 := read_snapshot_name_found _ _ _ h
    exact ⟨h1.1, h1.2.1⟩

/-- The empty gizmos stack being active, the redo getter with `idx = 1` reads at position `1`
of an empty vector. -/
theorem string_getter_reads_outside_empty_stack_witness :
    (undo_redo_stack { m_undo_redo_stack_active := ActiveStack.gizmos }).snapshots = [] ∧
      undo_redo_string_getter false 1 { m_undo_redo_stack_active := ActiveStack.gizmos } =
        Read.out_of_range :=
  ⟨rfl,
    ((string_getter_reads_outside_empty_stack
      { m_undo_redo_stack_active := ActiveStack.gizmos } false 1 (by decide) (by decide)
      (by decide)).2.1 rfl).2.mpr ⟨rfl, by decide⟩⟩

/-! ## `find_new_position` -/

theorem find_new_position_instances_eq (env : Env) (instances : List (Nat × Nat)) (oidx : Nat)
    (i : Nat) (l : List ModelInstance) (acc : List ArrangePolygon × List ArrangePolygon) :
    find_new_position_instances env instances oidx i l acc =
      (acc.1 ++ ((instances_from oidx i l).filter
          (fun x => instances.contains (x.1, x.2.1))).map (get_arrange_polygon_instance env),
        acc.2 ++ ((instances_from oidx i l).filter
          (fun x => !instances.contains (x.1, x.2.1))).map (get_arrange_polygon_instance env)) := by
  induction l generalizing i acc with
  | nil => simp [find_new_position_instances, instances_from]
  | cons mi rest ih =>
    unfold find_new_position_instances
    by_cases hc : (oidx, i) ∈ instances
    · simp [hc, ih, instances_from, List.filter_cons]
    · simp [hc, ih, instances_from, List.filter_cons]

theorem find_new_position_objects_eq (env : Env) (instances : List (Nat × Nat)) (k : Nat)
    (objs : List ModelObject) (acc : List ArrangePolygon × List ArrangePolygon) :
    find_new_position_objects env instances k objs acc =
      (acc.1 ++ ((all_instances_from k objs).filter
          (fun x => instances.contains (x.1, x.2.1))).map (get_arrange_polygon_instance env),
        acc.2 ++ ((all_instances_from k objs).filter
          (fun x => !instances.contains (x.1, x.2.1))).map (get_arrange_polygon_instance env)) := by
  induction objs generalizing k acc with
  | nil => simp [find_new_position_objects, all_instances_from]
  | cons mo rest ih =>
    unfold find_new_position_objects
    rw [ih, find_new_position_instances_eq]
    simp [all_instances_from, List.filter_append, List.map_append, List.append_assoc]

theorem mem_instances_from (oidx i : Nat) (l : List ModelInstance)
    (x : Nat × Nat × ModelInstance) (hx : x ∈ instances_from oidx i l) :
    x.1 = oidx ∧ i ≤ x.2.1 ∧ x.2.1 < i + l.length := by
  induction l generalizing i with
  | nil => simp [instances_from] at hx
  | cons mi rest ih =>
    simp only [instances_from, List.mem_cons] at hx
    rcases hx with rfl | hx
    · simp
    · have := ih (i + 1) hx
      simp only [List.length_cons]
      omega

theorem mem_all_instances_from (k : Nat) (objs : List ModelObject)
    (x : Nat × Nat × ModelInstance) (hx : x ∈ all_instances_from k objs) :
    k ≤ x.1 ∧ ∃ mo, objs.get? (x.1 - k) = some mo ∧ x.2.1 < mo.instances.length := by
  induction objs generalizing k with
  | nil => simp [all_instances_from] at hx
  | cons mo rest ih =>
    simp only [all_instances_from, List.mem_append] at hx
    rcases hx with hx | hx
    · have h := mem_instances_from k 0 mo.instances x hx
      refine ⟨by omega, mo, ?_, by omega⟩
      rw [h.1]
      simp
    · obtain ⟨hk, mo1, hget, hlt⟩ := ih (k + 1) hx
      refine ⟨by omega, mo1, ?_, hlt⟩
      have hsub : x.1 - k = (x.1 - (k + 1)) + 1 := by omega
      rw [hsub]
      simpa using hget

theorem mem_instance_pointers (oidx n a b : Nat) :
    (a, b) ∈ instance_pointers oidx n ↔ a = oidx ∧ b < n := by
  unfold instance_pointers
  simp only [List.mem_map, List.mem_range, Prod.mk.injEq]
  constructor
  · rintro ⟨i, hi, rfl, rfl⟩
    exact ⟨rfl, hi⟩
  · rintro ⟨rfl, hb⟩
    exact ⟨b, hb, rfl, rfl⟩

theorem instances_from_filter_object (oidx o i : Nat) (l : List ModelInstance) :
    (instances_from oidx i l).filter (fun x => x.1 == o) =
      if oidx = o then instances_from oidx i l else [] := by
  induction l generalizing i with
  | nil => simp [instances_from]
  | cons mi rest ih =>
    by_cases h : oidx = o
    · subst h
      simp only [instances_from, List.filter_cons, beq_self_eq_true, if_true, ih]
    · simp [instances_from, List.filter_cons, h, ih]

theorem all_instances_from_filter_later (k o : Nat) (objs : List ModelObject) (h : o < k) :
    (all_instances_from k objs).filter (fun x => x.1 == o) = [] := by
  rw [List.filter_eq_nil_iff]
  intro x hx hc
  have := (mem_all_instances_from k objs x hx).1
  simp only [beq_iff_eq] at hc
  omega

/-- The instances of object `o` inside the list of all instances. -/
theorem all_instances_from_filter_object (k o : Nat) (objs : List ModelObject)
    (mo : ModelObject) (hk : k ≤ o) (hget : objs.get? (o - k) = some mo) :
    (all_instances_from k objs).filter (fun x => x.1 == o) =
      instances_from o 0 mo.instances := by
  induction objs generalizing k with
  | nil => simp at hget
  | cons m rest ih =>
    simp only [all_instances_from, List.filter_append, instances_from_filter_object]
    by_cases h : k = o
    · subst h
      simp only [Nat.sub_self, List.get?_cons_zero, Option.some.injEq] at hget
      subst hget
      rw [if_pos rfl, all_instances_from_filter_later _ _ _ (Nat.lt_succ_self k)]
      simp
    · rw [if_neg h]
      have hsub : o - k = (o - (k + 1)) + 1 := by omega
      rw [hsub, List.get?_cons_succ] at hget
      rw [ih (k + 1) (by omega) hget]
      simp

theorem instances_from_pointers (oidx i : Nat) (l : List ModelInstance) :
    (instances_from oidx i l).map (fun x => (x.1, x.2.1)) =
      (List.range' i l.length).map (fun j => (oidx, j)) := by
  induction l generalizing i with
  | nil => simp [instances_from]
  | cons mi rest ih => simp [instances_from, ih, List.range'_succ]

theorem instances_from_length (oidx i : Nat) (l : List ModelInstance) :
    (instances_from oidx i l).length = l.length := by
  induction l generalizing i with
  | nil => simp [instances_from]
  | cons mi rest ih => simp [instances_from, ih]

theorem arranged_from_length (result : Nat → Int × Int × Int × Int) (i : Nat)
    (l : List ArrangePolygon) : (arranged_from result i l).length = l.length := by
  induction l generalizing i with
  | nil => simp [arranged_from]
  | cons ap rest ih => simp [arranged_from, ih]

/-- When the packed vector holds one item per pointer, the write-back loop reads inside the
vector at every step and commits exactly the items placed on bed 0. -/
theorem find_new_position_write_back_eq (movable : List ArrangePolygon)
    (rest : List (Nat × Nat)) (pre tail : List ArrangePolygon) (i : Nat) (s : Priv)
    (hm : movable = pre ++ tail) (hi : pre.length = i) (hlen : tail.length = rest.length) :
    find_new_position_write_back movable i rest s =
      some { s with calls := s.calls ++ bed_zero_writes rest tail } := by
  induction rest generalizing pre tail i s with
  | nil =>
    cases tail with
    | nil => simp [find_new_position_write_back, bed_zero_writes]
    | cons ap tl => simp at hlen
  | cons inst rest1 ih =>
    cases tail with
    | nil => simp at hlen
    | cons ap tl =>
      have hget : movable.get? i = some ap := by
        rw [hm, ← hi, List.get?_eq_getElem?, List.getElem?_append_right (le_refl _)]
        simp
      have hm1 : movable = (pre ++ [ap]) ++ tl := by
        rw [hm]
        simp
      have hi1 : (pre ++ [ap]).length = i + 1 := by
        simp [hi]
      have hlen1 : tl.length = rest1.length := by
        simpa using hlen
      unfold find_new_position_write_back
      rw [hget]
      simp only
      rw [ih (pre ++ [ap]) tl (i + 1) _ hm1 hi1 hlen1]
      by_cases hb : ap.bed_idx = 0
      · simp [hb, bed_zero_writes, Priv.log]
      · simp [hb, bed_zero_writes]

/-- The two lists of `find_new_position` when `instances` is the complete instance list of
object `oidx`. -/
theorem find_new_position_lists_single_object (env : Env) (s : Priv) (oidx : Nat)
    (mo : ModelObject) (hobj : s.objects.get? oidx = some mo) :
    find_new_position_lists env (instance_pointers oidx mo.instances.length) s =
      ((instances_from oidx 0 mo.instances).map (get_arrange_polygon_instance env),
        ((all_instances s.objects).filter (fun x => x.1 != oidx)).map
            (get_arrange_polygon_instance env) ++
          (if s.wipetower.present = true then [s.wipetower.get_arrange_polygon env] else [])) := by
  have hpred : ∀ x ∈ all_instances_from 0 s.objects,
      (instance_pointers oidx mo.instances.length).contains (x.1, x.2.1) = (x.1 == oidx) := by
    intro x hx
    obtain ⟨_, mo1, hget, hlt⟩ := mem_all_instances_from 0 s.objects x hx
    by_cases h : x.1 = oidx
    · rw [h] at hget
      simp only [Nat.sub_zero] at hget
      rw [hobj] at hget
      simp only [Option.some.injEq] at hget
      subst hget
      have hmem : (oidx, x.2.1) ∈ instance_pointers oidx mo.instances.length :=
        (mem_instance_pointers _ _ _ _).mpr ⟨rfl, hlt⟩
      simp [hmem, h]
    · have hmem : ¬ (x.1, x.2.1) ∈ instance_pointers oidx mo.instances.length :=
        fun hm => h ((mem_instance_pointers _ _ _ _).mp hm).1
      simp [hmem, h]
  have h1 : (all_instances_from 0 s.objects).filter
      (fun x => (instance_pointers oidx mo.instances.length).contains (x.1, x.2.1)) =
      instances_from oidx 0 mo.instances := by
    rw [List.filter_congr hpred]
    exact all_instances_from_filter_object 0 oidx s.objects mo (Nat.zero_le _) hobj
  have h2 : (all_instances_from 0 s.objects).filter
      (fun x => !(instance_pointers oidx mo.instances.length).contains (x.1, x.2.1)) =
      (all_instances s.objects).filter (fun x => x.1 != oidx) := by
    unfold all_instances
    apply List.filter_congr
    intro x hx
    rw [hpred x hx]
    rfl
  unfold find_new_position_lists
  simp only [find_new_position_objects_eq, h1, h2, List.nil_append]
  split_ifs <;> simp

/-- C28: `find_new_position` called with the complete instance list of object `oidx` (the
call made by the orientation search).  The movable list holds one arrange polygon per entry of
`instances`, in the same order, so both have the same length; the fixed list holds the
instances of all other objects, followed by the wipe tower when present; the write-back loop
reads inside the packed vector at every index (the function returns); and the solved
translation and rotation are written to `instances[i]` exactly for the items placed on
bed 0. -/
theorem find_new_position_single_object (env : Env) (s : Priv) (oidx : Nat) (mo : ModelObject)
    (hobj : s.objects.get? oidx = some mo) :
    (find_new_position_lists env (instance_pointers oidx mo.instances.length) s).1 =
        (instances_from oidx 0 mo.instances).map (get_arrange_polygon_instance env) ∧
      (instances_from oidx 0 mo.instances).map (fun x => (x.1, x.2.1)) =
        instance_pointers oidx mo.instances.length ∧
      (find_new_position_lists env (instance_pointers oidx mo.instances.length) s).1.length =
        (instance_pointers oidx mo.instances.length).length ∧
      (find_new_position_lists env (instance_pointers oidx mo.instances.length) s).2 =
        ((all_instances s.objects).filter (fun x => x.1 != oidx)).map
            (get_arrange_polygon_instance env) ++
          (if s.wipetower.present = true then [s.wipetower.get_arrange_polygon env] else []) ∧
      find_new_position env (instance_pointers oidx mo.instances.length) s =
        some
          { s with
            calls := s.calls ++
              bed_zero_writes (instance_pointers oidx mo.instances.length)
                (arranged_from
                  (env.arrange_result
                    (find_new_position_lists env (instance_pointers oidx mo.instances.length)
                      s).1
                    (find_new_position_lists env (instance_pointers oidx mo.instances.length)
                      s).2)
                  0
                  (find_new_position_lists env (instance_pointers oidx mo.instances.length)
                    s).1) } := by
  have hl := find_new_position_lists_single_object env s oidx mo hobj
  have hlen : (find_new_position_lists env (instance_pointers oidx mo.instances.length)
      s).1.length = (instance_pointers oidx mo.instances.length).length := by
    rw [hl]
    simp [instances_from_length, instance_pointers]
  refine ⟨by rw [hl], ?_, hlen, by rw [hl], ?_⟩
  · rw [instances_from_pointers, instance_pointers, List.range_eq_range']
  · unfold find_new_position
    exact find_new_position_write_back_eq _ _ [] _ 0 s (by simp) rfl
      (by rw [arranged_from_length, hlen])

/-- On the plate of the scenario, object 1 (two instances) is re-placed: the packer puts its
instance 0 on bed 0 and its instance 1 on bed 1, and only instance 0 is written. -/
theorem find_new_position_single_object_witness :
    (find_new_position_lists { arrange_result := fun _ _ i => (100 + i, 7, 1, i) }
        (instance_pointers 1 2) { objects := scenario_plate }).1.length = 2 ∧
      find_new_position { arrange_result := fun _ _ i => (100 + i, 7, 1, i) }
          (instance_pointers 1 2) { objects := scenario_plate } =
        some { calls := [Call.apply_arrange_result (ArrangeTarget.model_instance 1 0) 100 7 1],
               objects := scenario_plate } :=
  ⟨(find_new_position_single_object { arrange_result := fun _ _ i => (100 + i, 7, 1, i) }
      { objects := scenario_plate } 1
      { instances := [{ tx := 40 }, { printable := false, tx := 500 }] } rfl).2.2.1,
    (find_new_position_single_object { arrange_result := fun _ _ i => (100 + i, 7, 1, i) }
      { objects := scenario_plate } 1
      { instances := [{ tx := 40 }, { printable := false, tx := 500 }] } rfl).2.2.2.2⟩

/-! ## Export -/

theorem validates_log (s : Priv) (c : Call) (hc : c ≠ Call.background_process_validate) :
    (s.log c).calls.count Call.background_process_validate =
      s.calls.count Call.background_process_validate := by
  simp [Priv.log, List.count_append, List.count_singleton, hc]

theorem update_invalidated_validates (env : Env) (s : Priv) :
    (update_invalidated env s).2.calls.count Call.background_process_validate =
      s.calls.count Call.background_process_validate := by
  unfold update_invalidated
  dsimp only [Priv.log]
  split_ifs <;> simp [List.count_append, List.count_singleton]

theorem update_validate_validates (env : Env) (fv pp : Bool) (rs : Nat) (s : Priv) :
    (update_validate env fv pp rs s).2.calls.count Call.background_process_validate =
      s.calls.count Call.background_process_validate +
        if ((env.apply_status != ApplyStatus.APPLY_STATUS_UNCHANGED || fv) &&
            !s.background_process.empty) = true then 1 else 0 := by
  unfold update_validate
  dsimp only [Priv.log]
  split_ifs <;> simp_all [List.count_append, List.count_singleton]

theorem update_notify_cancelled_validates (env : Env) (wr : Bool) (rs : Nat) (s : Priv) :
    (update_notify_cancelled env wr rs s).calls.count Call.background_process_validate =
      s.calls.count Call.background_process_validate := by
  unfold update_notify_cancelled
  dsimp only [Priv.log]
  split_ifs <;> simp [List.count_append, List.count_singleton]

theorem update_buttons_validates (env : Env) (rs : Nat) (s : Priv) :
    (update_buttons env rs s).calls.count Call.background_process_validate =
      s.calls.count Call.background_process_validate := by
  unfold update_buttons
  dsimp only [Priv.log]
  split_ifs <;> simp [List.count_append, List.count_singleton]

/-- One run of `update_background_process` calls `background_process.validate()` once when
validation runs and not at all otherwise. -/
theorem update_background_process_validates (env : Env) (fv pp : Bool) (s : Priv) :
    (update_background_process env fv pp s).2.calls.count Call.background_process_validate =
      s.calls.count Call.background_process_validate +
        if validation_runs env fv = true then 1 else 0 := by
  unfold update_background_process validation_runs
  simp only [update_buttons_validates, update_notify_cancelled_validates,
    update_validate_validates, update_invalidated_validates,
    (update_invalidated_frame _ _).2.2.1]
  by_cases hl : env.layers_editing_enabled = true <;>
    simp [hl, Priv.log, List.count_append, List.count_singleton]

theorem restart_background_process_validates (env : Env) (state : Nat) (s : Priv) :
    (restart_background_process env state s).2.calls.count Call.background_process_validate =
        s.calls.count Call.background_process_validate ∧
      scheduled (restart_background_process env state s).2.calls = scheduled s.calls := by
  unfold restart_background_process
  dsimp only [Priv.log]
  split_ifs <;> simp [List.count_append, List.count_singleton, scheduled_append, scheduled]

/-- The `INVALID` bit of a mask made of a scene part and a validation part. -/
theorem invalid_bit_of_mask (a b : Nat) (ha : a = 0 ∨ a = 2) (hb : b = 0 ∨ b = 1 ∨ b = 4) :
    (a ||| b) &&& 4 ≠ 0 ↔ b = 4 := by
  rcases ha with rfl | rfl <;> rcases hb with rfl | rfl | rfl <;> decide

/-- With forced validation the returned state has the `INVALID` bit exactly when validation
of a non-empty process returned an error, or the process is empty and an error is stored. -/
theorem update_background_process_forced_invalid (env : Env) (pp : Bool) (s : Priv) :
    (update_background_process env true pp s).1 &&& UPDATE_BACKGROUND_PROCESS_INVALID ≠ 0 ↔
      (if env.after_apply.empty = true then s.delayed_error_message ≠ ""
        else env.validate_err ≠ "") := by
  have hval : validation_runs env true = !env.after_apply.empty := by
    simp [validation_runs]
  rw [update_background_process_state, hval]
  have hmask := invalid_bit_of_mask
    (if env.apply_status = ApplyStatus.APPLY_STATUS_INVALIDATED ∧
        (s.printer_technology = PrinterTechnology.ptSLA ∨
          (s.printer_technology = PrinterTechnology.ptFFF ∧ s.config_wipe_tower = true))
      then UPDATE_BACKGROUND_PROCESS_REFRESH_SCENE else 0)
    (if (!env.after_apply.empty) = true then
        (if env.validate_err = "" then
          (if (env.apply_status != ApplyStatus.APPLY_STATUS_UNCHANGED &&
              s.config_background_processing) = true
            then UPDATE_BACKGROUND_PROCESS_RESTART else 0)
          else UPDATE_BACKGROUND_PROCESS_INVALID)
      else (if s.delayed_error_message = "" then 0 else UPDATE_BACKGROUND_PROCESS_INVALID))
    (by
      unfold UPDATE_BACKGROUND_PROCESS_REFRESH_SCENE
      split_ifs
      · exact Or.inr rfl
      · exact Or.inl rfl)
    (by
      unfold UPDATE_BACKGROUND_PROCESS_RESTART UPDATE_BACKGROUND_PROCESS_INVALID
      split_ifs
      · exact Or.inr (Or.inl rfl)
      · exact Or.inl rfl
      · exact Or.inr (Or.inr rfl)
      · exact Or.inl rfl
      · exact Or.inr (Or.inr rfl))
  refine hmask.trans ?_
  cases he : env.after_apply.empty
  · by_cases hv : env.validate_err = ""
    · simp only [Bool.not_false, if_true, hv, Bool.false_eq_true, if_false, ne_eq,
        not_true_eq_false, iff_false]
      unfold UPDATE_BACKGROUND_PROCESS_RESTART
      split_ifs <;> decide
    · simp [hv, UPDATE_BACKGROUND_PROCESS_INVALID]
  · by_cases hd : s.delayed_error_message = ""
    · simp [hd]
    · simp [hd, UPDATE_BACKGROUND_PROCESS_INVALID]

/-- Past its three early returns, `export_gcode` is the run of `update_background_process`
with forced validation, the scene reload it asks for and, unless the state is invalid, the
scheduling followed by `restart_background_process`. -/
theorem export_gcode_guarded (env : Env) (output_path : String) (on_removable_media : Bool)
    (upload_job : Option String) (s : Priv) :
    ¬ (output_path = "" ∧ upload_job = none) → s.objects ≠ [] →
    s.background_process.export_scheduled = false →
    export_gcode env output_path on_removable_media upload_job s =
      if ((update_background_process env true false s).1 &&&
          UPDATE_BACKGROUND_PROCESS_INVALID != 0) = true then
        (if ((update_background_process env true false s).1 &&&
            UPDATE_BACKGROUND_PROCESS_REFRESH_SCENE != 0) = true then
          (update_background_process env true false s).2.log (Call.reload_scene false false)
        else (update_background_process env true false s).2)
      else
        (restart_background_process env UPDATE_BACKGROUND_PROCESS_FORCE_EXPORT
          ((if output_path != "" then
              (if ((update_background_process env true false s).1 &&&
                  UPDATE_BACKGROUND_PROCESS_REFRESH_SCENE != 0) = true then
                (update_background_process env true false s).2.log
                  (Call.reload_scene false false)
              else (update_background_process env true false s).2).log
                (Call.schedule_export output_path on_removable_media)
            else
              match upload_job with
              | some host =>
                (if ((update_background_process env true false s).1 &&&
                    UPDATE_BACKGROUND_PROCESS_REFRESH_SCENE != 0) = true then
                  (update_background_process env true false s).2.log
                    (Call.reload_scene false false)
                else (update_background_process env true false s).2).log
                  (Call.schedule_upload host)
              | none =>
                (if ((update_background_process env true false s).1 &&&
                    UPDATE_BACKGROUND_PROCESS_REFRESH_SCENE != 0) = true then
                  (update_background_process env true false s).2.log
                    (Call.reload_scene false false)
                else (update_background_process env true false s).2)).log
            Call.set_task)).2 := by
  intro g1 g2 g3
  have h1 : ¬ ((output_path = "" && upload_job.isNone) = true) := by
    intro h
    apply g1
    cases upload_job <;> simp_all
  have h2 : ¬ (s.objects.isEmpty = true) := by
    intro h
    exact g2 (List.isEmpty_iff.mp h)
  have h3 : ¬ (s.background_process.export_scheduled = true) := by
    rw [g3]
    decide
  unfold export_gcode
  rw [if_neg h1, if_neg h2, if_neg h3]

/-- The second half of `export_gcode`, from a state `T`: exactly one export or upload is
scheduled, and neither `apply` nor `validate()` is called again. -/
theorem export_schedule_and_restart (env : Env) (output_path : String)
    (on_removable_media : Bool) (upload_job : Option String) (T : Priv) :
    ¬ (output_path = "" ∧ upload_job = none) →
    calls_extend T
        (restart_background_process env UPDATE_BACKGROUND_PROCESS_FORCE_EXPORT
          ((if (output_path != "") = true then
              T.log (Call.schedule_export output_path on_removable_media)
            else
              match upload_job with
              | some host => T.log (Call.schedule_upload host)
              | none => T).log Call.set_task)).2 ∧
      (restart_background_process env UPDATE_BACKGROUND_PROCESS_FORCE_EXPORT
          ((if (output_path != "") = true then
              T.log (Call.schedule_export output_path on_removable_media)
            else
              match upload_job with
              | some host => T.log (Call.schedule_upload host)
              | none => T).log Call.set_task)).2.calls.count Call.background_process_apply =
        T.calls.count Call.background_process_apply ∧
      (restart_background_process env UPDATE_BACKGROUND_PROCESS_FORCE_EXPORT
          ((if (output_path != "") = true then
              T.log (Call.schedule_export output_path on_removable_media)
            else
              match upload_job with
              | some host => T.log (Call.schedule_upload host)
              | none => T).log Call.set_task)).2.calls.count
          Call.background_process_validate =
        T.calls.count Call.background_process_validate ∧
      scheduled (restart_background_process env UPDATE_BACKGROUND_PROCESS_FORCE_EXPORT
          ((if (output_path != "") = true then
              T.log (Call.schedule_export output_path on_removable_media)
            else
              match upload_job with
              | some host => T.log (Call.schedule_upload host)
              | none => T).log Call.set_task)).2.calls =
        scheduled T.calls ++
          (if output_path ≠ "" then [Call.schedule_export output_path on_removable_media]
          else (upload_job.map Call.schedule_upload).toList) := by
  intro g1
  rw [(restart_background_process_applies _ _ _).1, (restart_background_process_validates _ _ _).1,
    (restart_background_process_validates _ _ _).2, applies_log _ _ (by simp),
    validates_log _ _ (by simp)]
  by_cases hp : output_path = ""
  · cases upload_job with
    | none => exact absurd ⟨hp, rfl⟩ g1
    | some host =>
      refine ⟨?_, ?_, ?_, ?_⟩
      · apply calls_extend_restart
        apply calls_extend_log
        simpa [hp] using calls_extend_log _ _ (Call.schedule_upload host) (calls_extend_refl T)
      · simp [hp, Priv.log, List.count_append, List.count_singleton]
      · simp [hp, Priv.log, List.count_append, List.count_singleton]
      · simp [hp, Priv.log, scheduled_append, scheduled]
  · refine ⟨?_, ?_, ?_, ?_⟩
    · apply calls_extend_restart
      apply calls_extend_log
      simpa [hp] using calls_extend_log _ _
        (Call.schedule_export output_path on_removable_media) (calls_extend_refl T)
    · simp [hp, Priv.log, List.count_append, List.count_singleton]
    · simp [hp, Priv.log, List.count_append, List.count_singleton]
    · simp [hp, Priv.log, scheduled_append, scheduled]

/-- C14: `export_gcode` past its early returns (a call without target, an empty model, an
export already scheduled: nothing is scheduled then, and nothing started) always runs
`update_background_process` with `force_validation = true`, first and exactly once: its log
opens the log of `export_gcode`, `background_process.apply` is called exactly once and
`background_process.validate()` exactly once on a process that is not empty, even when `apply`
reports `UNCHANGED`, and nothing is scheduled during that run.  If the returned state has the
`INVALID` bit (validation of a non-empty process returned an error, or the process is empty and
an error is stored), no export and no upload is scheduled and `background_process.start()` is
not called; otherwise exactly one export or upload is scheduled, after that run. -/
theorem export_gcode_validates_first (env : Env) (output_path : String)
    (on_removable_media : Bool) (upload_job : Option String) (s : Priv) :
    (((output_path = "" ∧ upload_job = none) ∨ s.objects = [] ∨
        s.background_process.export_scheduled = true) →
      scheduled (export_gcode env output_path on_removable_media upload_job s).calls =
          scheduled s.calls ∧
        (export_gcode env output_path on_removable_media upload_job s).calls.count
            Call.background_process_start = s.calls.count Call.background_process_start) ∧
    (¬ (output_path = "" ∧ upload_job = none) → s.objects ≠ [] →
      s.background_process.export_scheduled = false →
      (∃ tail, (export_gcode env output_path on_removable_media upload_job s).calls =
          (update_background_process env true false s).2.calls ++ tail) ∧
        scheduled (update_background_process env true false s).2.calls = scheduled s.calls ∧
        (export_gcode env output_path on_removable_media upload_job s).calls.count
            Call.background_process_apply = s.calls.count Call.background_process_apply + 1 ∧
        (export_gcode env output_path on_removable_media upload_job s).calls.count
            Call.background_process_validate =
          s.calls.count Call.background_process_validate +
            (if env.after_apply.empty = true then 0 else 1) ∧
        ((update_background_process env true false s).1 &&&
            UPDATE_BACKGROUND_PROCESS_INVALID ≠ 0 ↔
          (if env.after_apply.empty = true then s.delayed_error_message ≠ ""
            else env.validate_err ≠ "")) ∧
        ((update_background_process env true false s).1 &&&
            UPDATE_BACKGROUND_PROCESS_INVALID ≠ 0 →
          scheduled (export_gcode env output_path on_removable_media upload_job s).calls =
              scheduled s.calls ∧
            (export_gcode env output_path on_removable_media upload_job s).calls.count
                Call.background_process_start =
              s.calls.count Call.background_process_start) ∧
        ((update_background_process env true false s).1 &&&
            UPDATE_BACKGROUND_PROCESS_INVALID = 0 →
          scheduled (export_gcode env output_path on_removable_media upload_job s).calls =
            scheduled s.calls ++
              (if output_path ≠ "" then
                [Call.schedule_export output_path on_removable_media]
              else (upload_job.map Call.schedule_upload).toList))) := by
  have hsched := update_background_process_scheduled env true false s
  have hstart := update_background_process_starts env true false s
  have happ := (update_background_process_applies env true false s).1
  have hval := update_background_process_validates env true false s
  have hruns : validation_runs env true = !env.after_apply.empty := by
    simp [validation_runs]
  constructor
  · intro hguard
    by_cases g1 : (output_path = "" && upload_job.isNone) = true
    · have he : export_gcode env output_path on_removable_media upload_job s = s := by
        simp only [export_gcode, g1, if_true]
      rw [he]
      exact ⟨rfl, rfl⟩
    by_cases g2 : s.objects.isEmpty = true
    · have he : export_gcode env output_path on_removable_media upload_job s = s := by
        simp [export_gcode, g2]
      rw [he]
      exact ⟨rfl, rfl⟩
    by_cases g3 : s.background_process.export_scheduled = true
    · have he : export_gcode env output_path on_removable_media upload_job s =
          s.log (Call.show_error "Another export job is currently running.") := by
        unfold export_gcode
        rw [if_neg g1, if_neg g2, if_pos g3]
      rw [he]
      constructor
      · simp [Priv.log, scheduled_append, scheduled]
      · simp [Priv.log, List.count_append, List.count_singleton]
    · exfalso
      rcases hguard with h | h | h
      · apply g1
        simp [h.1, h.2]
      · apply g2
        simp [h]
      · exact g3 h
  · intro g1 g2 g3
    have he := export_gcode_guarded env output_path on_removable_media upload_job s g1 g2 g3
    have hbit := update_background_process_forced_invalid env false s
    generalize hU : update_background_process env true false s = U at *
    have hT : ∀ c : Bool,
        scheduled (if c = true then U.2.log (Call.reload_scene false false) else U.2).calls =
            scheduled s.calls ∧
          (if c = true then U.2.log (Call.reload_scene false false) else U.2).calls.count
              Call.background_process_start = s.calls.count Call.background_process_start ∧
          (if c = true then U.2.log (Call.reload_scene false false) else U.2).calls.count
              Call.background_process_apply = s.calls.count Call.background_process_apply + 1 ∧
          (if c = true then U.2.log (Call.reload_scene false false) else U.2).calls.count
              Call.background_process_validate =
            s.calls.count Call.background_process_validate +
              (if env.after_apply.empty = true then 0 else 1) ∧
          calls_extend U.2
            (if c = true then U.2.log (Call.reload_scene false false) else U.2) := by
      intro c
      have hv2 : U.2.calls.count Call.background_process_validate =
          s.calls.count Call.background_process_validate +
            (if env.after_apply.empty = true then 0 else 1) := by
        rw [hval, hruns]
        cases env.after_apply.empty <;> simp
      cases c
      · exact ⟨hsched, hstart, happ, hv2, calls_extend_refl _⟩
      · refine ⟨?_, ?_, ?_, ?_, calls_extend_log _ _ _ (calls_extend_refl _)⟩
        · simp [Priv.log, scheduled_append, scheduled, hsched]
        · simp [Priv.log, List.count_append, List.count_singleton, hstart]
        · simp [Priv.log, List.count_append, List.count_singleton, happ]
        · simp only [if_true]
          rw [validates_log _ _ (by simp), hv2]
    generalize (U.1 &&& UPDATE_BACKGROUND_PROCESS_REFRESH_SCENE != 0) = c at he
    obtain ⟨hT1, hT2, hT3, hT4, hT5⟩ := hT c
    generalize (if c = true then U.2.log (Call.reload_scene false false) else U.2) = T at *
    by_cases hinv : (U.1 &&& UPDATE_BACKGROUND_PROCESS_INVALID != 0) = true
    · rw [if_pos hinv] at he
      rw [he]
      refine ⟨hT5, hsched, hT3, hT4, hbit, fun _ => ⟨hT1, hT2⟩, fun h0 => ?_⟩
      simp [h0] at hinv
    · rw [if_neg hinv] at he
      have hinv0 : U.1 &&& UPDATE_BACKGROUND_PROCESS_INVALID = 0 := by
        simpa using hinv
      have hS := export_schedule_and_restart env output_path on_removable_media upload_job T g1
      rw [he]
      obtain ⟨hS1, hS2, hS3, hS4⟩ := hS
      refine ⟨?_, hsched, ?_, ?_, hbit, fun h => absurd hinv0 h, fun _ => ?_⟩
      · obtain ⟨t1, ht1⟩ := hT5
        obtain ⟨t2, ht2⟩ := hS1
        exact ⟨t1 ++ t2, by rw [ht2, ht1, List.append_assoc]⟩
      · rw [hS2, hT3]
      · rw [hS3, hT4]
      · rw [hS4, hT1]

/-- Two export requests.  On a valid print that `apply` reports unchanged, the print is
validated all the same (one call of `validate()`), and one export is scheduled.  On an invalid
print nothing is scheduled and nothing is started. -/
theorem export_gcode_validates_first_witness :
    ((export_gcode { after_apply := { empty := false } } "out.gcode" false none
          { objects := [{}], background_process := { empty := false } }).calls.count
          Call.background_process_validate = 1 ∧
      scheduled (export_gcode { after_apply := { empty := false } } "out.gcode" false none
          { objects := [{}], background_process := { empty := false } }).calls =
        [Call.schedule_export "out.gcode" false]) ∧
    (scheduled (export_gcode
        { apply_status := ApplyStatus.APPLY_STATUS_INVALIDATED,
          after_apply := { empty := false }, validate_err := "No extrusions" }
        "out.gcode" false none
        { objects := [{}], background_process := { empty := false } }).calls = [] ∧
      (export_gcode
        { apply_status := ApplyStatus.APPLY_STATUS_INVALIDATED,
          after_apply := { empty := false }, validate_err := "No extrusions" }
        "out.gcode" false none
        { objects := [{}], background_process := { empty := false } }).calls.count
          Call.background_process_start = 0) :=
  ⟨⟨((export_gcode_validates_first { after_apply := { empty := false } } "out.gcode" false none
        { objects := [{}], background_process := { empty := false } }).2
        (by decide) (by decide) rfl).2.2.2.1,
      ((export_gcode_validates_first { after_apply := { empty := false } } "out.gcode" false none
        { objects := [{}], background_process := { empty := false } }).2
        (by decide) (by decide) rfl).2.2.2.2.2.2 (by decide)⟩,
    ((export_gcode_validates_first
        { apply_status := ApplyStatus.APPLY_STATUS_INVALIDATED,
          after_apply := { empty := false }, validate_err := "No extrusions" }
        "out.gcode" false none
        { objects := [{}], background_process := { empty := false } }).2
        (by decide) (by decide) rfl).2.2.2.2.2.1 (by decide)⟩

/-! ## What `finalize` commits -/

theorem arrange_results_append (a b : List Call) :
    arrange_results (a ++ b) = arrange_results a ++ arrange_results b := by
  induction a with
  | nil => rfl
  | cons c rest ih => cases c <;> simp [arrange_results, ih]

theorem update_background_process_arrange_results (env : Env) (fv pp : Bool) (s : Priv) :
    arrange_results (update_background_process env fv pp s).2.calls =
      arrange_results s.calls := by
  have h1 : ∀ t : Priv,
      arrange_results (update_invalidated env t).2.calls = arrange_results t.calls := by
    intro t
    unfold update_invalidated
    dsimp only [Priv.log]
    split_ifs <;> simp [arrange_results_append, arrange_results]
  have h2 : ∀ (rs : Nat) (t : Priv),
      arrange_results (update_validate env fv pp rs t).2.calls = arrange_results t.calls := by
    intro rs t
    unfold update_validate
    dsimp only [Priv.log]
    split_ifs <;> simp [arrange_results_append, arrange_results]
  have h3 : ∀ (wr : Bool) (rs : Nat) (t : Priv),
      arrange_results (update_notify_cancelled env wr rs t).calls =
        arrange_results t.calls := by
    intro wr rs t
    unfold update_notify_cancelled
    dsimp only [Priv.log]
    split_ifs <;> simp [arrange_results_append, arrange_results]
  have h4 : ∀ (rs : Nat) (t : Priv),
      arrange_results (update_buttons env rs t).calls = arrange_results t.calls := by
    intro rs t
    unfold update_buttons
    dsimp only [Priv.log]
    split_ifs <;> simp [arrange_results_append, arrange_results]
  unfold update_background_process
  simp only [h1, h2, h3, h4]
  split_ifs <;> simp [Priv.log, arrange_results_append, arrange_results]

theorem restart_background_process_arrange_results (env : Env) (state : Nat) (s : Priv) :
    arrange_results (restart_background_process env state s).2.calls =
      arrange_results s.calls := by
  unfold restart_background_process
  dsimp only [Priv.log]
  split_ifs <;> simp [arrange_results_append, arrange_results]

theorem arrange_results_log (s : Priv) (c : Call)
    (hc : ∀ target tx ty rotation, c ≠ Call.apply_arrange_result target tx ty rotation) :
    arrange_results (s.log c).calls = arrange_results s.calls := by
  cases c
  case apply_arrange_result t x y r => exact absurd rfl (hc t x y r)
  all_goals simp [Priv.log, arrange_results_append, arrange_results]

/-- The call `update()` at the end of `finalize` writes nothing back. -/
theorem update_arrange_results (env : Env) (s : Priv) :
    arrange_results (update env 0 s).calls = arrange_results s.calls := by
  have hpre : arrange_results (if env.autocenter = true then
      s.log Call.center_instances_around_point else s).calls = arrange_results s.calls := by
    split_ifs
    · exact arrange_results_log _ _ (by simp)
    · rfl
  cases htech : s.printer_technology with
  | ptFFF =>
    rw [update_fff_unforced env 0 s htech (by decide)]
    generalize (if env.autocenter = true then s.log Call.center_instances_around_point
      else s) = t at hpre
    simp [schedule_background_process, Priv.log, arrange_results_append, arrange_results, hpre]
  | ptSLA =>
    rw [update_sla_any env 0 s htech, restart_background_process_arrange_results]
    generalize (if env.autocenter = true then s.log Call.center_instances_around_point
      else s) = t at hpre
    rw [arrange_results_log _ _ (by simp), arrange_results_log _ _ (by simp),
      update_background_process_arrange_results, hpre]

theorem arrange_results_mem (l : List Call) (c : Call) (h : c ∈ arrange_results l) :
    c ∈ l := by
  induction l with
  | nil => simp [arrange_results] at h
  | cons d rest ih =>
    cases d
    case apply_arrange_result t x y r =>
      simp only [arrange_results, List.mem_cons] at h ⊢
      rcases h with h | h
      · exact Or.inl h
      · exact Or.inr (ih h)
    all_goals exact List.mem_cons_of_mem _ (ih (by simpa [arrange_results] using h))

theorem apply_arrange_results (env : Env) (stride : Int) (p : ArrangePolygon) (t : Priv) :
    arrange_results (p.apply env stride t).calls =
      arrange_results t.calls ++ setter_commits env stride [p] := by
  unfold ArrangePolygon.apply setter_commits
  by_cases h : p.is_arranged env = true
  · simp [h, Priv.log, arrange_results_append, arrange_results]
  · simp [h]

theorem setter_commits_cons (env : Env) (stride : Int) (p : ArrangePolygon)
    (l : List ArrangePolygon) :
    setter_commits env stride (p :: l) =
      setter_commits env stride [p] ++ setter_commits env stride l := by
  unfold setter_commits
  by_cases h : p.is_arranged env = true
  · simp [h, List.filter_cons]
  · simp [h, List.filter_cons]

/-- The first loop of `finalize` runs the setter of every item of `m_selected`. -/
theorem finalize_selected_results (env : Env) (stride : Int) (l : List ArrangePolygon)
    (b : Int) (t : Priv) :
    arrange_results (finalize_selected env stride l (b, t)).2.calls =
      arrange_results t.calls ++ setter_commits env stride l := by
  induction l generalizing b t with
  | nil => simp [finalize_selected, setter_commits]
  | cons ap rest ih =>
    rw [finalize_selected, ih, apply_arrange_results, setter_commits_cons env stride ap rest,
      List.append_assoc]

/-- The third loop of `finalize` runs the setter of every item of `m_unprintable`, after the
shift of its bed index. -/
theorem finalize_unprintable_results (env : Env) (stride beds : Int)
    (l : List ArrangePolygon) (t : Priv) :
    arrange_results (finalize_unprintable env stride beds l t).2.calls =
      arrange_results t.calls ++
        setter_commits env stride (finalize_unprintable env stride beds l t).1 := by
  induction l generalizing t with
  | nil => simp [finalize_unprintable, setter_commits]
  | cons ap rest ih =>
    simp only [finalize_unprintable]
    rw [ih, apply_arrange_results, List.append_assoc]
    congr 1
    exact (setter_commits_cons _ _ _ _).symm

/-- What `finalize` of a run that was not cancelled writes back: the items of `m_selected`
and of `m_unprintable`, never those of `m_unselected`. -/
theorem finalize_results (env : Env) (job : ArrangeJob) (s : Priv) :
    arrange_results (finalize env false job s).2.calls =
      arrange_results s.calls ++ setter_commits env s.bed_stride job.m_selected ++
        setter_commits env s.bed_stride (finalize env false job s).1.m_unprintable := by
  simp only [finalize, Bool.false_eq_true, if_false]
  rw [update_arrange_results, finalize_unprintable_results, finalize_selected_results]

/-! ## Bed stride: what is subtracted and what is committed -/

/-- C21, as stated, fails: one instance at `x = 250` on a bed of stride `120`, nothing
selected.  `prepare_selected` puts the item into `m_selected` with bed index `2` and its
translation untouched (no stride is subtracted from it); with translation and bed index left
as they are, `finalize` commits `x = 250 + 2 * 120 = 490`, not the original `250`. -/
theorem untouched_selected_item_shifted :
    (prepare_selected { bed_stride := 120, objects := [{ instances := [{ tx := 250 }] }] }
        {}).m_selected =
        [{ target := ArrangeTarget.model_instance 0 0, tx := 250, ty := 0, rotation := 0,
           bed_idx := 2, priority := 0 }] ∧
      (prepare_selected { bed_stride := 120, objects := [{ instances := [{ tx := 250 }] }] }
        {}).m_unselected = [] ∧
      arrange_results (finalize {} false
        (prepare_selected { bed_stride := 120, objects := [{ instances := [{ tx := 250 }] }] }
          {})
        { bed_stride := 120, objects := [{ instances := [{ tx := 250 }] }] }).2.calls =
        [Call.apply_arrange_result (ArrangeTarget.model_instance 0 0) 490 0 0] := by
  decide

/-- C21, amended: for a bed stride `s > 0`.  Every fixed item that `prepare_selected` leaves
in `m_unselected` was made by `get_arrange_poly` from an x translation `x`, has the bed index
`x / s` (truncating) and the x translation `x - bed_idx * s`, the truncating remainder, so that
translation plus `bed_idx * s` is `x` again.  Every item of `m_selected` keeps its x
translation `x` next to the bed index `x / s`: no stride is subtracted from it, and translation
plus `bed_idx * s` is `x` only when the bed index is 0.  `finalize` of a run that was not
cancelled runs the setters of `m_selected` and `m_unprintable` only, never those of
`m_unselected`, and a setter commits translation plus `bed_idx * s` when the item counts as
arranged and nothing otherwise.  So a prepared item that reaches `finalize` with translation and
bed index unchanged is committed at `x + (x / s) * s`. -/
theorem stride_subtracted_from_fixed_items_only (env : Env) (s : Priv) (job : ArrangeJob)
    (hstride : 0 < s.bed_stride)
    (hkeys : (s.selection.content.map Prod.fst).Nodup) :
    (∀ p ∈ (prepare_selected s job).m_unselected, ∃ target x y r,
      p = remove_stride s.bed_stride (get_arrange_poly s.bed_stride target x y r) ∧
        p.bed_idx = Int.tdiv x s.bed_stride ∧
        p.tx = x - Int.tdiv x s.bed_stride * s.bed_stride ∧
        p.tx = Int.tmod x s.bed_stride ∧ p.tx < s.bed_stride ∧
        p.tx + p.bed_idx * s.bed_stride = x) ∧
    (∀ p ∈ (prepare_selected s job).m_selected, ∃ target x y r,
      p = get_arrange_poly s.bed_stride target x y r ∧ p.tx = x ∧
        p.bed_idx = Int.tdiv x s.bed_stride ∧
        (p.tx + p.bed_idx * s.bed_stride = x ↔ p.bed_idx = 0)) ∧
    (∀ packed : ArrangeJob,
      arrange_results (finalize env false packed s).2.calls =
        arrange_results s.calls ++ setter_commits env s.bed_stride packed.m_selected ++
          setter_commits env s.bed_stride (finalize env false packed s).1.m_unprintable) ∧
    (∀ p ∈ (prepare_selected s job).m_selected, p.is_arranged env = true →
      Call.apply_arrange_result p.target
          (p.tx + Int.tdiv p.tx s.bed_stride * s.bed_stride) p.ty p.rotation ∈
        (finalize env false (prepare_selected s job) s).2.calls) := by
  have hsel : ∀ p ∈ (prepare_selected s job).m_selected, ∃ target x y r,
      p = get_arrange_poly s.bed_stride target x y r := by
    intro p hp
    rw [prepare_selected_before_swap s job hkeys] at hp
    split_ifs at hp
    · exact items_from_get_arrange_poly s p (Or.inr hp)
    · exact items_from_get_arrange_poly s p (Or.inl hp)
  refine ⟨?_, ?_, fun packed => finalize_results env packed s, ?_⟩
  · intro p hp
    rw [prepare_selected_before_swap s job hkeys] at hp
    have hmem : ∃ q, (q ∈ selected_items s ∨ q ∈ unselected_items s) ∧
        remove_stride s.bed_stride q = p := by
      split_ifs at hp
      · obtain ⟨q, hq, hqp⟩ := List.mem_map.mp hp
        exact ⟨q, Or.inl hq, hqp⟩
      · obtain ⟨q, hq, hqp⟩ := List.mem_map.mp hp
        exact ⟨q, Or.inr hq, hqp⟩
    obtain ⟨q, hq, hqp⟩ := hmem
    obtain ⟨target, x, y, r, hqe⟩ := items_from_get_arrange_poly s q hq
    subst hqe
    subst hqp
    refine ⟨target, x, y, r, rfl, rfl, rfl, ?_, ?_, ?_⟩
    · simp only [remove_stride, get_arrange_poly]
      rw [Int.tmod_def, mul_comm]
    · simp only [remove_stride, get_arrange_poly]
      have h := Int.tmod_lt_of_pos x hstride
      rw [Int.tmod_def, mul_comm] at h
      exact h
    · simp only [remove_stride, get_arrange_poly]
      ring
  · intro p hp
    obtain ⟨target, x, y, r, hpe⟩ := hsel p hp
    subst hpe
    refine ⟨target, x, y, r, rfl, rfl, rfl, ?_⟩
    simp only [get_arrange_poly]
    constructor
    · intro h
      have h0 : Int.tdiv x s.bed_stride * s.bed_stride = 0 := by linarith
      rcases mul_eq_zero.mp h0 with h1 | h1
      · exact h1
      · exact absurd h1 (ne_of_gt hstride)
    · intro h
      rw [h]
      ring
  · intro p hp harr
    obtain ⟨target, x, y, r, hpe⟩ := hsel p hp
    apply arrange_results_mem
    rw [finalize_results]
    apply List.mem_append_left
    apply List.mem_append_right
    unfold setter_commits
    refine List.mem_map.mpr ⟨p, List.mem_filter.mpr ⟨hp, harr⟩, ?_⟩
    subst hpe
    rfl

/-- The plate of the scenario.  With three instances selected, the two fixed items have the
stride taken out.  With the instance at `x = 250` selected, `finalize` of the job as prepared
commits it at `250 + (250 / 120) * 120`. -/
theorem stride_subtracted_from_fixed_items_only_witness :
    (∀ p ∈ (prepare_selected
        { bed_stride := 120, objects := scenario_plate,
          selection := { content := [(0, [0, 2]), (2, [0])] } } {}).m_unselected,
      ∃ target x y r,
        p = remove_stride 120 (get_arrange_poly 120 target x y r) ∧
          p.bed_idx = Int.tdiv x 120 ∧ p.tx = x - Int.tdiv x 120 * 120 ∧
          p.tx = Int.tmod x 120 ∧ p.tx < 120 ∧ p.tx + p.bed_idx * 120 = x) ∧
      Call.apply_arrange_result (ArrangeTarget.model_instance 0 1)
          (250 + Int.tdiv 250 120 * 120) 0 0 ∈
        (finalize {} false
          (prepare_selected
            { bed_stride := 120, objects := scenario_plate,
              selection := { content := [(0, [1])] } } {})
          { bed_stride := 120, objects := scenario_plate,
            selection := { content := [(0, [1])] } }).2.calls :=
  ⟨(stride_subtracted_from_fixed_items_only {}
      { bed_stride := 120, objects := scenario_plate,
        selection := { content := [(0, [0, 2]), (2, [0])] } } {} (by decide) (by decide)).1,
    (stride_subtracted_from_fixed_items_only {}
      { bed_stride := 120, objects := scenario_plate,
        selection := { content := [(0, [1])] } } {} (by decide) (by decide)).2.2.2
      { target := ArrangeTarget.model_instance 0 1, tx := 250, ty := 0, rotation := 0,
        bed_idx := 2, priority := 0 } (by decide) (by decide)⟩

end Plater
